import Mathlib

/-! # Multi-pass render orchestration of the 3D shading scene

A shallow embedding of `Scene.cpp`, `Light.cpp`, `Shader.cpp`, `Texture.cpp` and `Common.h`.

* Scalars (`float`) are elements of an arbitrary field `F`; the C library functions and the
  helper classes that are not part of the sources (`CVector3`, `CMatrix4x4`, `Model`, `Camera`,
  `MathHelpers`, `GraphicsHelpers`, `State`) are either modelled from the specification or taken
  as the fields of a record `Helpers F`.
* Every call on `gD3DContext`, every `Model::Render()` and the final `Present` becomes one `Cmd`;
  a rendering function returns the list of commands it issues, in order.
* `DeviceState` with `DeviceState.step` replays a command list and records what is bound;
  `drawLog` pairs every draw with the device state it is issued in.
* Array accesses and pointer dereferences are fallible (`Except Fault`).
-/

namespace Shading

/-! ## Vectors and matrices -/

/-- Modelled from the spec: `CVector3.h` is not among the sources; a vector of three floats
with fields `x`, `y`, `z`, built in the code with `{ a, b, c }`. -/
structure CVector3 (F : Type) where
  x : F
  y : F
  z : F
  deriving DecidableEq

/-- Modelled from the spec: componentwise `operator+` of `CVector3`. -/
def CVector3.add {F : Type} [Field F] (a b : CVector3 F) : CVector3 F :=
  ⟨a.x + b.x, a.y + b.y, a.z + b.z⟩

/-- Modelled from the spec: `operator*` of a `CVector3` and a float (used for colour times
strength). -/
def CVector3.scale {F : Type} [Field F] (a : CVector3 F) (k : F) : CVector3 F :=
  ⟨a.x * k, a.y * k, a.z * k⟩

/-- Modelled from the spec: `CMatrix4x4.h` is not among the sources; a 4x4 matrix of floats,
used with row vectors (`view * projection`), rows `0..2` holding the axes and row `3` the
position of an affine transform. -/
abbrev CMatrix4x4 (F : Type) := Matrix (Fin 4) (Fin 4) F

/-- Modelled from the spec: `CMatrix4x4::GetZAxis`, the first three entries of row 2. -/
def GetZAxis {F : Type} (m : CMatrix4x4 F) : CVector3 F :=
  ⟨m 2 0, m 2 1, m 2 2⟩

/-- Modelled from the spec: uniform scaling matrix. -/
def MatrixScaling {F : Type} [Field F] (k : F) : CMatrix4x4 F :=
  Matrix.of ![![k, 0, 0, 0], ![0, k, 0, 0], ![0, 0, k, 0], ![0, 0, 0, 1]]

/-- Modelled from the spec: translation matrix, the position in row 3. -/
def MatrixTranslation {F : Type} [Field F] (p : CVector3 F) : CMatrix4x4 F :=
  Matrix.of ![![1, 0, 0, 0], ![0, 1, 0, 0], ![0, 0, 1, 0], ![p.x, p.y, p.z, 1]]

/-- Determinant of the upper-left 3x3 block of a matrix. -/
def det3 {F : Type} [Field F] (m : CMatrix4x4 F) : F :=
  m 0 0 * (m 1 1 * m 2 2 - m 1 2 * m 2 1)
    + m 0 1 * (m 1 2 * m 2 0 - m 1 0 * m 2 2)
    + m 0 2 * (m 1 0 * m 2 1 - m 1 1 * m 2 0)

/-- A matrix is affine when its last column is `(0, 0, 0, 1)`. -/
def IsAffine {F : Type} [Field F] (m : CMatrix4x4 F) : Prop :=
  m 0 3 = 0 ∧ m 1 3 = 0 ∧ m 2 3 = 0 ∧ m 3 3 = 1

/-- Modelled from the spec: `InverseAffine` (MathHelpers / CMatrix4x4, not among the sources),
"the inverse of its proxy's world transform": the 3x3 block is inverted through its cofactors
and determinant, the negated position is transformed by that inverse, and the last column is
set to `(0, 0, 0, 1)`. -/
def InverseAffine {F : Type} [Field F] (m : CMatrix4x4 F) : CMatrix4x4 F :=
  let invDet : F := 1 / det3 m
  let a00 := invDet * (m 1 1 * m 2 2 - m 1 2 * m 2 1)
  let a01 := invDet * (m 2 1 * m 0 2 - m 2 2 * m 0 1)
  let a02 := invDet * (m 0 1 * m 1 2 - m 0 2 * m 1 1)
  let a10 := invDet * (m 1 2 * m 2 0 - m 1 0 * m 2 2)
  let a11 := invDet * (m 2 2 * m 0 0 - m 2 0 * m 0 2)
  let a12 := invDet * (m 0 2 * m 1 0 - m 0 0 * m 1 2)
  let a20 := invDet * (m 1 0 * m 2 1 - m 1 1 * m 2 0)
  let a21 := invDet * (m 2 0 * m 0 1 - m 2 1 * m 0 0)
  let a22 := invDet * (m 0 0 * m 1 1 - m 0 1 * m 1 0)
  Matrix.of ![![a00, a01, a02, 0], ![a10, a11, a12, 0], ![a20, a21, a22, 0],
    ![-(m 3 0) * a00 - m 3 1 * a10 - m 3 2 * a20,
      -(m 3 0) * a01 - m 3 1 * a11 - m 3 2 * a21,
      -(m 3 0) * a02 - m 3 1 * a12 - m 3 2 * a22, 1]]

/-! ## Renderables, cameras and lights -/

/-- Meshes prepared by `InitGeometry`. -/
inductive Mesh
  | gCubeMesh | gCubeMeshAdvanced | gDecalMesh | gCrateMesh | gSphereMesh | gGroundMesh
  | gLightMesh | gPortalMesh | gSecondPortalMesh | gTeapotMesh | gCharacterMesh | gTrollMesh
  | gCubeMultiMesh | gAnimatedMesh
  deriving DecidableEq, Repr

/-- Modelled from the spec: `Model.h` is not among the sources. A renderable "owns a world
transform" set through `SetPosition/SetRotation/SetScale`; `new Model(mesh)` starts at the
origin, unrotated, with scale 1. -/
structure Model (F : Type) where
  mMesh : Mesh
  mPosition : CVector3 F
  mRotation : CVector3 F
  mScale : F

/-- Modelled from the spec: `Camera.h` is not among the sources; the camera state set by
`InitScene`. -/
structure Camera (F : Type) where
  mPosition : CVector3 F
  mRotation : CVector3 F
  mNearClip : F
  mFarClip : F

/-- Keys named in `UpdateScene`. -/
inductive KeyCode
  | Key_I | Key_K | Key_J | Key_L | Key_U | Key_O | Key_Period | Key_Comma
  | Key_T | Key_G | Key_F | Key_H | Key_R | Key_Y
  | Key_Up | Key_Down | Key_Left | Key_Right | Key_W | Key_S | Key_A | Key_D
  | Key_P | Key_1
  deriving DecidableEq, Repr

/-- State of the keyboard during one `UpdateScene`: the keys held down (`KeyHeld`, read by the
`Control` functions) and the keys newly pressed (`KeyHit`). -/
structure Input where
  held : KeyCode → Bool
  hit : KeyCode → Bool

/-- The functions the scene code calls but whose code is not among the sources: the C maths
library, `MathHelpers`, `GraphicsHelpers`, and the opaque parts of `Model` and `Camera`. -/
structure Helpers (F : Type) where
  /-- C library `sin` / `sinf`. -/
  sin : F → F
  /-- C library `cos`. -/
  cos : F → F
  /-- C library `pow`. -/
  pow : F → F → F
  /-- Degrees to radians (`MathHelpers.h`). -/
  ToRadians : F → F
  /-- Unit vector of a `CVector3`. -/
  Normalise : CVector3 F → CVector3 F
  /-- Perspective projection from aspect ratio and field of view (`GraphicsHelpers`). -/
  MakeProjectionMatrix : F → F → CMatrix4x4 F
  /-- Rotation matrix of a model with the given Euler angles. -/
  MatrixRotation : CVector3 F → CMatrix4x4 F
  /-- Euler angles that make a model at the first point face the second (`Model::FaceTarget`). -/
  FaceTargetRotation : CVector3 F → CVector3 F → CVector3 F
  /-- Keyboard control of a model (`Model::Control`, with the eight keys passed). -/
  ModelControl : F → List KeyCode → Input → Model F → Model F
  /-- Keyboard control of the bike (`ModelAnimation::Control`, `Control1`, `Control2`). -/
  BikeControl : Nat → F → List KeyCode → Input → Model F → Model F
  /-- Keyboard control of a camera (`Camera::Control`). -/
  CameraControl : F → List KeyCode → Input → Camera F → Camera F
  /-- The method `Camera::ViewMatrix`. -/
  ViewMatrix : Camera F → CMatrix4x4 F
  /-- The method `Camera::ProjectionMatrix`. -/
  ProjectionMatrix : Camera F → CMatrix4x4 F
  /-- The method `Camera::ViewProjectionMatrix`. -/
  ViewProjectionMatrix : Camera F → CMatrix4x4 F

/-- Modelled from the spec: `new Model(mesh)`. -/
def Model.new {F : Type} [Field F] (mesh : Mesh) : Model F :=
  { mMesh := mesh, mPosition := ⟨0, 0, 0⟩, mRotation := ⟨0, 0, 0⟩, mScale := 1 }

/-- Modelled from the spec: `Model::SetPosition`. -/
def Model.SetPosition {F : Type} (m : Model F) (p : CVector3 F) : Model F :=
  { m with mPosition := p }

/-- Modelled from the spec: `Model::SetRotation`. -/
def Model.SetRotation {F : Type} (m : Model F) (r : CVector3 F) : Model F :=
  { m with mRotation := r }

/-- Modelled from the spec: `Model::SetScale` with one float. -/
def Model.SetScale {F : Type} (m : Model F) (k : F) : Model F :=
  { m with mScale := k }

/-- Modelled from the spec: `Model::Position`. -/
def Model.Position {F : Type} (m : Model F) : CVector3 F := m.mPosition

/-- Modelled from the spec: `Model::FaceTarget`, which turns the model towards a point and
keeps its position and scale. -/
def Model.FaceTarget {F : Type} (h : Helpers F) (m : Model F) (target : CVector3 F) : Model F :=
  { m with mRotation := h.FaceTargetRotation m.mPosition target }

/-- Modelled from the spec: `Model::WorldMatrix`, scaling, then rotation, then translation. -/
def Model.WorldMatrix {F : Type} [Field F] (h : Helpers F) (m : Model F) : CMatrix4x4 F :=
  MatrixScaling m.mScale * h.MatrixRotation m.mRotation * MatrixTranslation m.mPosition

/-- Modelled from the spec: `new Camera()`. -/
def Camera.new {F : Type} [Field F] : Camera F :=
  { mPosition := ⟨0, 0, 0⟩, mRotation := ⟨0, 0, 0⟩, mNearClip := 0, mFarClip := 0 }

/-- Modelled from the spec: `Camera::Position`. -/
def Camera.Position {F : Type} (c : Camera F) : CVector3 F := c.mPosition

/-- The class `Light` of `Light.h`. -/
structure Light (F : Type) where
  mPosition : CVector3 F
  mColor : CVector3 F
  mStrength : F
  mModel : Option (Model F)

/-- Constructor of `Light` with its default arguments. -/
def Light.new {F : Type} [Field F] : Light F :=
  { mPosition := ⟨0, 0, 0⟩, mColor := ⟨1, 1, 1⟩, mStrength := 1, mModel := none }

/-- The method `Light::GetPosition`. -/
def Light.GetPosition {F : Type} (l : Light F) : CVector3 F := l.mPosition

/-- The method `Light::SetPosition`: stores the position and moves the proxy, if any. -/
def Light.SetPosition {F : Type} (l : Light F) (position : CVector3 F) : Light F :=
  { l with mPosition := position, mModel := l.mModel.map (fun m => m.SetPosition position) }

/-- The method `Light::GetColor`. -/
def Light.GetColor {F : Type} (l : Light F) : CVector3 F := l.mColor

/-- The method `Light::SetColor`. -/
def Light.SetColor {F : Type} (l : Light F) (color : CVector3 F) : Light F :=
  { l with mColor := color }

/-- The method `Light::GetStrength`. -/
def Light.GetStrength {F : Type} (l : Light F) : F := l.mStrength

/-- The method `Light::SetStrength`. -/
def Light.SetStrength {F : Type} (l : Light F) (strength : F) : Light F :=
  { l with mStrength := strength }

/-- The method `Light::SetModel`: attaches the proxy and snaps it to the light's position. -/
def Light.SetModel {F : Type} (l : Light F) (model : Option (Model F)) : Light F :=
  { l with mModel := model.map (fun m => m.SetPosition l.mPosition) }

/-- The method `Light::GetModel`. -/
def Light.GetModel {F : Type} (l : Light F) : Option (Model F) := l.mModel

/-! ## GPU objects -/

/-- Render-target views: the two created by `InitGeometry` and the back buffer of `Common.h`. -/
inductive RenderTargetView
  | gPortalRenderTarget | gSecondPortalRenderTarget | gBackBufferRenderTarget
  deriving DecidableEq, Repr

/-- Depth-stencil views: those created by `InitGeometry` and the main depth buffer of
`Common.h`. -/
inductive DepthStencilView
  | gPortalDepthStencilView | gShadowMap1DepthStencil | gShadowMap2DepthStencil
  | gShadowMap3DepthStencil | gDepthStencil
  deriving DecidableEq, Repr

/-- Shader-resource views: those created by `InitGeometry` and the view held by a `Texture`
loaded from a file. -/
inductive ShaderResourceView
  | gShadowMap1SRV | gShadowMap2SRV | gShadowMap3SRV
  | gPortalTextureSRV | gSecondPortalTextureSRV | gCubeMapTextureSRV
  | ofFile (filename : String)
  deriving DecidableEq, Repr

/-- GPU memory objects behind the views. -/
inductive Resource
  | gPortalTexture | gSecondPortalTexture | gPortalDepthStencil
  | gShadowMap1Texture | gShadowMap2Texture | gShadowMap3Texture
  | gCubeMapTexture | backBuffer | mainDepthBuffer
  | ofFile (filename : String)
  deriving DecidableEq, Repr

/-- Resource of a render-target view, as created by `CreateRenderTargetView` in
`InitGeometry`. -/
def RenderTargetView.resource : RenderTargetView → Resource
  | .gPortalRenderTarget => .gPortalTexture
  | .gSecondPortalRenderTarget => .gSecondPortalTexture
  | .gBackBufferRenderTarget => .backBuffer

/-- Resource of a depth-stencil view, as created by `CreateDepthStencilView` in
`InitGeometry`. -/
def DepthStencilView.resource : DepthStencilView → Resource
  | .gPortalDepthStencilView => .gPortalDepthStencil
  | .gShadowMap1DepthStencil => .gShadowMap1Texture
  | .gShadowMap2DepthStencil => .gShadowMap2Texture
  | .gShadowMap3DepthStencil => .gShadowMap3Texture
  | .gDepthStencil => .mainDepthBuffer

/-- Resource of a shader-resource view, as created by `CreateShaderResourceView` in
`InitGeometry`. -/
def ShaderResourceView.resource : ShaderResourceView → Resource
  | .gShadowMap1SRV => .gShadowMap1Texture
  | .gShadowMap2SRV => .gShadowMap2Texture
  | .gShadowMap3SRV => .gShadowMap3Texture
  | .gPortalTextureSRV => .gPortalTexture
  | .gSecondPortalTextureSRV => .gSecondPortalTexture
  | .gCubeMapTextureSRV => .gCubeMapTexture
  | .ofFile f => .ofFile f

/-- Vertex shaders of `Shader.h`. -/
inductive VertexShader
  | gPixelLightingVertexShader | gLightModelVertexShader | gWiggleModelVertexShader
  | gNormalMappingVertexShader | gParallaxMappingVertexShader | gShadowMappingVertexShader
  | gBasicTransformVertexShader | gFloorVertexShader | gSpecularMapVertexShader
  | gCellShadingOutlineVertexShader | gCellShadingVertexShader | gWiggleTextureVertexShader
  | gAdditionalVertexShader | gCrateShadowMappingVertexShader
  deriving DecidableEq, Repr

/-- Pixel shaders of `Shader.h`. -/
inductive PixelShader
  | gPixelLightingPixelShader | gLightModelPixelShader | gTVPortalPixelShader
  | gWiggleModelPixelShader | gTextureTransitionPixelShader | gNormalMappingPixelShader
  | gParallaxMappingPixelShader | gShadowMappingPixelShader | gDepthOnlyPixelShader
  | gFloorPixelShader | gSpecularMapPixelShader | gCellShadingOutlinePixelShader
  | gCellShadingPixelShader | gWiggleTexturePixelShader | gAdditionalPixelShader
  | gCrateShadowMappingPixelShader
  deriving DecidableEq, Repr

/-- Blend states of `State.h` used by the scene. -/
inductive BlendState
  | gNoBlendingState | gAdditiveBlendingState | gMultiplicativeBlendState
  deriving DecidableEq, Repr

/-- Depth-stencil states of `State.h` used by the scene. -/
inductive DepthStencilState
  | gUseDepthBufferState | gDepthReadOnlyState
  deriving DecidableEq, Repr

/-- Rasterizer states of `State.h` used by the scene. -/
inductive RasterizerState
  | gCullBackState | gCullFrontState | gCullNoneState
  deriving DecidableEq, Repr

/-- Samplers of `State.h` used by the scene. -/
inductive SamplerState
  | gAnisotropic4xSampler | gPointSampler
  deriving DecidableEq, Repr

/-- The class `Texture` of `Texture.h` after a successful construction: the temporary resource
pointer has been released and the view is held. -/
structure Texture where
  filename : String
  mTexture : Option Resource
  mTextureSRV : Option ShaderResourceView
  deriving DecidableEq, Repr

/-- The method `Texture::GetTextureSRV`. -/
def Texture.GetTextureSRV (t : Texture) : Option ShaderResourceView := t.mTextureSRV

/-- The models of the scene, as the objects on which `Render()` is called. -/
inductive ModelId
  | gDecal | gCrate | gSphere | gGround | gPortal | gSecondPortal | gTeapot | gCharacter
  | gTroll | gCubeMulti | gBike
  | gCube (i : Nat)
  | lightModel (i : Nat)
  deriving DecidableEq, Repr

/-! ## Constant buffers (`Common.h`) -/

/-- The struct `PerFrameConstants` of `Common.h`, without its padding floats. -/
structure PerFrameConstants (F : Type) where
  viewMatrix : CMatrix4x4 F
  projectionMatrix : CMatrix4x4 F
  viewProjectionMatrix : CMatrix4x4 F
  light1Position : CVector3 F
  light1Colour : CVector3 F
  light2Position : CVector3 F
  light2Colour : CVector3 F
  light3Position : CVector3 F
  light3Colour : CVector3 F
  light4Position : CVector3 F
  light4Colour : CVector3 F
  light5Position : CVector3 F
  light5Colour : CVector3 F
  light5Facing : CVector3 F
  light5CosHalfAngle : F
  light5ViewMatrix : CMatrix4x4 F
  light5ProjectionMatrix : CMatrix4x4 F
  light6Position : CVector3 F
  light6Colour : CVector3 F
  light6Facing : CVector3 F
  light6CosHalfAngle : F
  light6ViewMatrix : CMatrix4x4 F
  light6ProjectionMatrix : CMatrix4x4 F
  light7Position : CVector3 F
  light7Colour : CVector3 F
  light8Position : CVector3 F
  light8Colour : CVector3 F
  light8Facing : CVector3 F
  light8CosHalfAngle : F
  light8ViewMatrix : CMatrix4x4 F
  light8ProjectionMatrix : CMatrix4x4 F
  light9Position : CVector3 F
  light9Colour : CVector3 F
  light10Position : CVector3 F
  light10Colour : CVector3 F
  ambientColour : CVector3 F
  specularPower : F
  cameraPosition : CVector3 F
  outlineColour : CVector3 F
  outlineThickness : F
  wiggle : F
  transitionFactor : F
  parallaxDepth : F
  colorVariation : Fin 3 → F

/-- The struct `PerModelConstants` of `Common.h`; the world matrix is written inside
`Model::Render`, so only the tint is kept. -/
structure PerModelConstants (F : Type) where
  objectColour : CVector3 F

/-- The struct `ColourRGBA`. -/
structure ColourRGBA (F : Type) where
  r : F
  g : F
  b : F
  a : F

/-- The struct `D3D11_VIEWPORT`. -/
structure Viewport (F : Type) where
  Width : F
  Height : F
  MinDepth : F
  MaxDepth : F
  TopLeftX : F
  TopLeftY : F

/-! ## Commands -/

/-- One call on the device context or swap chain, or one `Model::Render()` (which "draws using
the drawable's current world transform and whatever shader/texture/sampler state is currently
bound"). -/
inductive Cmd (F : Type)
  | OMSetRenderTargets (numViews : Nat) (target : Option RenderTargetView)
      (depth : Option DepthStencilView)
  | ClearRenderTargetView (target : RenderTargetView) (colour : ColourRGBA F)
  | ClearDepthStencilView (depth : DepthStencilView) (value : F)
  | RSSetViewports (vp : Viewport F)
  | UpdateConstantBuffer (constants : PerFrameConstants F)
  | VSSetConstantBuffers (slot : Nat)
  | PSSetConstantBuffers (slot : Nat)
  | VSSetShader (shader : VertexShader)
  | PSSetShader (shader : PixelShader)
  | OMSetBlendState (state : BlendState)
  | OMSetDepthStencilState (state : DepthStencilState)
  | RSSetState (state : RasterizerState)
  | PSSetShaderResources (slot : Nat) (view : Option ShaderResourceView)
  | PSSetSamplers (slot : Nat) (sampler : SamplerState)
  | Render (model : ModelId) (perModel : PerModelConstants F)
  | Present (syncInterval : Nat)

/-- What the device context has bound, as far as the commands issued determine it. The last
three fields describe the current binding of write targets: the number of draws issued since
`OMSetRenderTargets`, and the values written by clears of the bound views that were issued
after that binding and before any draw. -/
structure DeviceState (F : Type) where
  renderTarget : Option RenderTargetView
  depthStencil : Option DepthStencilView
  viewport : Option (Viewport F)
  perFrameBuffer : Option (PerFrameConstants F)
  vertexShader : Option VertexShader
  pixelShader : Option PixelShader
  blendState : Option BlendState
  depthStencilState : Option DepthStencilState
  rasterizerState : Option RasterizerState
  psResources : Nat → Option ShaderResourceView
  psSamplers : Nat → Option SamplerState
  drawsSinceBind : Nat
  depthClear : Option F
  colourClear : Option (ColourRGBA F)

/-- Effect of one command on the device state. -/
def DeviceState.step {F : Type} (d : DeviceState F) : Cmd F → DeviceState F
  | .OMSetRenderTargets _ target depth =>
      { d with renderTarget := target, depthStencil := depth, drawsSinceBind := 0,
               depthClear := none, colourClear := none }
  | .ClearRenderTargetView target colour =>
      if d.renderTarget = some target ∧ d.drawsSinceBind = 0 then
        { d with colourClear := some colour }
      else d
  | .ClearDepthStencilView depth value =>
      if d.depthStencil = some depth ∧ d.drawsSinceBind = 0 then
        { d with depthClear := some value }
      else d
  | .RSSetViewports vp => { d with viewport := some vp }
  | .UpdateConstantBuffer constants => { d with perFrameBuffer := some constants }
  | .VSSetConstantBuffers _ => d
  | .PSSetConstantBuffers _ => d
  | .VSSetShader shader => { d with vertexShader := some shader }
  | .PSSetShader shader => { d with pixelShader := some shader }
  | .OMSetBlendState state => { d with blendState := some state }
  | .OMSetDepthStencilState state => { d with depthStencilState := some state }
  | .RSSetState state => { d with rasterizerState := some state }
  | .PSSetShaderResources slot view =>
      { d with psResources := fun k => if k = slot then view else d.psResources k }
  | .PSSetSamplers slot sampler =>
      { d with psSamplers := fun k => if k = slot then some sampler else d.psSamplers k }
  | .Render _ _ => { d with drawsSinceBind := d.drawsSinceBind + 1 }
  | .Present _ => d

/-- Device state after a list of commands. -/
def DeviceState.run {F : Type} (d : DeviceState F) (cmds : List (Cmd F)) : DeviceState F :=
  cmds.foldl DeviceState.step d

/-- One draw together with the device state it is issued in. -/
structure Draw (F : Type) where
  model : ModelId
  perModel : PerModelConstants F
  device : DeviceState F

/-- The draws of a command list, in order, each with the device state at its issue. -/
def drawLog {F : Type} : DeviceState F → List (Cmd F) → List (Draw F)
  | _, [] => []
  | d, .Render model perModel :: rest =>
      ⟨model, perModel, d⟩ :: drawLog (d.step (.Render model perModel)) rest
  | d, c :: rest => drawLog (d.step c) rest

/-- The uploads of the per-frame constants in a command list, in order, each with the write
targets bound at the upload. -/
def uploadLog {F : Type} :
    DeviceState F → List (Cmd F) →
      List (Option RenderTargetView × Option DepthStencilView × PerFrameConstants F)
  | _, [] => []
  | d, .UpdateConstantBuffer constants :: rest =>
      (d.renderTarget, d.depthStencil, constants)
        :: uploadLog (d.step (.UpdateConstantBuffer constants)) rest
  | d, c :: rest => uploadLog (d.step c) rest

/-! ## Failures -/

/-- The two ways a scene function can go wrong: a null pointer is dereferenced, or an array
or vector is indexed outside its bounds. -/
inductive Fault
  | nullPointer | outOfRange
  deriving DecidableEq, Repr

/-- Element `i` of an array or vector. -/
def elemAt {α : Type} : List α → Nat → Except Fault α
  | [], _ => .error .outOfRange
  | x :: _, 0 => .ok x
  | _ :: xs, i + 1 => elemAt xs i

/-- Dereference of a pointer. -/
def deref {α : Type} (p : Option α) : Except Fault α :=
  match p with
  | some x => .ok x
  | none => .error .nullPointer

/-! ## Scene data (`Scene.cpp`) -/

/-- Number of lights. -/
def NUM_LIGHTS : Nat := 10

/-- Number of cubes. -/
def NUM_CUBES : Nat := 7

/-- Background level of light. -/
def gAmbientColour {F : Type} [Field F] : CVector3 F := ⟨0.4, 0.4, 0.5⟩

/-- Specular power, the same for all models. -/
def gSpecularPower {F : Type} [Field F] : F := 256

/-- Colour the colour targets are cleared to. -/
def gBackgroundColor {F : Type} [Field F] : ColourRGBA F := ⟨0.2, 0.2, 0.3, 1.0⟩

/-- Radius of the orbit of the lights. -/
def gLightOrbit {F : Type} [Field F] : F := 20.0

/-- Angular speed of the orbit of the lights. -/
def gLightOrbitSpeed {F : Type} [Field F] : F := 0.7

/-- Spot light cone angle in degrees. -/
def gSpotlightConeAngle {F : Type} [Field F] : F := 90.0

/-- Overall depth of bumpiness for parallax mapping. -/
def gParallaxDepth {F : Type} [Field F] : F := 0.08

/-- Cell shading outline colour. -/
def OutlineColour {F : Type} [Field F] : CVector3 F := ⟨0, 0, 0⟩

/-- Cell shading outline thickness. -/
def OutlineThickness {F : Type} [Field F] : F := 0.015

/-- Dimensions of the shadow map textures. -/
def gShadowMapSize : Int := 2048

/-- Width of the portal textures. -/
def gPortalWidth : Int := 512

/-- Height of the portal textures. -/
def gPortalHeight : Int := 512

/-- The global variables of `Scene.cpp` that the scene functions read and write, after
`InitScene` has created the models and cameras. `gCube` is declared with `NUM_LIGHTS` entries;
`gViewportWidth` and `gViewportHeight` are the window size of `Common.h`; `rotate`,
`totalFrameTime` and `frameCount` are the static locals of `UpdateScene`. -/
structure Scene (F : Type) where
  gDecal : Model F
  gCrate : Model F
  gSphere : Model F
  gGround : Model F
  gPortal : Model F
  gSecondPortal : Model F
  gTeapot : Model F
  gCharacter : Model F
  gTroll : Model F
  gCubeMulti : Model F
  gBike : Model F
  gCamera : Camera F
  gPortalCamera : Camera F
  gLights : List (Light F)
  gCube : List (Option (Model F))
  textures : List Texture
  gPerFrameConstants : PerFrameConstants F
  gPerModelConstants : PerModelConstants F
  gUseParallax : Bool
  lockFPS : Bool
  gViewportWidth : Int
  gViewportHeight : Int
  totalTime : F
  rotate : F
  totalFrameTime : F
  frameCount : Int

/-- The access `gLights[i].GetModel()->`, which needs an index within the array and a proxy. -/
def Scene.lightModel {F : Type} (s : Scene F) (i : Nat) : Except Fault (Model F) := do
  let l ← elemAt s.gLights i
  deref l.GetModel

/-- The access `gCube[i]->`, which needs an index within the array and a non-null entry. -/
def Scene.cube {F : Type} (s : Scene F) (i : Nat) : Except Fault (Model F) := do
  let c ← elemAt s.gCube i
  deref c

/-- The access `textures[i]->GetTextureSRV()`, which needs an index within the vector. -/
def Scene.textureSRV {F : Type} (s : Scene F) (i : Nat) :
    Except Fault (Option ShaderResourceView) := do
  let t ← elemAt s.textures i
  pure t.GetTextureSRV

/-! ## Light helper functions -/

/-- Get "camera-like" view matrix for a spotlight. -/
def CalculateLightViewMatrix {F : Type} [Field F] (h : Helpers F) (s : Scene F)
    (lightIndex : Nat) : Except Fault (CMatrix4x4 F) := do
  let m ← s.lightModel lightIndex
  pure (InverseAffine (m.WorldMatrix h))

/-- Get "camera-like" projection matrix for a spotlight. -/
def CalculateLightProjectionMatrix {F : Type} [Field F] (h : Helpers F) (_lightIndex : Nat) :
    CMatrix4x4 F :=
  h.MakeProjectionMatrix 1.0 (h.ToRadians gSpotlightConeAngle)

/-! ## Scene rendering -/

/-- Commands of `RenderDepthBufferFromLight`: upload of the per-frame constants, depth-only
shaders, states, and the models that cast shadows. -/
def cmdsDepthOnly {F : Type} (pf : PerFrameConstants F) (pm : PerModelConstants F) :
    List (Cmd F) :=
  [ .UpdateConstantBuffer pf,
    .VSSetConstantBuffers 0,
    .PSSetConstantBuffers 0,
    .VSSetShader .gBasicTransformVertexShader,
    .PSSetShader .gDepthOnlyPixelShader,
    .OMSetBlendState .gNoBlendingState,
    .OMSetDepthStencilState .gUseDepthBufferState,
    .RSSetState .gCullBackState,
    .Render .gGround pm,
    .Render .gCharacter pm,
    .Render .gCrate pm ]

/-- Render the scene from the given light's point of view; only the depth buffer is rendered. -/
def RenderDepthBufferFromLight {F : Type} [Field F] (h : Helpers F) (s : Scene F)
    (lightIndex : Nat) : Except Fault (Scene F × List (Cmd F)) := do
  let view ← CalculateLightViewMatrix h s lightIndex
  let projection := CalculateLightProjectionMatrix h lightIndex
  let pf : PerFrameConstants F :=
    { s.gPerFrameConstants with
      viewMatrix := view, projectionMatrix := projection,
      viewProjectionMatrix := view * projection }
  let s : Scene F := { s with gPerFrameConstants := pf }
  let pm := s.gPerModelConstants
  pure (s, cmdsDepthOnly pf pm)

/-- The loop of `RenderSceneFromCamera` that renders all the lights in the array: each turn
sets the tint to the light's colour and renders the proxy. -/
def renderLights {F : Type} (s : Scene F) : Except Fault (Scene F × List (Cmd F)) :=
  (List.range NUM_LIGHTS).foldlM
    (fun (acc : Scene F × List (Cmd F)) (i : Nat) => do
      let l ← elemAt acc.1.gLights i
      let pm : PerModelConstants F := { acc.1.gPerModelConstants with objectColour := l.GetColor }
      let _ ← deref l.GetModel
      pure ({ acc.1 with gPerModelConstants := pm }, acc.2 ++ [Cmd.Render (.lightModel i) pm]))
    (s, [])

/-- Upload of the per-frame constants and the states of the opaque models. -/
def cmdsStart {F : Type} (pf : PerFrameConstants F) :
    List (Cmd F) :=
  [ .UpdateConstantBuffer pf,
    .VSSetConstantBuffers 0,
    .PSSetConstantBuffers 0,
    .OMSetBlendState .gNoBlendingState,
    .OMSetDepthStencilState .gUseDepthBufferState,
    .RSSetState .gCullBackState ]

/-- Commands of `RenderSceneFromCamera` for the ground. -/
def cmdsGround {F : Type} (pm : PerModelConstants F) (t9 t10 : Option ShaderResourceView) :
    List (Cmd F) :=
  [ .VSSetShader .gFloorVertexShader,
    .PSSetShader .gFloorPixelShader,
    .PSSetShaderResources 0 t9,
    .PSSetShaderResources 1 t10,
    .PSSetShaderResources 2 (some .gShadowMap1SRV),
    .PSSetShaderResources 3 (some .gShadowMap2SRV),
    .PSSetShaderResources 4 (some .gShadowMap3SRV),
    .PSSetSamplers 0 .gAnisotropic4xSampler,
    .PSSetSamplers 1 .gAnisotropic4xSampler,
    .PSSetSamplers 2 .gAnisotropic4xSampler,
    .PSSetSamplers 3 .gAnisotropic4xSampler,
    .PSSetSamplers 4 .gAnisotropic4xSampler,
    .Render .gGround pm ]

/-- Commands of `RenderSceneFromCamera` for the character. -/
def cmdsCharacter {F : Type} (pm : PerModelConstants F) (t13 : Option ShaderResourceView) :
    List (Cmd F) :=
  [ .VSSetShader .gShadowMappingVertexShader,
    .PSSetShader .gShadowMappingPixelShader,
    .PSSetShaderResources 0 t13,
    .PSSetShaderResources 1 (some .gShadowMap1SRV),
    .PSSetShaderResources 2 (some .gShadowMap2SRV),
    .PSSetSamplers 0 .gAnisotropic4xSampler,
    .PSSetSamplers 1 .gAnisotropic4xSampler,
    .PSSetSamplers 2 .gAnisotropic4xSampler,
    .Render .gCharacter pm ]

/-- Commands of `RenderSceneFromCamera` for the crate. -/
def cmdsCrate {F : Type} (pm : PerModelConstants F) (t6 : Option ShaderResourceView) :
    List (Cmd F) :=
  [ .VSSetShader .gCrateShadowMappingVertexShader,
    .PSSetShader .gCrateShadowMappingPixelShader,
    .PSSetShaderResources 0 t6,
    .PSSetShaderResources 1 (some .gShadowMap3SRV),
    .PSSetSamplers 0 .gAnisotropic4xSampler,
    .PSSetSamplers 1 .gAnisotropic4xSampler,
    .Render .gCrate pm ]

/-- Commands of `RenderSceneFromCamera` for the troll: outline, then cell shading. -/
def cmdsTroll {F : Type} (pm : PerModelConstants F) (t15 t16 : Option ShaderResourceView) :
    List (Cmd F) :=
  [ .VSSetShader .gCellShadingOutlineVertexShader,
    .PSSetShader .gCellShadingOutlinePixelShader,
    .RSSetState .gCullFrontState,
    .Render .gTroll pm,
    .VSSetShader .gCellShadingVertexShader,
    .PSSetShader .gCellShadingPixelShader,
    .RSSetState .gCullBackState,
    .PSSetShaderResources 0 t15,
    .PSSetShaderResources 1 t16,
    .PSSetSamplers 0 .gAnisotropic4xSampler,
    .PSSetSamplers 1 .gPointSampler,
    .Render .gTroll pm ]

/-- Commands of `RenderSceneFromCamera` for cube 0, the teapot and the multi-texture cube. -/
def cmdsSpecular {F : Type} (pm : PerModelConstants F) (t0 t0b : Option ShaderResourceView) :
    List (Cmd F) :=
  [ .VSSetShader .gSpecularMapVertexShader,
    .PSSetShader .gSpecularMapPixelShader,
    .PSSetShaderResources 0 t0,
    .PSSetSamplers 0 .gAnisotropic4xSampler,
    .Render (.gCube 0) pm,
    .VSSetShader .gPixelLightingVertexShader,
    .PSSetShader .gPixelLightingPixelShader,
    .PSSetShaderResources 0 t0b,
    .PSSetSamplers 0 .gAnisotropic4xSampler,
    .Render .gTeapot pm,
    .PSSetShaderResources 0 (some .gCubeMapTextureSRV),
    .Render .gCubeMulti pm ]

/-- Commands of `RenderSceneFromCamera` for cube 1 (texture transition) and the portal. -/
def cmdsPortal {F : Type} (pm : PerModelConstants F) (t8 t7 t12 : Option ShaderResourceView) :
    List (Cmd F) :=
  [ .PSSetShader .gTextureTransitionPixelShader,
    .PSSetShaderResources 0 t8,
    .PSSetShaderResources 1 t7,
    .PSSetSamplers 0 .gAnisotropic4xSampler,
    .PSSetSamplers 1 .gAnisotropic4xSampler,
    .Render (.gCube 1) pm,
    .PSSetShader .gTVPortalPixelShader,
    .PSSetShaderResources 0 (some .gPortalTextureSRV),
    .PSSetShaderResources 1 t12,
    .PSSetSamplers 0 .gAnisotropic4xSampler,
    .PSSetSamplers 1 .gAnisotropic4xSampler,
    .Render .gPortal pm ]

/-- Commands of `RenderSceneFromCamera` for the bike, cube 2 (normal mapping) and cube 3
(parallax mapping). -/
def cmdsMapped {F : Type} (pm : PerModelConstants F) (t14 t1 t2 t3 t4 : Option ShaderResourceView) :
    List (Cmd F) :=
  [ .VSSetShader .gAdditionalVertexShader,
    .PSSetShader .gAdditionalPixelShader,
    .PSSetShaderResources 0 t14,
    .Render .gBike pm,
    .VSSetShader .gNormalMappingVertexShader,
    .PSSetShader .gNormalMappingPixelShader,
    .PSSetShaderResources 0 t1,
    .PSSetShaderResources 1 t2,
    .PSSetSamplers 0 .gAnisotropic4xSampler,
    .PSSetSamplers 1 .gAnisotropic4xSampler,
    .Render (.gCube 2) pm,
    .VSSetShader .gParallaxMappingVertexShader,
    .PSSetShader .gParallaxMappingPixelShader,
    .PSSetShaderResources 0 t3,
    .PSSetShaderResources 1 t4,
    .PSSetSamplers 0 .gAnisotropic4xSampler,
    .PSSetSamplers 1 .gAnisotropic4xSampler,
    .Render (.gCube 3) pm ]

/-- Commands of `RenderSceneFromCamera` for the sphere, cube 5 and the second portal. -/
def cmdsWiggle {F : Type} (pm : PerModelConstants F) (t7b t7c : Option ShaderResourceView) :
    List (Cmd F) :=
  [ .VSSetShader .gWiggleModelVertexShader,
    .PSSetShader .gWiggleModelPixelShader,
    .PSSetShaderResources 0 t7b,
    .PSSetSamplers 0 .gAnisotropic4xSampler,
    .Render .gSphere pm,
    .VSSetShader .gWiggleTextureVertexShader,
    .PSSetShader .gWiggleTexturePixelShader,
    .PSSetShaderResources 0 t7c,
    .PSSetSamplers 0 .gAnisotropic4xSampler,
    .Render (.gCube 5) pm,
    .VSSetShader .gLightModelVertexShader,
    .PSSetShader .gLightModelPixelShader,
    .PSSetShaderResources 0 (some .gSecondPortalTextureSRV),
    .PSSetSamplers 0 .gAnisotropic4xSampler,
    .Render .gSecondPortal pm ]

/-- Commands of `RenderSceneFromCamera` for the decal and cube 6: additive blending. -/
def cmdsDecal {F : Type} (pm : PerModelConstants F) (t5 : Option ShaderResourceView) :
    List (Cmd F) :=
  [ .VSSetShader .gPixelLightingVertexShader,
    .PSSetShader .gPixelLightingPixelShader,
    .OMSetBlendState .gAdditiveBlendingState,
    .OMSetDepthStencilState .gDepthReadOnlyState,
    .RSSetState .gCullNoneState,
    .PSSetShaderResources 0 t5,
    .PSSetSamplers 0 .gAnisotropic4xSampler,
    .Render .gDecal pm,
    .Render (.gCube 6) pm ]

/-- Commands of `RenderSceneFromCamera` for cube 4: multiplicative blending. -/
def cmdsGlass {F : Type} (pm : PerModelConstants F) (t17 : Option ShaderResourceView) :
    List (Cmd F) :=
  [ .VSSetShader .gLightModelVertexShader,
    .PSSetShader .gLightModelPixelShader,
    .OMSetBlendState .gMultiplicativeBlendState,
    .OMSetDepthStencilState .gDepthReadOnlyState,
    .RSSetState .gCullNoneState,
    .PSSetShaderResources 0 t17,
    .PSSetSamplers 0 .gAnisotropic4xSampler,
    .Render (.gCube 4) pm ]

/-- States and texture of `RenderSceneFromCamera` for the light proxies. -/
def cmdsLightStates {F : Type} (t11 : Option ShaderResourceView) :
    List (Cmd F) :=
  [ .OMSetBlendState .gAdditiveBlendingState,
    .OMSetDepthStencilState .gDepthReadOnlyState,
    .RSSetState .gCullNoneState,
    .PSSetShaderResources 0 t11,
    .PSSetSamplers 0 .gAnisotropic4xSampler ]

/-- Render everything in the scene from the given camera; common to the main scene and the
scene in the portal. -/
def RenderSceneFromCamera {F : Type} [Field F] (h : Helpers F) (s : Scene F)
    (camera : Camera F) : Except Fault (Scene F × List (Cmd F)) := do
  let pf : PerFrameConstants F :=
    { s.gPerFrameConstants with
      viewMatrix := h.ViewMatrix camera,
      projectionMatrix := h.ProjectionMatrix camera,
      viewProjectionMatrix := h.ViewProjectionMatrix camera }
  let s : Scene F := { s with gPerFrameConstants := pf }
  let pm := s.gPerModelConstants
  let start : List (Cmd F) := cmdsStart pf
  -- ground
  let t9 ← s.textureSRV 9
  let t10 ← s.textureSRV 10
  let ground : List (Cmd F) := cmdsGround pm t9 t10
  -- character
  let t13 ← s.textureSRV 13
  let character : List (Cmd F) := cmdsCharacter pm t13
  -- crate
  let t6 ← s.textureSRV 6
  let crate : List (Cmd F) := cmdsCrate pm t6
  -- troll: outline, then cell shading
  let t15 ← s.textureSRV 15
  let t16 ← s.textureSRV 16
  let troll : List (Cmd F) := cmdsTroll pm t15 t16
  -- cube 0, teapot, multi-texture cube
  let t0 ← s.textureSRV 0
  let _ ← s.cube 0
  let t0b ← s.textureSRV 0
  let specular : List (Cmd F) := cmdsSpecular pm t0 t0b
  -- cube 1 (texture transition) and the portal
  let t8 ← s.textureSRV 8
  let t7 ← s.textureSRV 7
  let _ ← s.cube 1
  let t12 ← s.textureSRV 12
  let portal : List (Cmd F) := cmdsPortal pm t8 t7 t12
  -- bike, cube 2 (normal mapping), cube 3 (parallax mapping)
  let t14 ← s.textureSRV 14
  let t1 ← s.textureSRV 1
  let t2 ← s.textureSRV 2
  let _ ← s.cube 2
  let t3 ← s.textureSRV 3
  let t4 ← s.textureSRV 4
  let _ ← s.cube 3
  let mapped : List (Cmd F) := cmdsMapped pm t14 t1 t2 t3 t4
  -- sphere, cube 5, second portal
  let t7b ← s.textureSRV 7
  let t7c ← s.textureSRV 7
  let _ ← s.cube 5
  let wiggle : List (Cmd F) := cmdsWiggle pm t7b t7c
  -- decal and cube 6: additive blending
  let t5 ← s.textureSRV 5
  let _ ← s.cube 6
  let decal : List (Cmd F) := cmdsDecal pm t5
  -- cube 4: multiplicative blending
  let t17 ← s.textureSRV 17
  let _ ← s.cube 4
  let glass : List (Cmd F) := cmdsGlass pm t17
  -- lights
  let t11 ← s.textureSRV 11
  let lightStates : List (Cmd F) := cmdsLightStates t11
  let (s, lights) ← renderLights s
  pure (s, start ++ ground ++ character ++ crate ++ troll ++ specular ++ portal ++ mapped
    ++ wiggle ++ decal ++ glass ++ lightStates ++ lights)

/-- The viewport of `RenderScene` for a target of the given size. -/
def viewportOfSize {F : Type} [Field F] (width height : Int) : Viewport F :=
  { Width := (width : F), Height := (height : F), MinDepth := 0.0, MaxDepth := 1.0,
    TopLeftX := 0, TopLeftY := 0 }

/-- Commands of `RenderScene` that select and clear the first portal's texture and the portal
depth buffer. -/
def cmdsPortalTarget {F : Type} [Field F] : List (Cmd F) :=
  [ .OMSetRenderTargets 1 (some .gPortalRenderTarget) (some .gPortalDepthStencilView),
    .ClearRenderTargetView .gPortalRenderTarget gBackgroundColor,
    .ClearDepthStencilView .gPortalDepthStencilView 1.0 ]

/-- Command of `RenderScene` that sets the viewport to the portal texture size. -/
def cmdsPortalViewport {F : Type} [Field F] : List (Cmd F) :=
  [ .RSSetViewports (viewportOfSize gPortalWidth gPortalHeight) ]

/-- Commands of `RenderScene` that select and clear the second portal's texture and the portal
depth buffer. -/
def cmdsSecondPortalTarget {F : Type} [Field F] : List (Cmd F) :=
  [ .OMSetRenderTargets 1 (some .gSecondPortalRenderTarget) (some .gPortalDepthStencilView),
    .ClearRenderTargetView .gSecondPortalRenderTarget gBackgroundColor,
    .ClearDepthStencilView .gPortalDepthStencilView 1.0 ]

/-- Command of `RenderScene` that sets the viewport to the shadow map size. -/
def cmdsShadowViewport {F : Type} [Field F] : List (Cmd F) :=
  [ .RSSetViewports (viewportOfSize gShadowMapSize gShadowMapSize) ]

/-- Commands of `RenderScene` that select a shadow map as the only target (no colour target)
and clear it to the far distance. -/
def cmdsShadowTarget {F : Type} [Field F] (shadowMap : DepthStencilView) : List (Cmd F) :=
  [ .OMSetRenderTargets 0 none (some shadowMap),
    .ClearDepthStencilView shadowMap 1.0 ]

/-- Commands of `RenderScene` that select and clear the back buffer and the main depth buffer
and set the viewport to the size of the main window. -/
def cmdsMainTarget {F : Type} [Field F] (gViewportWidth gViewportHeight : Int) : List (Cmd F) :=
  [ .OMSetRenderTargets 1 (some .gBackBufferRenderTarget) (some .gDepthStencil),
    .ClearRenderTargetView .gBackBufferRenderTarget gBackgroundColor,
    .ClearDepthStencilView .gDepthStencil 1.0,
    .RSSetViewports (viewportOfSize gViewportWidth gViewportHeight) ]

/-- Commands of `RenderScene` that unbind shadow maps from the pixel shader after the main
pass. -/
def cmdsUnbind {F : Type} : List (Cmd F) :=
  [ .PSSetShaderResources 1 none,
    .PSSetShaderResources 2 none,
    .PSSetShaderResources 3 none ]

/-- Command of `RenderScene` that presents the back buffer, locked to vsync when `lockFPS`. -/
def cmdsPresent {F : Type} (lockFPS : Bool) : List (Cmd F) :=
  [ .Present (if lockFPS then 1 else 0) ]

/-- The first part of `RenderScene`, the common settings for both main scene and portal scene:
the light information and the other scene-wide values are written to the per-frame constants
(they are not sent to the GPU yet). -/
def setLightConstants {F : Type} [Field F] (h : Helpers F) (s : Scene F) :
    Except Fault (PerFrameConstants F) := do
  -- Common settings for both main scene and portal scene
  let pf := s.gPerFrameConstants
  let l0 ← elemAt s.gLights 0
  let m0 ← deref l0.GetModel
  let pf := { pf with light1Colour := l0.GetColor.scale l0.GetStrength,
                      light1Position := m0.Position }
  let l1 ← elemAt s.gLights 1
  let m1 ← deref l1.GetModel
  let pf := { pf with light2Colour := l1.GetColor.scale l1.GetStrength,
                      light2Position := m1.Position }
  let l2 ← elemAt s.gLights 2
  let m2 ← deref l2.GetModel
  let pf := { pf with light3Colour := l2.GetColor.scale l2.GetStrength,
                      light3Position := m2.Position }
  let l3 ← elemAt s.gLights 3
  let m3 ← deref l3.GetModel
  let pf := { pf with light4Colour := l3.GetColor.scale l3.GetStrength,
                      light4Position := m3.Position }
  let l4 ← elemAt s.gLights 4
  let m4 ← deref l4.GetModel
  let view4 ← CalculateLightViewMatrix h s 4
  let pf := { pf with light5Colour := l4.GetColor.scale l4.GetStrength,
                      light5Position := m4.Position,
                      light5Facing := h.Normalise (GetZAxis (m4.WorldMatrix h)),
                      light5CosHalfAngle := h.cos (h.ToRadians (gSpotlightConeAngle / 2)),
                      light5ViewMatrix := view4,
                      light5ProjectionMatrix := CalculateLightProjectionMatrix h 4 }
  let l5 ← elemAt s.gLights 5
  let m5 ← deref l5.GetModel
  let view5 ← CalculateLightViewMatrix h s 5
  let pf := { pf with light6Colour := l5.GetColor.scale l5.GetStrength,
                      light6Position := m5.Position,
                      light6Facing := h.Normalise (GetZAxis (m5.WorldMatrix h)),
                      light6CosHalfAngle := h.cos (h.ToRadians (gSpotlightConeAngle / 2)),
                      light6ViewMatrix := view5,
                      light6ProjectionMatrix := CalculateLightProjectionMatrix h 5 }
  let l6 ← elemAt s.gLights 6
  let m6 ← deref l6.GetModel
  let pf := { pf with light7Colour := l6.GetColor.scale l6.GetStrength,
                      light7Position := m6.Position }
  let l7 ← elemAt s.gLights 7
  let m7 ← deref l7.GetModel
  let view7 ← CalculateLightViewMatrix h s 7
  let pf := { pf with light8Colour := l7.GetColor.scale l7.GetStrength,
                      light8Position := m7.Position,
                      light8Facing := h.Normalise (GetZAxis (m7.WorldMatrix h)),
                      light8CosHalfAngle := h.cos (h.ToRadians (gSpotlightConeAngle / 2)),
                      light8ViewMatrix := view7,
                      light8ProjectionMatrix := CalculateLightProjectionMatrix h 7 }
  let l8 ← elemAt s.gLights 8
  let m8 ← deref l8.GetModel
  let pf := { pf with light9Colour := l8.GetColor.scale l8.GetStrength,
                      light9Position := m8.Position }
  let l9 ← elemAt s.gLights 9
  let m9 ← deref l9.GetModel
  let pf := { pf with light10Colour := l9.GetColor.scale l9.GetStrength,
                      light10Position := m9.Position }
  let pf := { pf with ambientColour := gAmbientColour,
                      specularPower := gSpecularPower,
                      cameraPosition := s.gCamera.Position,
                      outlineColour := OutlineColour,
                      outlineThickness := OutlineThickness,
                      parallaxDepth := if s.gUseParallax then gParallaxDepth else 0 }
  pure pf

/-- Rendering the scene: the light information is written to the per-frame constants, the scene
is rendered for the portals into textures, the shadow maps are rendered from the lights, then
the main scene is rendered to the back buffer and presented. -/
def RenderScene {F : Type} [Field F] (h : Helpers F) (s : Scene F) :
    Except Fault (Scene F × List (Cmd F)) := do
  let pf ← setLightConstants h s
  let s : Scene F := { s with gPerFrameConstants := pf }
  -- Portal scene rendering
  let (s, portalA) ← RenderSceneFromCamera h s s.gPortalCamera
  let (s, portalB) ← RenderSceneFromCamera h s s.gPortalCamera
  let (s, secondPortal) ← RenderSceneFromCamera h s s.gPortalCamera
  -- Shadow maps
  let (s, shadow1) ← RenderDepthBufferFromLight h s 4
  let (s, shadow2) ← RenderDepthBufferFromLight h s 5
  let (s, shadow3) ← RenderDepthBufferFromLight h s 7
  -- Main scene rendering
  let mainTarget : List (Cmd F) := cmdsMainTarget s.gViewportWidth s.gViewportHeight
  let (s, main) ← RenderSceneFromCamera h s s.gCamera
  -- Scene completion
  pure (s, cmdsPortalTarget ++ portalA ++ cmdsPortalViewport ++ portalB
    ++ cmdsSecondPortalTarget ++ secondPortal
    ++ cmdsShadowViewport
    ++ cmdsShadowTarget .gShadowMap1DepthStencil ++ shadow1
    ++ cmdsShadowTarget .gShadowMap2DepthStencil ++ shadow2
    ++ cmdsShadowTarget .gShadowMap3DepthStencil ++ shadow3
    ++ mainTarget ++ main ++ cmdsUnbind ++ cmdsPresent s.lockFPS)

/-! ## Scene set-up -/

/-- Successful construction of a `Texture` (`Texture.cpp`): the view is held and the resource
pointer has been released and set to null. -/
def Texture.load (filename : String) : Texture :=
  { filename := filename, mTexture := none, mTextureSRV := some (.ofFile filename) }

/-- The files loaded into `textures` by `InitGeometry`, in the order of the `emplace_back`
calls. -/
def textureFiles : List String :=
  [ "StoneDiffuseSpecular.dds", "PatternDiffuseSpecular.dds", "PatternNormal.dds",
    "TechDiffuseSpecular.dds", "TechNormalHeight.dds", "Moogle.png", "CargoA.dds",
    "Brick1.jpg", "wood2.jpg", "CobbleDiffuseSpecular.dds", "CobbleNormalHeight.dds",
    "Flare.jpg", "tv.dds", "TrollDiffuseSpecular.dds", "MetalDiffuseSpecular.dds",
    "Green.png", "CellGradient.png", "glass.jpg" ]

/-- The vector `textures` after a successful `InitGeometry`. -/
def loadedTextures : List Texture := textureFiles.map Texture.load

/-- The statement `gLights[i].f(...)` for a method `f` of `Light`. -/
def onLight {F : Type} (gLights : List (Light F)) (i : Nat) (f : Light F → Light F) :
    Except Fault (List (Light F)) := do
  let l ← elemAt gLights i
  pure (gLights.set i (f l))

/-- The statement `gLights[i].GetModel()->f(...)` for a method `f` of `Model`; the arguments
may read the light. -/
def onLightModel {F : Type} (gLights : List (Light F)) (i : Nat)
    (f : Light F → Model F → Model F) : Except Fault (List (Light F)) := do
  let l ← elemAt gLights i
  let m ← deref l.GetModel
  pure (gLights.set i { l with mModel := some (f l m) })

/-- The statement `gCube[i]->f(...)` for a method `f` of `Model`. -/
def onCube {F : Type} (gCube : List (Option (Model F))) (i : Nat) (f : Model F → Model F) :
    Except Fault (List (Option (Model F))) := do
  let c ← elemAt gCube i
  let m ← deref c
  pure (gCube.set i (some (f m)))

/-- The four statements of `InitScene` that set up light `i`: colour, strength, position of
the proxy and its scale `pow(strength, 0.7)`. -/
def setupLight {F : Type} [Field F] (h : Helpers F) (gLights : List (Light F)) (i : Nat)
    (color : CVector3 F) (strength : F) (position : CVector3 F) :
    Except Fault (List (Light F)) := do
  let gLights ← onLight gLights i (fun l => l.SetColor color)
  let gLights ← onLight gLights i (fun l => l.SetStrength strength)
  let gLights ← onLightModel gLights i (fun _ m => m.SetPosition position)
  onLightModel gLights i (fun l m => m.SetScale (h.pow l.GetStrength 0.7))

/-- Prepare the scene. The arguments after the helpers are the globals that exist before the
call: the textures, the window size and the two constant-buffer structures. -/
def InitScene {F : Type} [Field F] (h : Helpers F) (textures : List Texture)
    (gViewportWidth gViewportHeight : Int) (gPerFrameConstants : PerFrameConstants F)
    (gPerModelConstants : PerModelConstants F) : Except Fault (Scene F) := do
  let gDecal : Model F := Model.new .gDecalMesh
  let gCrate : Model F := Model.new .gCrateMesh
  let gSphere : Model F := Model.new .gSphereMesh
  let gGround : Model F := Model.new .gGroundMesh
  let gCubeMulti : Model F := Model.new .gCubeMultiMesh
  let gBike : Model F := Model.new .gAnimatedMesh
  -- Light set-up
  let gLights : List (Light F) := List.replicate NUM_LIGHTS Light.new
  let gLights ← (List.range NUM_LIGHTS).foldlM
    (fun ls i => onLight ls i (fun l => l.SetModel (some (Model.new .gLightMesh)))) gLights
  -- Cube set-up
  let gCube : List (Option (Model F)) := List.replicate NUM_LIGHTS none
  let gCube := (List.range NUM_CUBES).foldl
    (fun cs i =>
      if i = 2 ∨ i = 3 then cs.set i (some (Model.new .gCubeMeshAdvanced))
      else cs.set i (some (Model.new .gCubeMesh))) gCube
  let gPortal : Model F := Model.new .gPortalMesh
  let gSecondPortal : Model F := Model.new .gSecondPortalMesh
  let gTeapot : Model F := Model.new .gTeapotMesh
  let gCharacter : Model F := Model.new .gCharacterMesh
  let gTroll : Model F := Model.new .gTrollMesh
  let gLights ← setupLight h gLights 0 ⟨0.8, 0.8, 1.0⟩ 10 ⟨0, 0, 0⟩
  let gLights ← setupLight h gLights 1 ⟨1.0, 0.8, 0.2⟩ 40 ⟨-90, 40, -90⟩
  let gLights ← setupLight h gLights 2 ⟨0.8, 0.8, 1.0⟩ 10 ⟨0, 0, 0⟩
  let gLights ← setupLight h gLights 3 ⟨0.8, 0.8, 1.0⟩ 10 ⟨0, 0, 0⟩
  let gLights ← setupLight h gLights 4 ⟨0.8, 0.8, 1.0⟩ 10 ⟨0, 0, 0⟩
  let gLights ← onLightModel gLights 4 (fun _ m => m.FaceTarget h gCharacter.Position)
  let gLights ← setupLight h gLights 5 ⟨1.0, 0.8, 0.2⟩ 40 ⟨-20, 30, -60⟩
  let gLights ← onLightModel gLights 5 (fun _ m => m.FaceTarget h gCharacter.Position)
  let gLights ← setupLight h gLights 6 ⟨0.8, 0.8, 1.0⟩ 10 ⟨0, 0, 0⟩
  let gLights ← setupLight h gLights 7 ⟨0.8, 0.8, 1.0⟩ 40 ⟨0, 0, 0⟩
  let gLights ← setupLight h gLights 8 ⟨0.8, 0.8, 1.0⟩ 10 ⟨0, 0, 0⟩
  let gLights ← setupLight h gLights 9 ⟨0.8, 0.8, 1.0⟩ 10 ⟨0, 0, 0⟩
  -- Initial positions
  let gCube ← onCube gCube 0 (fun m => (m.SetPosition ⟨-90, 15, 0⟩).SetScale 1.5)
  let gCube ← onCube gCube 1 (fun m => (m.SetPosition ⟨-90, 15, 90⟩).SetScale 1.5)
  let gCube ← onCube gCube 2 (fun m => (m.SetPosition ⟨0, 15, 90⟩).SetScale 1.5)
  let gCube ← onCube gCube 3 (fun m => (m.SetPosition ⟨0, 15, 0⟩).SetScale 1.5)
  let gCube ← onCube gCube 4 (fun m => (m.SetPosition ⟨-90, 15, -180⟩).SetScale 1.5)
  let gCube ← onCube gCube 5 (fun m => m.SetPosition ⟨90, 15, -180⟩)
  let gCube ← onCube gCube 6 (fun m => (m.SetPosition ⟨-90, 15, 180⟩).SetScale 1.5)
  let gDecal := gDecal.SetPosition ⟨90, 15, -180.1⟩
  let gSphere := gSphere.SetPosition ⟨90, 15, 0⟩
  let gCrate := ((gCrate.SetPosition ⟨0, 0, -180⟩).SetScale 6.0).SetRotation
    ⟨0.0, h.ToRadians 40.0, 0.0⟩
  let gPortal := (gPortal.SetPosition ⟨90, 15, 90⟩).SetScale 1.5
  let gSecondPortal := (gSecondPortal.SetPosition ⟨90, 15, -90⟩).SetScale 1.0
  let gTeapot := (gTeapot.SetPosition ⟨-90, 10, -90⟩).SetScale 1.5
  let gCharacter := ((gCharacter.SetPosition ⟨0, 0, -90⟩).SetScale 8).SetRotation
    ⟨0, h.ToRadians 215.0, 0⟩
  let gTroll := ((gTroll.SetPosition ⟨0, 0, 180⟩).SetScale 8.0).SetRotation
    ⟨0, h.ToRadians 215.0, 0⟩
  let gBike := ((gBike.SetPosition ⟨0, 0, 270⟩).SetScale 3.0).SetRotation
    ⟨0, h.ToRadians 215.0, 0⟩
  let gCubeMulti := (gCubeMulti.SetPosition ⟨90, 15, 180⟩).SetScale 1.5
  -- Set up cameras
  let gCamera : Camera F :=
    { (Camera.new : Camera F) with
      mPosition := ⟨40, 50, -300⟩,
      mRotation := ⟨h.ToRadians 15.0, h.ToRadians (-18.0), 0.0⟩,
      mNearClip := 1.0, mFarClip := 5000.0 }
  let gPortalCamera : Camera F :=
    { (Camera.new : Camera F) with
      mPosition := ⟨45, 45, 85⟩,
      mRotation := ⟨h.ToRadians 20.0, h.ToRadians 215.0, 0⟩ }
  pure
    { gDecal := gDecal, gCrate := gCrate, gSphere := gSphere, gGround := gGround,
      gPortal := gPortal, gSecondPortal := gSecondPortal, gTeapot := gTeapot,
      gCharacter := gCharacter, gTroll := gTroll, gCubeMulti := gCubeMulti, gBike := gBike,
      gCamera := gCamera, gPortalCamera := gPortalCamera, gLights := gLights, gCube := gCube,
      textures := textures, gPerFrameConstants := gPerFrameConstants,
      gPerModelConstants := gPerModelConstants, gUseParallax := true, lockFPS := true,
      gViewportWidth := gViewportWidth, gViewportHeight := gViewportHeight,
      totalTime := 0.0, rotate := 0.0, totalFrameTime := 0, frameCount := 0 }

/-! ## Scene update -/

/-- The keys passed to `Control` for the first group of models. -/
def keysIJKL : List KeyCode :=
  [.Key_I, .Key_K, .Key_J, .Key_L, .Key_U, .Key_O, .Key_Period, .Key_Comma]

/-- The keys passed to `Control` for the second group of models. -/
def keysTGFH : List KeyCode :=
  [.Key_T, .Key_G, .Key_F, .Key_H, .Key_R, .Key_Y, .Key_Period, .Key_Comma]

/-- The keys passed to `Control` for the main camera. -/
def keysCamera : List KeyCode :=
  [.Key_Up, .Key_Down, .Key_Left, .Key_Right, .Key_W, .Key_S, .Key_A, .Key_D]

/-- Update models and camera; `frameTime` is the time passed since the last frame. The command
returned is the upload of the per-frame constants (`UpdateSubresource`); the window title, a
formatted string, is not modelled. -/
def UpdateScene {F : Type} [LinearOrderedField F] (h : Helpers F) (input : Input) (s : Scene F)
    (frameTime : F) : Except Fault (Scene F × List (Cmd F)) := do
  -- Control models
  let gCube ← onCube s.gCube 0 (h.ModelControl frameTime keysIJKL input)
  let gCube ← onCube gCube 1 (h.ModelControl frameTime keysIJKL input)
  let gCube ← onCube gCube 2 (h.ModelControl frameTime keysIJKL input)
  let gCube ← onCube gCube 3 (h.ModelControl frameTime keysIJKL input)
  let gCube ← onCube gCube 4 (h.ModelControl frameTime keysIJKL input)
  let gCube ← onCube gCube 5 (h.ModelControl frameTime keysIJKL input)
  let gCube ← onCube gCube 6 (h.ModelControl frameTime keysIJKL input)
  let gDecal := h.ModelControl frameTime keysIJKL input s.gDecal
  let gCrate := h.ModelControl frameTime keysIJKL input s.gCrate
  let gSphere := h.ModelControl frameTime keysIJKL input s.gSphere
  let gPortal := h.ModelControl frameTime keysIJKL input s.gPortal
  let gSecondPortal := h.ModelControl frameTime keysTGFH input s.gSecondPortal
  let gTeapot := h.ModelControl frameTime keysTGFH input s.gTeapot
  let gTroll := h.ModelControl frameTime keysTGFH input s.gTroll
  let gCubeMulti := h.ModelControl frameTime keysTGFH input s.gCubeMulti
  let gBike := h.BikeControl 0 frameTime keysIJKL input s.gBike
  let gBike := h.BikeControl 1 frameTime [.Key_Period, .Key_Comma] input gBike
  let gBike := h.BikeControl 2 frameTime [.Key_Period, .Key_Comma] input gBike
  let gCamera := h.CameraControl frameTime keysCamera input s.gCamera
  -- Orbit the lights
  let rotate := s.rotate
  let c0 ← (elemAt gCube 0) >>= deref
  let c2 ← (elemAt gCube 2) >>= deref
  let c3 ← (elemAt gCube 3) >>= deref
  let gLights ← onLightModel s.gLights 0 (fun _ m => m.SetPosition
    (gTeapot.Position.add ⟨h.cos rotate * gLightOrbit, 10.0, h.sin rotate * gLightOrbit⟩))
  let gLights ← onLightModel gLights 2 (fun _ m => m.SetPosition
    (c2.Position.add ⟨h.cos rotate * gLightOrbit, 0.0, h.sin rotate * gLightOrbit⟩))
  let gLights ← onLightModel gLights 3 (fun _ m => m.SetPosition
    (c3.Position.add ⟨h.cos rotate * gLightOrbit, 0.0, h.sin rotate * gLightOrbit⟩))
  let gLights ← onLightModel gLights 6 (fun _ m => m.SetPosition
    (gBike.Position.add
      ⟨h.cos rotate * gLightOrbit * 2.0, 15.0, h.sin rotate * gLightOrbit * 2.0⟩))
  let gLights ← onLightModel gLights 8 (fun _ m => m.SetPosition
    (c0.Position.add ⟨h.cos rotate * gLightOrbit, 0.0, h.sin rotate * gLightOrbit⟩))
  let gLights ← onLightModel gLights 9 (fun _ m => m.SetPosition
    (gTroll.Position.add ⟨h.cos rotate * gLightOrbit, 10.0, h.sin rotate * gLightOrbit⟩))
  let gLights ← onLightModel gLights 4 (fun _ m => m.SetPosition
    (s.gCharacter.Position.add ⟨h.cos rotate * gLightOrbit, 10, h.sin rotate * gLightOrbit⟩))
  let gLights ← onLightModel gLights 4 (fun _ m => m.FaceTarget h s.gCharacter.Position)
  let gLights ← onLightModel gLights 5 (fun _ m => m.FaceTarget h s.gCharacter.Position)
  let gLights ← onLightModel gLights 7 (fun _ m => m.SetPosition
    (gCrate.Position.add
      ⟨h.cos rotate * gLightOrbit * 2.0, 35.0, h.sin rotate * gLightOrbit * 2.0⟩))
  let gLights ← onLightModel gLights 7 (fun _ m => m.FaceTarget h gCrate.Position)
  let rotate := rotate - gLightOrbitSpeed * frameTime
  let totalTime := s.totalTime + frameTime
  let gLights ← onLight gLights 0 (fun l => l.SetStrength (5.0 + h.sin (totalTime * 2.0) * 5.0))
  let gLights ← onLightModel gLights 0 (fun l m => m.SetScale (h.pow l.GetStrength 0.7))
  let colorChange : F := (h.sin totalTime + 1.0) / 2.0
  let gLights ← onLight gLights 1 (fun l => l.SetColor ⟨colorChange, 0.2, 1.0 - colorChange⟩)
  let gLights ← onLight gLights 7 (fun l => l.SetColor ⟨colorChange, 0.2, 1.0 - colorChange⟩)
  let gLights ← onLight gLights 7
    (fun l => l.SetStrength (20.0 + h.sin (totalTime * 2.0) * 20.0))
  let gLights ← onLightModel gLights 7 (fun l m => m.SetScale (h.pow l.GetStrength 0.7))
  -- Effect parameters
  let wiggle : F := s.gPerFrameConstants.wiggle + 3.0 * frameTime
  let transitionFactor : F := (h.sin wiggle + 1.0) * 0.5
  let gSecondPortal := gSecondPortal.SetRotation ⟨0.0, totalTime, 0.0⟩
  let minBrightness : F := 0.5
  let pf : PerFrameConstants F :=
    { s.gPerFrameConstants with
      wiggle := wiggle,
      transitionFactor := transitionFactor,
      colorVariation :=
        ![ minBrightness + (h.sin (totalTime * 1.2) + 1.0) * 0.5,
           minBrightness + (h.cos (totalTime * 1.5) + 1.0) * 0.5,
           minBrightness + (h.sin (totalTime * 0.7) + 1.0) * 0.5 ] }
  -- Toggles
  let lockFPS := if input.hit .Key_P then !s.lockFPS else s.lockFPS
  let gUseParallax := if input.hit .Key_1 then !s.gUseParallax else s.gUseParallax
  -- Frame time accumulated for the window title
  let fpsUpdateTime : F := 0.5
  let totalFrameTime := s.totalFrameTime + frameTime
  let frameCount := s.frameCount + 1
  let showTitle : Bool := decide (totalFrameTime > fpsUpdateTime)
  pure
    ({ s with
        gCube := gCube, gDecal := gDecal, gCrate := gCrate, gSphere := gSphere,
        gPortal := gPortal, gSecondPortal := gSecondPortal, gTeapot := gTeapot,
        gTroll := gTroll, gCubeMulti := gCubeMulti, gBike := gBike, gCamera := gCamera,
        gLights := gLights, rotate := rotate, totalTime := totalTime,
        gPerFrameConstants := pf, lockFPS := lockFPS, gUseParallax := gUseParallax,
        totalFrameTime := if showTitle then 0 else totalFrameTime,
        frameCount := if showTitle then 0 else frameCount },
     [ .UpdateConstantBuffer pf ])

/-- A sequence of `UpdateScene` calls, one for each pair of keyboard state and frame time. -/
def runUpdates {F : Type} [LinearOrderedField F] (h : Helpers F) (s : Scene F)
    (frames : List (Input × F)) : Except Fault (Scene F) :=
  frames.foldlM (fun s frame => do
    let (t, _) ← UpdateScene h frame.1 s frame.2
    pure t) s

/-- The scene states reachable by `InitScene` followed by any sequence of `UpdateScene`
calls. -/
def Reachable {F : Type} [LinearOrderedField F] (h : Helpers F) (s : Scene F) : Prop :=
  ∃ (textures : List Texture) (width height : Int) (pf : PerFrameConstants F)
    (pm : PerModelConstants F) (s0 : Scene F) (frames : List (Input × F)),
    InitScene h textures width height pf pm = Except.ok s0 ∧
      runUpdates h s0 frames = Except.ok s

/-- Plain helper functions for evaluating the scene functions on sample inputs: sine and
degree conversion return 0, cosine and power return 1, rotations and projections are the
identity, keyboard control leaves models and cameras alone, and a camera's view matrix is the
translation by its position. -/
def plainHelpers (F : Type) [Field F] : Helpers F :=
  { sin := fun _ => 0, cos := fun _ => 1, pow := fun _ _ => 1, ToRadians := fun _ => 0,
    Normalise := fun v => v, MakeProjectionMatrix := fun _ _ => 1,
    MatrixRotation := fun _ => 1, FaceTargetRotation := fun _ _ => ⟨0, 0, 0⟩,
    ModelControl := fun _ _ _ m => m, BikeControl := fun _ _ _ _ m => m,
    CameraControl := fun _ _ _ c => c,
    ViewMatrix := fun c => MatrixTranslation c.mPosition,
    ProjectionMatrix := fun _ => 1,
    ViewProjectionMatrix := fun c => MatrixTranslation c.mPosition }

/-- The plain helper functions over the rationals. -/
def sampleHelpers : Helpers ℚ := plainHelpers ℚ

/-- The per-frame constants as a zero-initialised global. -/
def PerFrameConstants.zero {F : Type} [Field F] : PerFrameConstants F :=
  { viewMatrix := 0, projectionMatrix := 0, viewProjectionMatrix := 0,
    light1Position := ⟨0, 0, 0⟩, light1Colour := ⟨0, 0, 0⟩,
    light2Position := ⟨0, 0, 0⟩, light2Colour := ⟨0, 0, 0⟩,
    light3Position := ⟨0, 0, 0⟩, light3Colour := ⟨0, 0, 0⟩,
    light4Position := ⟨0, 0, 0⟩, light4Colour := ⟨0, 0, 0⟩,
    light5Position := ⟨0, 0, 0⟩, light5Colour := ⟨0, 0, 0⟩, light5Facing := ⟨0, 0, 0⟩,
    light5CosHalfAngle := 0, light5ViewMatrix := 0, light5ProjectionMatrix := 0,
    light6Position := ⟨0, 0, 0⟩, light6Colour := ⟨0, 0, 0⟩, light6Facing := ⟨0, 0, 0⟩,
    light6CosHalfAngle := 0, light6ViewMatrix := 0, light6ProjectionMatrix := 0,
    light7Position := ⟨0, 0, 0⟩, light7Colour := ⟨0, 0, 0⟩,
    light8Position := ⟨0, 0, 0⟩, light8Colour := ⟨0, 0, 0⟩, light8Facing := ⟨0, 0, 0⟩,
    light8CosHalfAngle := 0, light8ViewMatrix := 0, light8ProjectionMatrix := 0,
    light9Position := ⟨0, 0, 0⟩, light9Colour := ⟨0, 0, 0⟩,
    light10Position := ⟨0, 0, 0⟩, light10Colour := ⟨0, 0, 0⟩,
    ambientColour := ⟨0, 0, 0⟩, specularPower := 0, cameraPosition := ⟨0, 0, 0⟩,
    outlineColour := ⟨0, 0, 0⟩, outlineThickness := 0, wiggle := 0, transitionFactor := 0,
    parallaxDepth := 0, colorVariation := fun _ => 0 }

/-- The per-model constants as a zero-initialised global. -/
def PerModelConstants.zero {F : Type} [Field F] : PerModelConstants F :=
  { objectColour := ⟨0, 0, 0⟩ }

/-- A device context on which nothing has been bound yet. -/
def DeviceState.fresh {F : Type} : DeviceState F :=
  { renderTarget := none, depthStencil := none, viewport := none, perFrameBuffer := none,
    vertexShader := none, pixelShader := none, blendState := none, depthStencilState := none,
    rasterizerState := none, psResources := fun _ => none, psSamplers := fun _ => none,
    drawsSinceBind := 0, depthClear := none, colourClear := none }

/-- The scene that `InitScene` prepares from the textures of `InitGeometry`, zero-initialised
constant structures and a window of 1280 by 960, with the sample helpers. -/
def sampleScene : Except Fault (Scene ℚ) :=
  InitScene sampleHelpers loadedTextures 1280 960 PerFrameConstants.zero PerModelConstants.zero


/-- No key is held down or newly pressed. -/
def noKeys : Input := ⟨fun _ => false, fun _ => false⟩

/-- The sample scene as a value. -/
def sampleSceneValue : Scene ℚ := (sampleScene.toOption).get (by decide)

/-- The helpers with the C maths functions `sin`, `cos` and `pow` read as the functions of
real analysis (exact real arithmetic). -/
noncomputable def Helpers.real (h : Helpers ℝ) : Helpers ℝ :=
  { h with sin := Real.sin, cos := Real.cos, pow := fun x y => x ^ y }

/-- The plain helpers over the reals, with `sin`, `cos` and `pow` the real functions. -/
noncomputable def realHelpers : Helpers ℝ := (plainHelpers ℝ).real

/-- Sum of the frame times of a sequence of `UpdateScene` calls. -/
def elapsed {F : Type} [LinearOrderedField F] (frames : List (Input × F)) : F :=
  (frames.map Prod.snd).sum

/-- The scene left by a call of a scene function, or the given scene when the call fails. -/
def sceneAfter {F : Type} (r : Except Fault (Scene F × List (Cmd F))) (s : Scene F) : Scene F :=
  match r with
  | .ok (t, _) => t
  | .error _ => s

/-! ## Geometry set-up and teardown (`InitGeometry`, `LoadShaders`, `ReleaseResources`) -/

/-- One of the shader globals of `Shader.cpp`. -/
inductive ShaderHandle
  | vertex (shader : VertexShader)
  | pixel (shader : PixelShader)
  deriving DecidableEq, Repr

/-- The two constant buffers of `Scene.cpp`. -/
inductive ConstantBuffer
  | gPerFrameConstantBuffer | gPerModelConstantBuffer
  deriving DecidableEq, Repr

/-- What `LoadTexture` reports: its return value and the two pointers it fills in. -/
structure LoadedTexture where
  ok : Bool
  texture : Option Resource
  view : Option ShaderResourceView
  deriving DecidableEq, Repr

/-- The functions that `InitGeometry` calls and whose code is outside `Scene.cpp`: each tells
how the call ends. A mesh constructor either returns or throws `std::runtime_error` with a
message; a shader load and `CreateConstantBuffer` return a pointer, `true` standing for
non-null; the device calls return a result, `true` standing for not `FAILED`. -/
structure Loaders where
  newMesh : Mesh → Except String Unit
  LoadVertexShader : String → Bool
  LoadPixelShader : String → Bool
  CreateConstantBuffer : ConstantBuffer → Bool
  LoadTexture : String → LoadedTexture
  CreateTexture2D : Resource → Bool
  CreateRenderTargetView : RenderTargetView → Bool
  CreateShaderResourceView : ShaderResourceView → Bool
  CreateDepthStencilView : DepthStencilView → Bool
  CreateStates : Bool

/-- The constructor `Texture::Texture(filename)`: it throws `std::runtime_error` when
`LoadTexture` fails; otherwise the resource pointer is released when non-null and set to
null, and the view is kept. The second component is the resource released. -/
def Texture.new (env : Loaders) (filename : String) : Except String (Texture × Option Resource) :=
  let loaded := env.LoadTexture filename
  if !loaded.ok then
    .error ("Failed to load texture: " ++ filename)
  else
    .ok ({ filename := filename, mTexture := none, mTextureSRV := loaded.view }, loaded.texture)

/-- The method `Texture::GetTexture`. -/
def Texture.GetTexture (t : Texture) : Option Resource := t.mTexture

/-- The assignments of `LoadShaders` in order: the global assigned and the shader file
loaded into it. -/
def shaderFiles : List (ShaderHandle × String) :=
  [ (.vertex .gPixelLightingVertexShader, "PixelLighting_vs"),
    (.pixel .gPixelLightingPixelShader, "PixelLighting_ps"),
    (.vertex .gLightModelVertexShader, "LightModel_vs"),
    (.pixel .gLightModelPixelShader, "LightModel_ps"),
    (.pixel .gTVPortalPixelShader, "TVPortal_ps"),
    (.vertex .gWiggleModelVertexShader, "PulsatingSphere_vs"),
    (.pixel .gWiggleModelPixelShader, "PulsatingSphere_ps"),
    (.pixel .gTextureTransitionPixelShader, "TextureTransition_ps"),
    (.vertex .gNormalMappingVertexShader, "NormalMapping_vs"),
    (.pixel .gNormalMappingPixelShader, "NormalMapping_ps"),
    (.vertex .gParallaxMappingVertexShader, "ParallaxMapping_vs"),
    (.pixel .gParallaxMappingPixelShader, "ParallaxMapping_ps"),
    (.vertex .gShadowMappingVertexShader, "ShadowMapping_vs"),
    (.pixel .gShadowMappingPixelShader, "ShadowMapping_ps"),
    (.vertex .gBasicTransformVertexShader, "BasicTransform_vs"),
    (.pixel .gDepthOnlyPixelShader, "DepthOnly_ps"),
    (.vertex .gFloorVertexShader, "Floor_vs"),
    (.pixel .gFloorPixelShader, "Floor_ps"),
    (.vertex .gSpecularMapVertexShader, "TransformLighting_vs"),
    (.pixel .gSpecularMapPixelShader, "TextureLighting_ps"),
    (.vertex .gCellShadingOutlineVertexShader, "CellShadingOutline_vs"),
    (.pixel .gCellShadingOutlinePixelShader, "CellShadingOutline_ps"),
    (.vertex .gCellShadingVertexShader, "CellShading_vs"),
    (.pixel .gCellShadingPixelShader, "CellShading_ps"),
    (.vertex .gWiggleTextureVertexShader, "WiggleTexture_vs"),
    (.pixel .gWiggleTexturePixelShader, "WiggleTexture_ps"),
    (.vertex .gAdditionalVertexShader, "Additional_vs"),
    (.pixel .gAdditionalPixelShader, "Additional_ps"),
    (.vertex .gCrateShadowMappingVertexShader, "CrateShadowMapping_vs"),
    (.pixel .gCrateShadowMappingPixelShader, "CrateShadowMapping_ps") ]

/-- The globals that `LoadShaders` compares with `nullptr` after the assignments, in the order
of the condition. -/
def shaderChecks : List ShaderHandle :=
  [ .vertex .gPixelLightingVertexShader, .pixel .gPixelLightingPixelShader,
    .vertex .gLightModelVertexShader, .pixel .gLightModelPixelShader,
    .pixel .gTVPortalPixelShader, .vertex .gWiggleModelVertexShader,
    .pixel .gWiggleModelPixelShader, .pixel .gTextureTransitionPixelShader,
    .vertex .gNormalMappingVertexShader, .pixel .gNormalMappingPixelShader,
    .vertex .gParallaxMappingVertexShader, .pixel .gParallaxMappingPixelShader,
    .vertex .gShadowMappingVertexShader, .pixel .gShadowMappingPixelShader,
    .vertex .gBasicTransformVertexShader, .pixel .gDepthOnlyPixelShader,
    .vertex .gFloorVertexShader, .pixel .gFloorPixelShader,
    .vertex .gSpecularMapVertexShader, .pixel .gSpecularMapPixelShader,
    .vertex .gCellShadingOutlineVertexShader, .pixel .gCellShadingOutlinePixelShader,
    .vertex .gCellShadingVertexShader, .pixel .gCellShadingPixelShader,
    .vertex .gWiggleTextureVertexShader, .pixel .gWiggleTexturePixelShader,
    .vertex .gAdditionalVertexShader, .pixel .gAdditionalPixelShader,
    .vertex .gCrateShadowMappingVertexShader, .pixel .gCrateShadowMappingPixelShader ]

/-- The call that loads a shader file into a global: `LoadVertexShader` for a vertex shader,
`LoadPixelShader` for a pixel shader. -/
def ShaderHandle.load (env : Loaders) : ShaderHandle → String → Bool
  | .vertex _, file => env.LoadVertexShader file
  | .pixel _, file => env.LoadPixelShader file

/-- Whether a shader global is non-null after the assignments of `LoadShaders`; every global
starts as `nullptr`. -/
def shaderLoaded (env : Loaders) (handle : ShaderHandle) : Bool :=
  match shaderFiles.lookup handle with
  | some file => handle.load env file
  | none => false

/-- The function `LoadShaders`: all shaders are loaded, then the globals are compared with
`nullptr`. Returns the result and `gLastError`. -/
def LoadShaders (env : Loaders) (gLastError : String) : Bool × String :=
  if shaderChecks.any (fun handle => !shaderLoaded env handle) then
    (false, "Error loading shaders")
  else
    (true, gLastError)

/-- The globals released by `ReleaseShaders`, in order. -/
def shaderReleases : List ShaderHandle :=
  [ .vertex .gLightModelVertexShader, .pixel .gLightModelPixelShader,
    .vertex .gPixelLightingVertexShader, .pixel .gPixelLightingPixelShader,
    .pixel .gTVPortalPixelShader, .vertex .gWiggleModelVertexShader,
    .pixel .gWiggleModelPixelShader, .pixel .gTextureTransitionPixelShader,
    .vertex .gNormalMappingVertexShader, .pixel .gNormalMappingPixelShader,
    .vertex .gParallaxMappingVertexShader, .pixel .gParallaxMappingPixelShader,
    .vertex .gShadowMappingVertexShader, .pixel .gShadowMappingPixelShader,
    .vertex .gFloorVertexShader, .pixel .gFloorPixelShader,
    .vertex .gSpecularMapVertexShader, .pixel .gSpecularMapPixelShader,
    .vertex .gCellShadingVertexShader, .pixel .gCellShadingPixelShader,
    .vertex .gCellShadingOutlineVertexShader, .pixel .gCellShadingOutlinePixelShader,
    .vertex .gWiggleTextureVertexShader, .pixel .gWiggleTexturePixelShader,
    .vertex .gAdditionalVertexShader, .pixel .gAdditionalPixelShader,
    .vertex .gCrateShadowMappingVertexShader, .pixel .gCrateShadowMappingPixelShader ]

/-- The individual load and creation steps of `InitGeometry`. -/
inductive Step
  | newMesh (mesh : Mesh)
  | loadShader (handle : ShaderHandle)
  | createConstantBuffer (buffer : ConstantBuffer)
  | loadTexture (file : String)
  | newTexture (file : String)
  | createTexture2D (texture : Resource)
  | createRenderTargetView (view : RenderTargetView)
  | createShaderResourceView (view : ShaderResourceView)
  | createDepthStencilView (view : DepthStencilView)
  | createStates
  deriving DecidableEq, Repr

/-- How a step fails, if it does: `some text` where `text` is the message of the exception for
a constructor that throws, and the empty text for a failure reported by the return value. -/
def Step.failure (env : Loaders) : Step → Option String
  | .newMesh mesh =>
      match env.newMesh mesh with
      | .ok _ => none
      | .error text => some text
  | .loadShader handle => if shaderLoaded env handle then none else some ""
  | .createConstantBuffer buffer => if env.CreateConstantBuffer buffer then none else some ""
  | .loadTexture file => if (env.LoadTexture file).ok then none else some ""
  | .newTexture file =>
      match Texture.new env file with
      | .ok _ => none
      | .error text => some text
  | .createTexture2D texture => if env.CreateTexture2D texture then none else some ""
  | .createRenderTargetView view => if env.CreateRenderTargetView view then none else some ""
  | .createShaderResourceView view =>
      if env.CreateShaderResourceView view then none else some ""
  | .createDepthStencilView view => if env.CreateDepthStencilView view then none else some ""
  | .createStates => if env.CreateStates then none else some ""

/-- Whether a step succeeds. -/
def Step.succeeds (env : Loaders) (step : Step) : Bool := (step.failure env).isNone

/-- The steps run by a `try` block or a chain of `||`: those up to and including the first
step that fails. -/
def upToFailure (env : Loaders) : List Step → List Step
  | [] => []
  | step :: rest => if step.succeeds env then step :: upToFailure env rest else [step]

/-- The exception text of the first step that fails. -/
def firstFailure (env : Loaders) : List Step → Option String
  | [] => none
  | step :: rest =>
      match step.failure env with
      | some text => some text
      | none => firstFailure env rest

/-- A part of `InitGeometry` that ends in `return false` when it fails: the steps written in
it, the steps it runs, and the `gLastError` it sets when it fails. -/
structure Block where
  steps : List Step
  executed : Loaders → List Step
  failure : Loaders → Option String

/-- The `try` block of the mesh constructors; `gLastError` is the text of the exception. -/
def meshBlock : Block :=
  let steps : List Step :=
    [ .newMesh .gCubeMesh, .newMesh .gCubeMeshAdvanced, .newMesh .gDecalMesh,
      .newMesh .gCrateMesh, .newMesh .gSphereMesh, .newMesh .gGroundMesh, .newMesh .gLightMesh,
      .newMesh .gPortalMesh, .newMesh .gSecondPortalMesh, .newMesh .gTeapotMesh,
      .newMesh .gCharacterMesh, .newMesh .gTrollMesh, .newMesh .gCubeMultiMesh,
      .newMesh .gAnimatedMesh ]
  { steps := steps,
    executed := fun env => upToFailure env steps,
    failure := fun env => firstFailure env steps }

/-- The call of `LoadShaders`: every shader is loaded before the globals are checked. -/
def shaderBlock : Block :=
  { steps := shaderFiles.map (fun entry => .loadShader entry.1),
    executed := fun _ => shaderFiles.map (fun entry => .loadShader entry.1),
    failure := fun env =>
      if (LoadShaders env "").1 then none else some "Error loading shaders" }

/-- The creation of the two constant buffers: both are created before the pointers are
checked. -/
def bufferBlock : Block :=
  { steps := [.createConstantBuffer .gPerFrameConstantBuffer,
              .createConstantBuffer .gPerModelConstantBuffer],
    executed := fun _ => [.createConstantBuffer .gPerFrameConstantBuffer,
                          .createConstantBuffer .gPerModelConstantBuffer],
    failure := fun env =>
      if !env.CreateConstantBuffer .gPerFrameConstantBuffer
          || !env.CreateConstantBuffer .gPerModelConstantBuffer then
        some "Error creating constant buffers"
      else none }

/-- The `||` chain of `LoadTexture` calls for the faces of the multi-texture cube. -/
def cubeTextureBlock : Block :=
  let steps : List Step :=
    [ .loadTexture "negx.jpg", .loadTexture "negy.jpg", .loadTexture "negz.jpg",
      .loadTexture "posx.jpg", .loadTexture "posy.jpg", .loadTexture "posz.jpg" ]
  { steps := steps,
    executed := fun env => upToFailure env steps,
    failure := fun env => (firstFailure env steps).map (fun _ => "Error loading textures") }

/-- The `try` block that fills the vector `textures`. -/
def textureBlock : Block :=
  { steps := textureFiles.map .newTexture,
    executed := fun env => upToFailure env (textureFiles.map .newTexture),
    failure := fun env =>
      (firstFailure env (textureFiles.map .newTexture)).map
        (fun text => "Error loading textures: " ++ text) }

/-- One call that is checked on its own. -/
def guarded (step : Step) (message : String) : Block :=
  { steps := [step],
    executed := fun _ => [step],
    failure := fun env => if step.succeeds env then none else some message }

/-- The parts of `InitGeometry` in order. -/
def geometryBlocks : List Block :=
  [ meshBlock, shaderBlock, bufferBlock, cubeTextureBlock, textureBlock,
    guarded (.createTexture2D .gPortalTexture) "Error creating portal texture",
    guarded (.createTexture2D .gSecondPortalTexture) "Error creating second portal texture",
    guarded (.createRenderTargetView .gPortalRenderTarget)
      "Error creating portal render target view",
    guarded (.createRenderTargetView .gSecondPortalRenderTarget)
      "Error creating second portal render target view",
    guarded (.createShaderResourceView .gPortalTextureSRV)
      "Error creating portal shader resource view",
    guarded (.createShaderResourceView .gSecondPortalTextureSRV)
      "Error creating second portal shader resource view",
    guarded (.createTexture2D .gPortalDepthStencil)
      "Error creating portal depth stencil texture",
    guarded (.createDepthStencilView .gPortalDepthStencilView)
      "Error creating portal depth stencil view",
    guarded (.createTexture2D .gShadowMap1Texture) "Error creating shadow map texture",
    guarded (.createTexture2D .gShadowMap2Texture) "Error creating second shadow map texture",
    guarded (.createTexture2D .gShadowMap3Texture) "Error creating second shadow map texture",
    guarded (.createDepthStencilView .gShadowMap1DepthStencil)
      "Error creating shadow map depth stencil view",
    guarded (.createDepthStencilView .gShadowMap2DepthStencil)
      "Error creating second shadow map depth stencil view",
    guarded (.createDepthStencilView .gShadowMap3DepthStencil)
      "Error creating second shadow map depth stencil view",
    guarded (.createShaderResourceView .gShadowMap1SRV)
      "Error creating shadow map shader resource view",
    guarded (.createShaderResourceView .gShadowMap2SRV)
      "Error creating second shadow map shader resource view",
    guarded (.createShaderResourceView .gShadowMap3SRV)
      "Error creating second shadow map shader resource view",
    guarded (.createTexture2D .gCubeMapTexture) "Error creating cube map texture",
    guarded (.createShaderResourceView .gCubeMapTextureSRV)
      "Error creating cube map shader resource view",
    guarded .createStates "Error creating states" ]

/-- What a run of `InitGeometry` leaves: its return value, `gLastError`, and the steps it ran
in order. -/
structure GeometryResult where
  result : Bool
  gLastError : String
  executed : List Step
  deriving DecidableEq, Repr

/-- The parts of a function run in order: the first part that fails sets `gLastError` and
returns false; when none fails the function returns true. -/
def runBlocks (env : Loaders) : List Block → GeometryResult → GeometryResult
  | [], r => { r with result := true }
  | block :: rest, r =>
      let r := { r with executed := r.executed ++ block.executed env }
      match block.failure env with
      | some message => { r with result := false, gLastError := message }
      | none => runBlocks env rest r

/-- The function `InitGeometry`, started with the given `gLastError`. -/
def InitGeometry (env : Loaders) (gLastError : String) : GeometryResult :=
  runBlocks env geometryBlocks { result := false, gLastError := gLastError, executed := [] }

/-- The vector `textures` after the steps run: one `Texture` for each constructor that
returned. -/
def texturesOf (env : Loaders) (executed : List Step) : List Texture :=
  executed.filterMap (fun step =>
    match step with
    | .newTexture file =>
        match Texture.new env file with
        | .ok (t, _) => some t
        | .error _ => none
    | _ => none)

/-- A COM object created by `InitGeometry` or released by `ReleaseResources`. -/
inductive GpuObject
  | shader (handle : ShaderHandle)
  | buffer (buffer : ConstantBuffer)
  | texture (texture : Resource)
  | renderTargetView (view : RenderTargetView)
  | depthStencilView (view : DepthStencilView)
  | shaderResourceView (view : ShaderResourceView)
  deriving DecidableEq, Repr

/-- The objects that a successful step leaves in the globals of `Scene.cpp` and `Shader.cpp`.
The faces of the multi-texture cube are loaded into `gCubeMultiTextureSRVs` and
`gCubeMultiDiffuseMap`; the views of the vector `textures` belong to the `Texture` objects and
are not listed. -/
def Step.creates : Step → List GpuObject
  | .newMesh _ => []
  | .loadShader handle => [.shader handle]
  | .createConstantBuffer buffer => [.buffer buffer]
  | .loadTexture file => [.texture (.ofFile file), .shaderResourceView (.ofFile file)]
  | .newTexture _ => []
  | .createTexture2D texture => [.texture texture]
  | .createRenderTargetView view => [.renderTargetView view]
  | .createShaderResourceView view => [.shaderResourceView view]
  | .createDepthStencilView view => [.depthStencilView view]
  | .createStates => []

/-- The function `ReleaseShaders`: each listed global is released when it is non-null. -/
def ReleaseShaders (nonNull : GpuObject → Bool) : List GpuObject :=
  (shaderReleases.map GpuObject.shader).filter nonNull

/-- The releases of `ReleaseResources` on the device objects, in order: each listed global is
released when it is non-null, and `ReleaseShaders` is called. -/
def ReleaseResources (nonNull : GpuObject → Bool) : List GpuObject :=
  ([ GpuObject.depthStencilView .gShadowMap1DepthStencil,
     .shaderResourceView .gShadowMap1SRV,
     .texture .gShadowMap1Texture,
     .depthStencilView .gShadowMap2DepthStencil,
     .shaderResourceView .gShadowMap2SRV,
     .texture .gShadowMap2Texture,
     .shaderResourceView .gCubeMapTextureSRV,
     .texture .gCubeMapTexture,
     .depthStencilView .gShadowMap3DepthStencil,
     .shaderResourceView .gShadowMap3SRV,
     .texture .gShadowMap3Texture,
     .depthStencilView .gPortalDepthStencilView,
     .texture .gPortalDepthStencil,
     .shaderResourceView .gPortalTextureSRV,
     .renderTargetView .gPortalRenderTarget,
     .texture .gPortalTexture,
     .buffer .gPerModelConstantBuffer,
     .buffer .gPerFrameConstantBuffer ].filter nonNull)
    ++ ReleaseShaders nonNull

/-- The objects created by the steps run. -/
def createdBy (executed : List Step) : List GpuObject :=
  executed.flatMap Step.creates

/-- Loaders with which every step succeeds. -/
def goodLoaders : Loaders :=
  { newMesh := fun _ => .ok (),
    LoadVertexShader := fun _ => true,
    LoadPixelShader := fun _ => true,
    CreateConstantBuffer := fun _ => true,
    LoadTexture := fun file => ⟨true, some (.ofFile file), some (.ofFile file)⟩,
    CreateTexture2D := fun _ => true,
    CreateRenderTargetView := fun _ => true,
    CreateShaderResourceView := fun _ => true,
    CreateDepthStencilView := fun _ => true,
    CreateStates := true }

/-- What holds of every part of `InitGeometry`: it runs only its own steps; it does not fail
exactly when all its steps succeed, and then it has run all of them; when it fails, one of
the steps it ran failed. -/
def Block.Sound (env : Loaders) (b : Block) : Prop :=
  b.executed env ⊆ b.steps
    ∧ (b.failure env = none ↔ ∀ step ∈ b.steps, step.succeeds env = true)
    ∧ (b.failure env = none → b.executed env = b.steps)
    ∧ (∀ message, b.failure env = some message →
        ∃ step ∈ b.executed env, step.succeeds env = false)

/-- Loaders with which only the creation of the per-frame constant buffer fails. -/
def noFrameBufferLoaders : Loaders :=
  { goodLoaders with
    CreateConstantBuffer := fun buffer => decide (buffer ≠ .gPerFrameConstantBuffer) }

/-- Loaders with which only the loading of the file "tv.dds" fails. -/
def noTvLoaders : Loaders :=
  { goodLoaders with
    LoadTexture := fun file =>
      if file = "tv.dds" then ⟨false, none, none⟩
      else ⟨true, some (.ofFile file), some (.ofFile file)⟩ }

/-- The objects that `ReleaseResources` releases after the given steps of `InitGeometry` have
run: a global is non-null exactly when a step has created its object. -/
def releasedAfter (executed : List Step) : List GpuObject :=
  ReleaseResources (fun object => decide (object ∈ createdBy executed))

/-- The objects created by the steps run that `ReleaseResources` does not release. -/
def unreleasedAfter (executed : List Step) : List GpuObject :=
  (createdBy executed).filter (fun object => decide (object ∉ releasedAfter executed))

/-! ## Closed form of the command lists -/

/-- Every access to a light, a light's proxy or a cube in `RenderScene` and `UpdateScene`
succeeds: the lights 0 to 9 exist and have a proxy, the cubes 0 to 6 exist. -/
def Scene.populated {F : Type} (s : Scene F) : Bool :=
  (List.range NUM_LIGHTS).all (fun i =>
      match elemAt s.gLights i with
      | .ok l => l.mModel.isSome
      | .error _ => false)
    && (List.range NUM_CUBES).all (fun i =>
      match elemAt s.gCube i with
      | .ok (some _) => true
      | _ => false)

/-- Every array access and pointer dereference of `RenderScene` succeeds: the scene is
populated and the textures vector has at least 18 entries. -/
def Scene.ready {F : Type} (s : Scene F) : Bool :=
  decide (18 ≤ s.textures.length) && s.populated

/-- The same scene with the accessed lights and cubes written out. -/
def Scene.populatedForm {F : Type} [Field F] (s : Scene F) : Scene F :=
  { s with
    gLights := (List.range NUM_LIGHTS).map (fun i =>
        { s.gLights.getD i Light.new with
          mModel := some ((s.gLights.getD i Light.new).mModel.getD (Model.new .gLightMesh)) })
      ++ s.gLights.drop NUM_LIGHTS,
    gCube := (List.range NUM_CUBES).map (fun i =>
        some ((s.gCube.getD i none).getD (Model.new .gCubeMesh)))
      ++ s.gCube.drop NUM_CUBES }

/-- The same scene with the accessed array entries written out. -/
def Scene.normalForm {F : Type} [Field F] (s : Scene F) : Scene F :=
  { s.populatedForm with
    textures := (List.range 18).map (fun i => s.textures.getD i (Texture.load ""))
      ++ s.textures.drop 18 }

/-- The view that `textures[i]->GetTextureSRV()` yields; null outside the vector. -/
def Scene.srvAt {F : Type} (s : Scene F) (i : Nat) : Option ShaderResourceView :=
  match elemAt s.textures i with
  | .ok t => t.GetTextureSRV
  | .error _ => none

/-- The colour `gLights[i].GetColor()`; black outside the array. -/
def Scene.lightColour {F : Type} [Field F] (s : Scene F) (i : Nat) : CVector3 F :=
  match elemAt s.gLights i with
  | .ok l => l.GetColor
  | .error _ => ⟨0, 0, 0⟩

/-- The draws of the ten light proxies, each tinted with its light's colour. -/
def lightDraws {F : Type} [Field F] (s : Scene F) : List (Cmd F) :=
  (List.range NUM_LIGHTS).map (fun i => Cmd.Render (.lightModel i) ⟨s.lightColour i⟩)

/-- The per-frame constants after `RenderSceneFromCamera` has written the camera matrices. -/
def cameraConstants {F : Type} (h : Helpers F) (pf : PerFrameConstants F) (camera : Camera F) :
    PerFrameConstants F :=
  { pf with
    viewMatrix := h.ViewMatrix camera,
    projectionMatrix := h.ProjectionMatrix camera,
    viewProjectionMatrix := h.ViewProjectionMatrix camera }

/-- The per-frame constants after `RenderDepthBufferFromLight` has written the matrices of a
light whose view matrix is `view`. -/
def shadowConstants {F : Type} [Field F] (h : Helpers F) (pf : PerFrameConstants F)
    (view : CMatrix4x4 F) (lightIndex : Nat) : PerFrameConstants F :=
  { pf with
    viewMatrix := view,
    projectionMatrix := CalculateLightProjectionMatrix h lightIndex,
    viewProjectionMatrix := view * CalculateLightProjectionMatrix h lightIndex }

/-- The commands of one `RenderSceneFromCamera`, given the per-frame constants it uploads and
the per-model constants at its start. -/
def colourPassCmds {F : Type} [Field F] (s : Scene F) (pf : PerFrameConstants F)
    (pm : PerModelConstants F) : List (Cmd F) :=
  cmdsStart pf ++ cmdsGround pm (s.srvAt 9) (s.srvAt 10) ++ cmdsCharacter pm (s.srvAt 13)
    ++ cmdsCrate pm (s.srvAt 6) ++ cmdsTroll pm (s.srvAt 15) (s.srvAt 16)
    ++ cmdsSpecular pm (s.srvAt 0) (s.srvAt 0)
    ++ cmdsPortal pm (s.srvAt 8) (s.srvAt 7) (s.srvAt 12)
    ++ cmdsMapped pm (s.srvAt 14) (s.srvAt 1) (s.srvAt 2) (s.srvAt 3) (s.srvAt 4)
    ++ cmdsWiggle pm (s.srvAt 7) (s.srvAt 7) ++ cmdsDecal pm (s.srvAt 5)
    ++ cmdsGlass pm (s.srvAt 17) ++ cmdsLightStates (s.srvAt 11) ++ lightDraws s

/-- The commands of one `RenderScene` before the `Present`, given the per-frame constants `pf`
after the common settings and the view matrices of the lights 4, 5 and 7. -/
def frameBody {F : Type} [Field F] (h : Helpers F) (s : Scene F) (pf : PerFrameConstants F)
    (view4 view5 view7 : CMatrix4x4 F) : List (Cmd F) :=
  cmdsPortalTarget
    ++ colourPassCmds s (cameraConstants h pf s.gPortalCamera) s.gPerModelConstants
    ++ cmdsPortalViewport
    ++ colourPassCmds s (cameraConstants h pf s.gPortalCamera) ⟨s.lightColour 9⟩
    ++ cmdsSecondPortalTarget
    ++ colourPassCmds s (cameraConstants h pf s.gPortalCamera) ⟨s.lightColour 9⟩
    ++ cmdsShadowViewport
    ++ cmdsShadowTarget .gShadowMap1DepthStencil
    ++ cmdsDepthOnly (shadowConstants h pf view4 4) ⟨s.lightColour 9⟩
    ++ cmdsShadowTarget .gShadowMap2DepthStencil
    ++ cmdsDepthOnly (shadowConstants h pf view5 5) ⟨s.lightColour 9⟩
    ++ cmdsShadowTarget .gShadowMap3DepthStencil
    ++ cmdsDepthOnly (shadowConstants h pf view7 7) ⟨s.lightColour 9⟩
    ++ cmdsMainTarget s.gViewportWidth s.gViewportHeight
    ++ colourPassCmds s (cameraConstants h pf s.gCamera) ⟨s.lightColour 9⟩
    ++ cmdsUnbind

/-- The commands of one `RenderScene`. -/
def frameCmds {F : Type} [Field F] (h : Helpers F) (s : Scene F) (pf : PerFrameConstants F)
    (view4 view5 view7 : CMatrix4x4 F) : List (Cmd F) :=
  frameBody h s pf view4 view5 view7 ++ cmdsPresent s.lockFPS

/-- The models created by `InitScene`: the named models, the seven cubes and the proxies of
the ten lights. -/
def sceneModels : List ModelId :=
  [.gDecal, .gCrate, .gSphere, .gGround, .gCubeMulti, .gBike, .gPortal, .gSecondPortal,
   .gTeapot, .gCharacter, .gTroll]
    ++ (List.range NUM_CUBES).map .gCube ++ (List.range NUM_LIGHTS).map .lightModel

/-- The pipeline states bound at a draw: blend state, depth-stencil state, rasterizer
state. -/
def Draw.states {F : Type} (r : Draw F) :
    Option BlendState × Option DepthStencilState × Option RasterizerState :=
  (r.device.blendState, r.device.depthStencilState, r.device.rasterizerState)

/-- The draws of one `RenderSceneFromCamera` in order, each with the states bound at the
draw. -/
def colourPassStates :
    List (ModelId × Option BlendState × Option DepthStencilState × Option RasterizerState) :=
  [ (.gGround, some .gNoBlendingState, some .gUseDepthBufferState, some .gCullBackState),
    (.gCharacter, some .gNoBlendingState, some .gUseDepthBufferState, some .gCullBackState),
    (.gCrate, some .gNoBlendingState, some .gUseDepthBufferState, some .gCullBackState),
    (.gTroll, some .gNoBlendingState, some .gUseDepthBufferState, some .gCullFrontState),
    (.gTroll, some .gNoBlendingState, some .gUseDepthBufferState, some .gCullBackState),
    (.gCube 0, some .gNoBlendingState, some .gUseDepthBufferState, some .gCullBackState),
    (.gTeapot, some .gNoBlendingState, some .gUseDepthBufferState, some .gCullBackState),
    (.gCubeMulti, some .gNoBlendingState, some .gUseDepthBufferState, some .gCullBackState),
    (.gCube 1, some .gNoBlendingState, some .gUseDepthBufferState, some .gCullBackState),
    (.gPortal, some .gNoBlendingState, some .gUseDepthBufferState, some .gCullBackState),
    (.gBike, some .gNoBlendingState, some .gUseDepthBufferState, some .gCullBackState),
    (.gCube 2, some .gNoBlendingState, some .gUseDepthBufferState, some .gCullBackState),
    (.gCube 3, some .gNoBlendingState, some .gUseDepthBufferState, some .gCullBackState),
    (.gSphere, some .gNoBlendingState, some .gUseDepthBufferState, some .gCullBackState),
    (.gCube 5, some .gNoBlendingState, some .gUseDepthBufferState, some .gCullBackState),
    (.gSecondPortal, some .gNoBlendingState, some .gUseDepthBufferState, some .gCullBackState),
    (.gDecal, some .gAdditiveBlendingState, some .gDepthReadOnlyState, some .gCullNoneState),
    (.gCube 6, some .gAdditiveBlendingState, some .gDepthReadOnlyState, some .gCullNoneState),
    (.gCube 4, some .gMultiplicativeBlendState, some .gDepthReadOnlyState,
      some .gCullNoneState) ]
    ++ (List.range NUM_LIGHTS).map (fun i =>
      (.lightModel i, some .gAdditiveBlendingState, some .gDepthReadOnlyState,
        some .gCullNoneState))

/-- What is recorded of one draw: the model, the pipeline states, the write targets and the
viewport bound at the draw, the per-frame constants last uploaded, and the values the bound
targets were cleared to. -/
structure DrawInfo (F : Type) where
  model : ModelId
  states : Option BlendState × Option DepthStencilState × Option RasterizerState
  renderTarget : Option RenderTargetView
  depthStencil : Option DepthStencilView
  viewport : Option (Viewport F)
  perFrame : Option (PerFrameConstants F)
  depthClear : Option F
  colourClear : Option (ColourRGBA F)

/-- The record of a draw. -/
def Draw.info {F : Type} (r : Draw F) : DrawInfo F :=
  { model := r.model, states := r.states, renderTarget := r.device.renderTarget,
    depthStencil := r.device.depthStencil, viewport := r.device.viewport,
    perFrame := r.device.perFrameBuffer, depthClear := r.device.depthClear,
    colourClear := r.device.colourClear }

/-- The draws of one `RenderDepthBufferFromLight` in order, each with the states bound at the
draw. -/
def depthOnlyStates :
    List (ModelId × Option BlendState × Option DepthStencilState × Option RasterizerState) :=
  [ (.gGround, some .gNoBlendingState, some .gUseDepthBufferState, some .gCullBackState),
    (.gCharacter, some .gNoBlendingState, some .gUseDepthBufferState, some .gCullBackState),
    (.gCrate, some .gNoBlendingState, some .gUseDepthBufferState, some .gCullBackState) ]

/-- The records of the draws of one pass, all issued with the same targets, viewport,
per-frame constants and clear values. -/
def passInfo {F : Type} [Field F]
    (rows : List (ModelId × Option BlendState × Option DepthStencilState
      × Option RasterizerState))
    (renderTarget : Option RenderTargetView) (depthStencil : Option DepthStencilView)
    (viewport : Option (Viewport F)) (perFrame : PerFrameConstants F)
    (colourClear : Option (ColourRGBA F)) : List (DrawInfo F) :=
  rows.map (fun row =>
    { model := row.1, states := row.2, renderTarget := renderTarget,
      depthStencil := depthStencil, viewport := viewport, perFrame := some perFrame,
      depthClear := some 1.0, colourClear := colourClear })

/-- The records of the draws of one `RenderScene` before its main pass, issued from the
device state `d`, pass by pass: the first portal (two calls of `RenderSceneFromCamera`), the
second portal, the three shadow maps. -/
def earlierInfo {F : Type} [Field F] (h : Helpers F) (s : Scene F) (pf : PerFrameConstants F)
    (view4 view5 view7 : CMatrix4x4 F) (d : DeviceState F) : List (DrawInfo F) :=
  passInfo colourPassStates (some .gPortalRenderTarget) (some .gPortalDepthStencilView)
      d.viewport (cameraConstants h pf s.gPortalCamera) (some gBackgroundColor)
    ++ passInfo colourPassStates (some .gPortalRenderTarget) (some .gPortalDepthStencilView)
      (some (viewportOfSize gPortalWidth gPortalHeight))
      (cameraConstants h pf s.gPortalCamera) (some gBackgroundColor)
    ++ passInfo colourPassStates (some .gSecondPortalRenderTarget)
      (some .gPortalDepthStencilView) (some (viewportOfSize gPortalWidth gPortalHeight))
      (cameraConstants h pf s.gPortalCamera) (some gBackgroundColor)
    ++ passInfo depthOnlyStates none (some .gShadowMap1DepthStencil)
      (some (viewportOfSize gShadowMapSize gShadowMapSize)) (shadowConstants h pf view4 4) none
    ++ passInfo depthOnlyStates none (some .gShadowMap2DepthStencil)
      (some (viewportOfSize gShadowMapSize gShadowMapSize)) (shadowConstants h pf view5 5) none
    ++ passInfo depthOnlyStates none (some .gShadowMap3DepthStencil)
      (some (viewportOfSize gShadowMapSize gShadowMapSize)) (shadowConstants h pf view7 7) none

/-- The records of the draws of the main pass of one `RenderScene`. -/
def mainInfo {F : Type} [Field F] (h : Helpers F) (s : Scene F) (pf : PerFrameConstants F) :
    List (DrawInfo F) :=
  passInfo colourPassStates (some .gBackBufferRenderTarget) (some .gDepthStencil)
    (some (viewportOfSize s.gViewportWidth s.gViewportHeight))
    (cameraConstants h pf s.gCamera) (some gBackgroundColor)

/-- The records of the draws of one `RenderScene` issued from the device state `d`. -/
def frameInfo {F : Type} [Field F] (h : Helpers F) (s : Scene F) (pf : PerFrameConstants F)
    (view4 view5 view7 : CMatrix4x4 F) (d : DeviceState F) : List (DrawInfo F) :=
  earlierInfo h s pf view4 view5 view7 d ++ mainInfo h s pf

/-- The uploads of the per-frame constants of one `RenderScene` in order, each with the write
targets bound at the upload. -/
def frameUploads {F : Type} [Field F] (h : Helpers F) (s : Scene F) (pf : PerFrameConstants F)
    (view4 view5 view7 : CMatrix4x4 F) :
    List (Option RenderTargetView × Option DepthStencilView × PerFrameConstants F) :=
  [ (some .gPortalRenderTarget, some .gPortalDepthStencilView,
      cameraConstants h pf s.gPortalCamera),
    (some .gPortalRenderTarget, some .gPortalDepthStencilView,
      cameraConstants h pf s.gPortalCamera),
    (some .gSecondPortalRenderTarget, some .gPortalDepthStencilView,
      cameraConstants h pf s.gPortalCamera),
    (none, some .gShadowMap1DepthStencil, shadowConstants h pf view4 4),
    (none, some .gShadowMap2DepthStencil, shadowConstants h pf view5 5),
    (none, some .gShadowMap3DepthStencil, shadowConstants h pf view7 7),
    (some .gBackBufferRenderTarget, some .gDepthStencil, cameraConstants h pf s.gCamera) ]

/-- Whether a command is a `Present`. -/
def Cmd.isPresent {F : Type} : Cmd F → Bool
  | .Present _ => true
  | _ => false

/-- The arguments of an `OMSetRenderTargets`: the number of colour targets, the colour target
and the depth target. -/
def Cmd.targets {F : Type} :
    Cmd F → Option (Nat × Option RenderTargetView × Option DepthStencilView)
  | .OMSetRenderTargets numViews target depth => some (numViews, target, depth)
  | _ => none

/-- The slot and the view of a `PSSetShaderResources`. -/
def Cmd.textureBinding {F : Type} : Cmd F → Option (Nat × Option ShaderResourceView)
  | .PSSetShaderResources slot view => some (slot, view)
  | _ => none

/-- Whether the view bound to a pixel-shader slot is a view of the resource that is bound as
the colour target or as the depth target. -/
def DeviceState.slotHazard {F : Type} (d : DeviceState F) (slot : Nat) : Bool :=
  match d.psResources slot with
  | none => false
  | some view =>
      decide (d.renderTarget.map RenderTargetView.resource = some view.resource)
        || decide (d.depthStencil.map DepthStencilView.resource = some view.resource)

/-- The colour of light block `k` (1 to 10) of the per-frame constants. -/
def PerFrameConstants.lightColour {F : Type} (pf : PerFrameConstants F) :
    Nat → Option (CVector3 F)
  | 1 => some pf.light1Colour
  | 2 => some pf.light2Colour
  | 3 => some pf.light3Colour
  | 4 => some pf.light4Colour
  | 5 => some pf.light5Colour
  | 6 => some pf.light6Colour
  | 7 => some pf.light7Colour
  | 8 => some pf.light8Colour
  | 9 => some pf.light9Colour
  | 10 => some pf.light10Colour
  | _ => none

/-- The position of light block `k` (1 to 10) of the per-frame constants. -/
def PerFrameConstants.lightPosition {F : Type} (pf : PerFrameConstants F) :
    Nat → Option (CVector3 F)
  | 1 => some pf.light1Position
  | 2 => some pf.light2Position
  | 3 => some pf.light3Position
  | 4 => some pf.light4Position
  | 5 => some pf.light5Position
  | 6 => some pf.light6Position
  | 7 => some pf.light7Position
  | 8 => some pf.light8Position
  | 9 => some pf.light9Position
  | 10 => some pf.light10Position
  | _ => none

/-- The spotlight fields of a light block: facing, cosine of half the cone angle, view matrix
and projection matrix. -/
structure SpotFields (F : Type) where
  facing : CVector3 F
  cosHalfAngle : F
  viewMatrix : CMatrix4x4 F
  projectionMatrix : CMatrix4x4 F

/-- The spotlight fields of light block `k`; the struct has them for the blocks 5, 6 and 8
only. -/
def PerFrameConstants.spot {F : Type} (pf : PerFrameConstants F) : Nat → Option (SpotFields F)
  | 5 => some ⟨pf.light5Facing, pf.light5CosHalfAngle, pf.light5ViewMatrix,
      pf.light5ProjectionMatrix⟩
  | 6 => some ⟨pf.light6Facing, pf.light6CosHalfAngle, pf.light6ViewMatrix,
      pf.light6ProjectionMatrix⟩
  | 8 => some ⟨pf.light8Facing, pf.light8CosHalfAngle, pf.light8ViewMatrix,
      pf.light8ProjectionMatrix⟩
  | _ => none

/-- A scene with one light whose proxy is a new model. -/
def lampScene : Scene ℚ :=
  { sampleSceneValue with
    gLights := [(Light.new : Light ℚ).SetModel (some (Model.new .gLightMesh))] }

/-! ## Vertex layout signature and constant buffer size (`Shader.cpp`) -/

/-- The formats of `DXGI_FORMAT`: the four that `CreateSignatureForVertexLayout` knows, and
`other` for every other format. -/
inductive DxgiFormat
  | R32G32B32A32_FLOAT | R32G32B32_FLOAT | R32G32_FLOAT | R32_FLOAT
  | other (code : Nat)
  deriving DecidableEq, Repr

/-- The fields of `D3D11_INPUT_ELEMENT_DESC` that `CreateSignatureForVertexLayout` reads. -/
structure InputElementDesc where
  SemanticName : String
  SemanticIndex : Nat
  Format : DxgiFormat
  deriving DecidableEq, Repr

/-- The HLSL type appended for a format; none for a format outside the list, for which the
function returns `nullptr`. -/
def formatType : DxgiFormat → Option String
  | .R32G32B32A32_FLOAT => some "float4"
  | .R32G32B32_FLOAT => some "float3"
  | .R32G32_FLOAT => some "float2"
  | .R32_FLOAT => some "float"
  | .other _ => none

/-- The statements `uint8_t index = static_cast<uint8_t>(SemanticIndex); semanticName +=
('0' + index);`: the index is cut to 8 bits and one character, of code `'0' + index` cut to a
byte, is appended to the semantic name. -/
def indexedName (e : InputElementDesc) : String :=
  e.SemanticName.push (Char.ofNat ((48 + e.SemanticIndex % 256) % 256))

/-- The loop of `CreateSignatureForVertexLayout` with `remaining` turns to go, at element
`elt`: it reads `vertexLayout[elt]`, returns none (the `return nullptr`) at a format it does
not know, and otherwise appends the parameter of the element and, unless the element is the
last one, the separator. -/
def signatureLoop (vertexLayout : List InputElementDesc) (numElements : Nat) :
    Nat → Nat → String → Except Fault (Option String)
  | 0, _, shaderSource => .ok (some shaderSource)
  | remaining + 1, elt, shaderSource =>
      match elemAt vertexLayout elt with
      | .error fault => .error fault
      | .ok e =>
          match formatType e.Format with
          | none => .ok none
          | some type =>
              let semanticName := indexedName e
              let shaderSource := shaderSource ++ type ++ " " ++ semanticName ++ " : "
                ++ semanticName
              let shaderSource :=
                if (elt : Int) ≠ (numElements : Int) - 1 then shaderSource ++ " , "
                else shaderSource
              signatureLoop vertexLayout numElements remaining (elt + 1) shaderSource

/-- The function `CreateSignatureForVertexLayout`, given what `D3DCompile` returns for a
source (none when it fails): the result, none standing for `nullptr`, and the sources handed
to `D3DCompile`. -/
def CreateSignatureForVertexLayout {Blob : Type} (D3DCompile : String → Option Blob)
    (vertexLayout : List InputElementDesc) (numElements : Nat) :
    Except Fault (Option Blob × List String) :=
  match signatureLoop vertexLayout numElements numElements 0 "float4 main(" with
  | .error fault => .error fault
  | .ok none => .ok (none, [])
  | .ok (some shaderSource) =>
      let shaderSource := shaderSource ++ ") : SV_Position {return 0;}"
      .ok (D3DCompile shaderSource, [shaderSource])

/-- The parameter that the specification gives for a layout element: the type of its format,
and twice the semantic name followed by the decimal representation of the semantic index. -/
def specParameter (type : String) (e : InputElementDesc) : String :=
  type ++ " " ++ (e.SemanticName ++ toString e.SemanticIndex) ++ " : "
    ++ (e.SemanticName ++ toString e.SemanticIndex)

/-- The parameters that the specification gives for the elements of a layout; none when a
format is not supported. -/
def specParameters : List InputElementDesc → Option (List String)
  | [] => some []
  | e :: rest =>
      match formatType e.Format, specParameters rest with
      | some type, some parameters => some (specParameter type e :: parameters)
      | _, _ => none

/-- The parameters that the loop appends for the elements of a layout: as `specParameters`,
with the name that the code builds. -/
def codeParameters : List InputElementDesc → Option (List String)
  | [] => some []
  | e :: rest =>
      match formatType e.Format, codeParameters rest with
      | some type, some parameters =>
          some ((type ++ " " ++ indexedName e ++ " : " ++ indexedName e) :: parameters)
      | _, _ => none

/-- The parameters "joined by ` , `". -/
def joinParameters : List String → String
  | [] => ""
  | [parameter] => parameter
  | parameter :: rest => parameter ++ " , " ++ joinParameters rest

/-- A value of type `int` after an operation: 32 bits, two's complement. -/
def wrapInt (x : Int) : Int := (x + 2147483648) % 4294967296 - 2147483648

/-- The value `cbDesc.ByteWidth = 16 * ((size + 15) / 16)` of `CreateConstantBuffer`: `int`
arithmetic with the division truncating, stored in a `UINT`. -/
def ByteWidth (size : Int) : Int :=
  wrapInt (16 * wrapInt (Int.tdiv (wrapInt (size + 15)) 16)) % 4294967296

/-- A layout of three elements with supported formats. -/
def sampleLayout : List InputElementDesc :=
  [ ⟨"POSITION", 0, .R32G32B32_FLOAT⟩, ⟨"NORMAL", 0, .R32G32B32_FLOAT⟩,
    ⟨"TEXCOORD", 1, .R32G32_FLOAT⟩ ]

/-- A layout whose second element has a format that `CreateSignatureForVertexLayout` does not
know (`DXGI_FORMAT_R8G8B8A8_UNORM`, 28). -/
def unsupportedLayout : List InputElementDesc :=
  [ ⟨"POSITION", 0, .R32G32B32_FLOAT⟩, ⟨"COLOR", 0, .other 28⟩ ]

/-- A layout whose element has the semantic index 10. -/
def indexTenLayout : List InputElementDesc :=
  [ ⟨"TEXCOORD", 10, .R32G32_FLOAT⟩ ]

/-- A device context as a frame of the sample scene leaves it as far as the viewport goes:
the viewport of the main window, 1280 by 960, is bound. -/
def afterFrame : DeviceState ℚ :=
  { (DeviceState.fresh : DeviceState ℚ) with viewport := some (viewportOfSize 1280 960) }

/-- The writes of a command list, in order: for every draw the textures of the colour target
and of the depth buffer bound at its issue, marked `true`, and for every clear the texture of
the view it is given, whether that view is bound or not, marked `false`. -/
def writeLog {F : Type} : DeviceState F → List (Cmd F) → List (Bool × List Resource)
  | _, [] => []
  | d, .Render model perModel :: rest =>
      (true, (d.renderTarget.map RenderTargetView.resource).toList
          ++ (d.depthStencil.map DepthStencilView.resource).toList)
        :: writeLog (d.step (.Render model perModel)) rest
  | d, .ClearRenderTargetView target colour :: rest =>
      (false, [target.resource]) :: writeLog (d.step (.ClearRenderTargetView target colour)) rest
  | d, .ClearDepthStencilView depth value :: rest =>
      (false, [depth.resource]) :: writeLog (d.step (.ClearDepthStencilView depth value)) rest
  | d, c :: rest => writeLog (d.step c) rest

/-- The writes of one `RenderScene` before its main pass. -/
def earlierWrites : List (Bool × List Resource) :=
  [(false, [.gPortalTexture]), (false, [.gPortalDepthStencil])]
    ++ List.replicate 58 (true, [.gPortalTexture, .gPortalDepthStencil])
    ++ [(false, [.gSecondPortalTexture]), (false, [.gPortalDepthStencil])]
    ++ List.replicate 29 (true, [.gSecondPortalTexture, .gPortalDepthStencil])
    ++ [(false, [.gShadowMap1Texture])] ++ List.replicate 3 (true, [.gShadowMap1Texture])
    ++ [(false, [.gShadowMap2Texture])] ++ List.replicate 3 (true, [.gShadowMap2Texture])
    ++ [(false, [.gShadowMap3Texture])] ++ List.replicate 3 (true, [.gShadowMap3Texture])

/-- The writes of the main pass of one `RenderScene`. -/
def mainWrites : List (Bool × List Resource) :=
  [(false, [.backBuffer]), (false, [.mainDepthBuffer])]
    ++ List.replicate 29 (true, [.backBuffer, .mainDepthBuffer])

/-! # Theorems -/


/-- The structural lookup `elemAt` agrees with list indexing. -/
theorem elemAt_eq_getElem? {α : Type} (xs : List α) (i : Nat) :
    elemAt xs i = (match xs[i]? with
      | some x => Except.ok x
      | none => Except.error Fault.outOfRange) := by
  induction xs generalizing i with
  | nil => simp [elemAt]
  | cons x xs ih =>
    cases i with
    | zero => simp [elemAt]
    | succ i => simpa [elemAt] using ih i

/-- Writing out the first `n` entries of a list that has them gives the list back. -/
theorem range_map_getD_append_drop {α : Type} (f : α → α) (d : α) (l : List α) :
    ∀ n, n ≤ l.length → (∀ i, i < n → f (l.getD i d) = l.getD i d) →
      (List.range n).map (fun i => f (l.getD i d)) ++ l.drop n = l := by
  intro n
  induction n with
  | zero => intro _ _; simp
  | succ k ih =>
    intro hk hf
    have hlt : k < l.length := hk
    rw [List.range_succ, List.map_append, List.append_assoc]
    have h1 : [k].map (fun i => f (l.getD i d)) ++ l.drop (k + 1) = l.drop k := by
      simp only [List.map_cons, List.map_nil, List.singleton_append]
      rw [hf k (Nat.lt_succ_self k)]
      rw [List.getD_eq_getElem l d hlt]
      exact (List.drop_eq_getElem_cons hlt).symm
    rw [h1]
    exact ih (Nat.le_of_lt hlt) (fun i hi => hf i (Nat.lt_succ_of_lt hi))

/-- A populated scene is its own populated form. -/
theorem populatedForm_eq {F : Type} [Field F] (s : Scene F) (hr : s.populated = true) :
    s.populatedForm = s := by
  simp only [Scene.populated, Bool.and_eq_true, List.all_eq_true, List.mem_range,
    elemAt_eq_getElem?] at hr
  obtain ⟨hl, hc⟩ := hr
  have hl9 : NUM_LIGHTS ≤ s.gLights.length := by
    have h9 := hl 9 (by decide)
    by_contra hlen
    have hnone : s.gLights[9]? = none := List.getElem?_eq_none (by
      simp only [NUM_LIGHTS] at hlen; omega)
    simp [hnone] at h9
  have e2 : (List.range NUM_LIGHTS).map (fun i =>
        ({ s.gLights.getD i Light.new with
          mModel := some ((s.gLights.getD i Light.new).mModel.getD (Model.new .gLightMesh)) } :
          Light F))
      ++ s.gLights.drop NUM_LIGHTS = s.gLights := by
    refine range_map_getD_append_drop
      (fun l => { l with mModel := some (l.mModel.getD (Model.new .gLightMesh)) })
      Light.new s.gLights NUM_LIGHTS hl9 ?_
    intro i hi
    have hi2 := hl i hi
    have hlt : i < s.gLights.length := Nat.lt_of_lt_of_le hi hl9
    rw [List.getElem?_eq_getElem hlt] at hi2
    rw [List.getD_eq_getElem _ _ hlt]
    generalize s.gLights[i] = l at hi2
    obtain ⟨p, c, k, m⟩ := l
    cases m with
    | none => simp at hi2
    | some m => rfl
  have hc6 : NUM_CUBES ≤ s.gCube.length := by
    have h6 := hc 6 (by decide)
    by_contra hlen
    have hnone : s.gCube[6]? = none := List.getElem?_eq_none (by
      simp only [NUM_CUBES] at hlen; omega)
    simp [hnone] at h6
  have e3 : (List.range NUM_CUBES).map (fun i =>
        some ((s.gCube.getD i none).getD (Model.new .gCubeMesh)))
      ++ s.gCube.drop NUM_CUBES = s.gCube := by
    refine range_map_getD_append_drop
      (fun c => some (c.getD (Model.new .gCubeMesh))) none s.gCube NUM_CUBES hc6 ?_
    intro i hi
    have hi2 := hc i hi
    have hlt : i < s.gCube.length := Nat.lt_of_lt_of_le hi hc6
    rw [List.getElem?_eq_getElem hlt] at hi2
    rw [List.getD_eq_getElem _ _ hlt]
    generalize s.gCube[i] = c at hi2
    cases c with
    | none => simp at hi2
    | some m => rfl
  unfold Scene.populatedForm
  rw [e2, e3]

/-- A ready scene is its own normal form. -/
theorem normalForm_eq {F : Type} [Field F] (s : Scene F) (hr : s.ready = true) :
    s.normalForm = s := by
  simp only [Scene.ready, Bool.and_eq_true, decide_eq_true_eq] at hr
  obtain ⟨ht, hp⟩ := hr
  have e1 : (List.range 18).map (fun i => s.textures.getD i (Texture.load ""))
      ++ s.textures.drop 18 = s.textures :=
    range_map_getD_append_drop id _ _ 18 ht (fun _ _ => rfl)
  unfold Scene.normalForm
  rw [e1, populatedForm_eq s hp]

/-- The loop over the lights succeeds on a ready scene, draws every proxy once and leaves the
tint of the last light in the per-model constants. -/
theorem renderLights_ok {F : Type} [Field F] (s : Scene F) (hr : s.ready = true) :
    renderLights s
      = .ok ({ s with gPerModelConstants := ⟨s.lightColour 9⟩ }, lightDraws s) := by
  rw [← normalForm_eq s hr]
  rfl

/-- On a ready scene `RenderSceneFromCamera` succeeds and issues the commands of
`colourPassCmds`. -/
theorem RenderSceneFromCamera_ok {F : Type} [Field F] (h : Helpers F) (s : Scene F)
    (camera : Camera F) (hr : s.ready = true) :
    RenderSceneFromCamera h s camera
      = .ok ({ s with gPerFrameConstants := cameraConstants h s.gPerFrameConstants camera,
                      gPerModelConstants := ⟨s.lightColour 9⟩ },
             colourPassCmds s (cameraConstants h s.gPerFrameConstants camera)
               s.gPerModelConstants) := by
  rw [← normalForm_eq s hr]
  rfl


/-- On a ready scene the view matrix of each of the lights 0 to 9 is computed. -/
theorem CalculateLightViewMatrix_ok {F : Type} [Field F] (h : Helpers F) (s : Scene F)
    (hr : s.ready = true) (i : Nat) (hi : i < NUM_LIGHTS) :
    ∃ view, CalculateLightViewMatrix h s i = .ok view := by
  rw [← normalForm_eq s hr]
  have h10 : i = 0 ∨ i = 1 ∨ i = 2 ∨ i = 3 ∨ i = 4 ∨ i = 5 ∨ i = 6 ∨ i = 7 ∨ i = 8 ∨ i = 9 := by
    simp only [NUM_LIGHTS] at hi
    omega
  rcases h10 with h | h | h | h | h | h | h | h | h | h <;> subst h <;> exact ⟨_, rfl⟩

/-- On a ready scene the common settings of `RenderScene` are computed. -/
theorem setLightConstants_ok {F : Type} [Field F] (h : Helpers F) (s : Scene F)
    (hr : s.ready = true) : ∃ pf, setLightConstants h s = .ok pf := by
  rw [← normalForm_eq s hr]
  exact ⟨_, rfl⟩

/-- `RenderDepthBufferFromLight` issues the depth-only commands with the constants of the
light. -/
theorem RenderDepthBufferFromLight_ok {F : Type} [Field F] (h : Helpers F) (s : Scene F)
    (i : Nat) (view : CMatrix4x4 F) (hv : CalculateLightViewMatrix h s i = .ok view) :
    RenderDepthBufferFromLight h s i
      = .ok ({ s with gPerFrameConstants := shadowConstants h s.gPerFrameConstants view i },
             cmdsDepthOnly (shadowConstants h s.gPerFrameConstants view i)
               s.gPerModelConstants) := by
  unfold RenderDepthBufferFromLight
  rw [hv]
  rfl

/-- On a ready scene `RenderScene` succeeds and issues the commands of `frameCmds`. -/
theorem RenderScene_ok {F : Type} [Field F] (h : Helpers F) (s : Scene F)
    (hr : s.ready = true) :
    ∃ pf view4 view5 view7 t,
      setLightConstants h s = .ok pf ∧
      CalculateLightViewMatrix h s 4 = .ok view4 ∧
      CalculateLightViewMatrix h s 5 = .ok view5 ∧
      CalculateLightViewMatrix h s 7 = .ok view7 ∧
      RenderScene h s = .ok (t, frameCmds h s pf view4 view5 view7) := by
  rw [← normalForm_eq s hr]
  exact ⟨_, _, _, _, _, rfl, rfl, rfl, rfl, rfl⟩

/-- The indices of the lights, written out. -/
theorem range_NUM_LIGHTS : List.range NUM_LIGHTS = [0, 1, 2, 3, 4, 5, 6, 7, 8, 9] := by decide

/-- The indices of the cubes, written out. -/
theorem range_NUM_CUBES : List.range NUM_CUBES = [0, 1, 2, 3, 4, 5, 6] := by decide

/-- The array of lights before `InitScene`, written out. -/
theorem replicate_NUM_LIGHTS {α : Type} (a : α) :
    List.replicate NUM_LIGHTS a = [a, a, a, a, a, a, a, a, a, a] := rfl

/-- The scene prepared by `InitScene`: it always succeeds, every light has a proxy and every
cube exists, and the lights have the strengths set in the source. -/
theorem InitScene_ok {F : Type} [Field F] (h : Helpers F) (textures : List Texture)
    (width height : Int) (pf : PerFrameConstants F) (pm : PerModelConstants F) :
    ∃ s, InitScene h textures width height pf pm = .ok s ∧ s.populated = true
      ∧ s.textures = textures ∧ s.totalTime = 0 ∧ s.rotate = 0
      ∧ s.gPerFrameConstants = pf
      ∧ s.gLights.map Light.GetStrength = [10, 40, 10, 10, 10, 40, 10, 40, 10, 10]
      ∧ s.gCamera.Position = ⟨40, 50, -300⟩ ∧ s.gPortalCamera.Position = ⟨45, 45, 85⟩ := by
  simp only [InitScene, range_NUM_LIGHTS, range_NUM_CUBES, replicate_NUM_LIGHTS, List.foldlM,
    List.foldl, setupLight, onLight, onLightModel, onCube, elemAt, deref, bind, Except.bind,
    pure, Except.pure, List.set, Light.SetModel, Light.GetModel, Light.new, Option.map,
    Light.SetColor, Light.SetStrength]
  exact ⟨_, rfl, rfl, rfl, by norm_num, by norm_num, rfl, rfl, rfl, rfl⟩

/-- One `UpdateScene` on a populated scene: it succeeds, and the time, the light strengths and
colours, the effect parameters and the controlled models are as computed in the source. -/
theorem UpdateScene_ok {F : Type} [LinearOrderedField F] (h : Helpers F) (input : Input)
    (s : Scene F) (frameTime : F) (hs : s.populated = true) :
    ∃ t cmds, UpdateScene h input s frameTime = .ok (t, cmds) ∧ t.populated = true
      ∧ t.textures = s.textures ∧ t.totalTime = s.totalTime + frameTime
      ∧ t.rotate = s.rotate - gLightOrbitSpeed * frameTime
      ∧ t.gLights.map Light.GetStrength
          = ((s.gLights.map Light.GetStrength).set 0
              (5.0 + h.sin ((s.totalTime + frameTime) * 2.0) * 5.0)).set 7
              (20.0 + h.sin ((s.totalTime + frameTime) * 2.0) * 20.0)
      ∧ t.gLights.map Light.GetColor
          = ((s.gLights.map Light.GetColor).set 1
              ⟨(h.sin (s.totalTime + frameTime) + 1.0) / 2.0, 0.2,
                1.0 - (h.sin (s.totalTime + frameTime) + 1.0) / 2.0⟩).set 7
              ⟨(h.sin (s.totalTime + frameTime) + 1.0) / 2.0, 0.2,
                1.0 - (h.sin (s.totalTime + frameTime) + 1.0) / 2.0⟩
      ∧ t.gLights.map Light.GetPosition = s.gLights.map Light.GetPosition
      ∧ t.gPerFrameConstants.wiggle = s.gPerFrameConstants.wiggle + 3.0 * frameTime
      ∧ t.gPerFrameConstants.transitionFactor
          = (h.sin (s.gPerFrameConstants.wiggle + 3.0 * frameTime) + 1.0) * 0.5
      ∧ t.gPerFrameConstants.colorVariation
          = ![0.5 + (h.sin ((s.totalTime + frameTime) * 1.2) + 1.0) * 0.5,
              0.5 + (h.cos ((s.totalTime + frameTime) * 1.5) + 1.0) * 0.5,
              0.5 + (h.sin ((s.totalTime + frameTime) * 0.7) + 1.0) * 0.5]
      ∧ cmds = [Cmd.UpdateConstantBuffer t.gPerFrameConstants] := by
  rw [← populatedForm_eq s hs]
  simp only [UpdateScene, Scene.populatedForm, range_NUM_LIGHTS, range_NUM_CUBES, List.map,
    List.cons_append, List.nil_append, onLight, onLightModel, onCube, elemAt, deref, bind,
    Except.bind, pure, Except.pure, List.set, Light.GetModel, Light.SetColor, Light.SetStrength]
  exact ⟨_, _, rfl, rfl, rfl, rfl, rfl, rfl, rfl, rfl, rfl, rfl, rfl, rfl⟩

/-- One `UpdateScene` on a populated scene, the models and cameras: each controlled model is
the result of its `Control`, the second portal is then turned by the total time, the ground,
the character and the portal camera are left alone, and the scale of the proxies of the
lights 0 and 7 follows their strength. -/
theorem UpdateScene_models {F : Type} [LinearOrderedField F] (h : Helpers F) (input : Input)
    (s : Scene F) (frameTime : F) (hs : s.populated = true) :
    ∃ t cmds, UpdateScene h input s frameTime = .ok (t, cmds)
      ∧ t.gCube = (s.gCube.take NUM_CUBES).map
            (Option.map (h.ModelControl frameTime keysIJKL input)) ++ s.gCube.drop NUM_CUBES
      ∧ t.gDecal = h.ModelControl frameTime keysIJKL input s.gDecal
      ∧ t.gCrate = h.ModelControl frameTime keysIJKL input s.gCrate
      ∧ t.gSphere = h.ModelControl frameTime keysIJKL input s.gSphere
      ∧ t.gGround = s.gGround
      ∧ t.gPortal = h.ModelControl frameTime keysIJKL input s.gPortal
      ∧ t.gSecondPortal = (h.ModelControl frameTime keysTGFH input s.gSecondPortal).SetRotation
          ⟨0.0, s.totalTime + frameTime, 0.0⟩
      ∧ t.gTeapot = h.ModelControl frameTime keysTGFH input s.gTeapot
      ∧ t.gCharacter = s.gCharacter
      ∧ t.gTroll = h.ModelControl frameTime keysTGFH input s.gTroll
      ∧ t.gCubeMulti = h.ModelControl frameTime keysTGFH input s.gCubeMulti
      ∧ t.gBike = h.BikeControl 2 frameTime [.Key_Period, .Key_Comma] input
          (h.BikeControl 1 frameTime [.Key_Period, .Key_Comma] input
            (h.BikeControl 0 frameTime keysIJKL input s.gBike))
      ∧ t.gCamera = h.CameraControl frameTime keysCamera input s.gCamera
      ∧ t.gPortalCamera = s.gPortalCamera
      ∧ t.gLights.map (fun l => l.mModel.map Model.mScale)
          = ((s.gLights.map (fun l => l.mModel.map Model.mScale)).set 0
              (some (h.pow (5.0 + h.sin ((s.totalTime + frameTime) * 2.0) * 5.0) 0.7))).set 7
              (some (h.pow (20.0 + h.sin ((s.totalTime + frameTime) * 2.0) * 20.0) 0.7))
      ∧ t.gPerFrameConstants =
          { s.gPerFrameConstants with
            wiggle := s.gPerFrameConstants.wiggle + 3.0 * frameTime,
            transitionFactor :=
              (h.sin (s.gPerFrameConstants.wiggle + 3.0 * frameTime) + 1.0) * 0.5,
            colorVariation :=
              ![0.5 + (h.sin ((s.totalTime + frameTime) * 1.2) + 1.0) * 0.5,
                0.5 + (h.cos ((s.totalTime + frameTime) * 1.5) + 1.0) * 0.5,
                0.5 + (h.sin ((s.totalTime + frameTime) * 0.7) + 1.0) * 0.5] } := by
  rw [← populatedForm_eq s hs]
  simp only [UpdateScene, Scene.populatedForm, range_NUM_LIGHTS, range_NUM_CUBES, List.map,
    List.cons_append, List.nil_append, onLight, onLightModel, onCube, elemAt, deref, bind,
    Except.bind, pure, Except.pure, List.set, Light.GetModel, Light.SetColor, Light.SetStrength]
  exact ⟨_, _, rfl, rfl, rfl, rfl, rfl, rfl, rfl, rfl, rfl, rfl, rfl, rfl, rfl, rfl, rfl, rfl,
    rfl⟩

/-- A successful call returns one scene only. -/
theorem ok_scene_unique {F : Type} {r : Except Fault (Scene F × List (Cmd F))}
    {s t : Scene F} {c d : List (Cmd F)} (h1 : r = .ok (s, c)) (h2 : r = .ok (t, d)) :
    s = t ∧ c = d := by
  rw [h1] at h2
  exact Prod.mk.inj (Except.ok.inj h2)

/-- Any sequence of `UpdateScene` calls on a populated scene succeeds, leaves the scene
populated and preserves every property that each single call preserves. -/
theorem runUpdates_invariant {F : Type} [LinearOrderedField F] (h : Helpers F)
    (P : Scene F → Prop)
    (hstep : ∀ input frameTime s t cmds, s.populated = true → P s →
      UpdateScene h input s frameTime = .ok (t, cmds) → P t) :
    ∀ (frames : List (Input × F)) (s0 : Scene F), s0.populated = true → P s0 →
      ∃ s, runUpdates h s0 frames = .ok s ∧ s.populated = true ∧ P s := by
  intro frames
  induction frames with
  | nil => intro s0 hp h0; exact ⟨s0, rfl, hp, h0⟩
  | cons frame rest ih =>
    intro s0 hp h0
    obtain ⟨t, cmds, ht, htp, -⟩ := UpdateScene_ok h frame.1 s0 frame.2 hp
    obtain ⟨s, hs, hsp, hP⟩ := ih t htp (hstep _ _ _ _ _ hp h0 ht)
    refine ⟨s, ?_, hsp, hP⟩
    unfold runUpdates at hs ⊢
    rw [List.foldlM_cons, ht]
    exact hs

/-- The total time after a sequence of `UpdateScene` calls is the total time before plus the
sum of the frame times. -/
theorem runUpdates_totalTime {F : Type} [LinearOrderedField F] (h : Helpers F)
    (frames : List (Input × F)) :
    ∀ (s0 : Scene F), s0.populated = true →
      ∃ s, runUpdates h s0 frames = .ok s ∧ s.populated = true
        ∧ s.totalTime = s0.totalTime + elapsed frames := by
  induction frames with
  | nil => intro s0 hp; exact ⟨s0, rfl, hp, by simp [elapsed]⟩
  | cons frame rest ih =>
    intro s0 hp
    obtain ⟨t, cmds, ht, htp, -, htime, -⟩ := UpdateScene_ok h frame.1 s0 frame.2 hp
    obtain ⟨s, hs, hsp, hT⟩ := ih t htp
    refine ⟨s, ?_, hsp, ?_⟩
    · unfold runUpdates at hs ⊢
      rw [List.foldlM_cons, ht]
      exact hs
    · rw [hT, htime]
      simp only [elapsed, List.map_cons, List.sum_cons]
      ring

/-- C11: for a light with a proxy, `SetPosition(p)` leaves the proxy's position and
`GetPosition()` equal to `p`; `SetModel(m)` with a non-null `m` leaves `m` at the light's
current `GetPosition()` (which it does not change); for a light without a proxy `SetPosition`
only updates the stored position. -/
theorem Light.position_propagates {F : Type} (l : Light F) (m : Model F) (p : CVector3 F) :
    ((({ l with mModel := some m } : Light F).SetPosition p).GetModel.map Model.Position
          = some p
        ∧ (({ l with mModel := some m } : Light F).SetPosition p).GetPosition = p)
      ∧ ((l.SetModel (some m)).GetModel.map Model.Position = some l.GetPosition
        ∧ (l.SetModel (some m)).GetPosition = l.GetPosition)
      ∧ ({ l with mModel := none } : Light F).SetPosition p
          = { l with mPosition := p, mModel := none } :=
  ⟨⟨rfl, rfl⟩, ⟨rfl, rfl⟩, rfl⟩

/-- After `InitScene` and any sequence of `UpdateScene` calls the ten strengths are those of
`InitScene`, except for the lights 0 and 7. -/
theorem strengths_shape {F : Type} [LinearOrderedField F] (h : Helpers F)
    (frames : List (Input × F)) (s0 : Scene F) (hp : s0.populated = true) (a0 b0 : F)
    (h0 : s0.gLights.map Light.GetStrength = [a0, 40, 10, 10, 10, 40, 10, b0, 10, 10]) :
    ∃ s, runUpdates h s0 frames = .ok s ∧ s.populated = true
      ∧ ∃ a b, s.gLights.map Light.GetStrength = [a, 40, 10, 10, 10, 40, 10, b, 10, 10] := by
  refine runUpdates_invariant h
    (fun s => ∃ a b, s.gLights.map Light.GetStrength = [a, 40, 10, 10, 10, 40, 10, b, 10, 10])
    ?_ frames s0 hp ⟨a0, b0, h0⟩
  intro input frameTime s t cmds hsp hP ht
  obtain ⟨a, b, hab⟩ := hP
  obtain ⟨t1, c1, h1, -, -, -, -, hstr, -⟩ := UpdateScene_ok h input s frameTime hsp
  have e : t1 = t := (ok_scene_unique h1 ht).1
  subst e
  exact ⟨5.0 + h.sin ((s.totalTime + frameTime) * 2.0) * 5.0,
    20.0 + h.sin ((s.totalTime + frameTime) * 2.0) * 20.0, by rw [hstr, hab]; rfl⟩

/-- C13: after `UpdateScene` the strength of light 0 is `5 + 5 * sin (2 * t)` for the
accumulated total time `t`, the sum of all frame times so far including the current one; a
first call with frame time 0, `π / 4` or `π / 2` gives the strength 5, 10 or 5 (exact real
arithmetic). -/
theorem light0_strength_oscillates (h : Helpers ℝ) (textures : List Texture)
    (width height : Int) (pf : PerFrameConstants ℝ) (pm : PerModelConstants ℝ)
    (frames : List (Input × ℝ)) (input : Input) (frameTime : ℝ) :
    ∃ s0 s t cmds,
      InitScene h.real textures width height pf pm = .ok s0
        ∧ runUpdates h.real s0 frames = .ok s
        ∧ UpdateScene h.real input s frameTime = .ok (t, cmds)
        ∧ t.totalTime = elapsed frames + frameTime
        ∧ (t.gLights.map Light.GetStrength)[0]? = some (5 + 5 * Real.sin (2 * t.totalTime))
        ∧ (∃ t0 c0, UpdateScene h.real input s0 0 = .ok (t0, c0) ∧ t0.totalTime = 0
            ∧ (t0.gLights.map Light.GetStrength)[0]? = some 5)
        ∧ (∃ t1 c1, UpdateScene h.real input s0 (Real.pi / 4) = .ok (t1, c1)
            ∧ t1.totalTime = Real.pi / 4
            ∧ (t1.gLights.map Light.GetStrength)[0]? = some 10)
        ∧ (∃ t2 c2, UpdateScene h.real input s0 (Real.pi / 2) = .ok (t2, c2)
            ∧ t2.totalTime = Real.pi / 2
            ∧ (t2.gLights.map Light.GetStrength)[0]? = some 5) := by
  obtain ⟨s0, hinit, hp0, -, hT0, -, -, hstr0, -⟩ :=
    InitScene_ok h.real textures width height pf pm
  obtain ⟨s, hrun, hsp, hT⟩ := runUpdates_totalTime h.real frames s0 hp0
  obtain ⟨s', hrun', -, a, b, hab⟩ := strengths_shape h.real frames s0 hp0 _ _ hstr0
  have e : s' = s := Except.ok.inj (hrun'.symm.trans hrun)
  subst e
  -- a single call from any populated state with strengths of this shape
  have key : ∀ (u : Scene ℝ) (x y : ℝ) (dt : ℝ), u.populated = true →
      u.gLights.map Light.GetStrength = [x, 40, 10, 10, 10, 40, 10, y, 10, 10] →
      ∃ t cmds, UpdateScene h.real input u dt = .ok (t, cmds)
        ∧ t.totalTime = u.totalTime + dt
        ∧ (t.gLights.map Light.GetStrength)[0]?
            = some (5 + 5 * Real.sin (2 * (u.totalTime + dt))) := by
    intro u x y dt hu hxy
    obtain ⟨t, cmds, ht, -, -, htime, -, hstr, -⟩ := UpdateScene_ok h.real input u dt hu
    refine ⟨t, cmds, ht, htime, ?_⟩
    rw [hstr, hxy]
    simp only [Helpers.real, List.set, List.getElem?_cons_zero, Option.some.injEq]
    norm_num
    ring_nf
  obtain ⟨t, cmds, ht, htime, hval⟩ := key s' a b frameTime hsp hab
  obtain ⟨t0, c0, ht0, htime0, hval0⟩ := key s0 _ _ 0 hp0 hstr0
  obtain ⟨t1, c1, ht1, htime1, hval1⟩ := key s0 _ _ (Real.pi / 4) hp0 hstr0
  obtain ⟨t2, c2, ht2, htime2, hval2⟩ := key s0 _ _ (Real.pi / 2) hp0 hstr0
  refine ⟨s0, s', t, cmds, hinit, hrun, ht, ?_, ?_, ⟨t0, c0, ht0, ?_, ?_⟩,
    ⟨t1, c1, ht1, ?_, ?_⟩, ⟨t2, c2, ht2, ?_, ?_⟩⟩
  · rw [htime, hT, hT0, zero_add]
  · rw [hval, htime]
  · rw [htime0, hT0, add_zero]
  · rw [hval0, hT0]
    norm_num
  · rw [htime1, hT0, zero_add]
  · rw [hval1, hT0, zero_add]
    have e : 2 * (Real.pi / 4) = Real.pi / 2 := by ring
    rw [e, Real.sin_pi_div_two]
    norm_num
  · rw [htime2, hT0, zero_add]
  · rw [hval2, hT0, zero_add]
    have e : 2 * (Real.pi / 2) = Real.pi := by ring
    rw [e, Real.sin_pi]
    norm_num

/-- C14: in every scene state reached by `InitScene` followed by any sequence of
`UpdateScene` calls with arbitrary frame times (exact real arithmetic), the strength of
light 0 is within `[0, 10]`, that of light 7 within `[0, 40]`, the other lights keep their
initial strengths 40 and 10, and so every light's strength is at least 0. -/
theorem light_strengths_bounded (h : Helpers ℝ) (textures : List Texture)
    (width height : Int) (pf : PerFrameConstants ℝ) (pm : PerModelConstants ℝ)
    (frames : List (Input × ℝ)) :
    ∃ s0 s,
      InitScene h.real textures width height pf pm = .ok s0
        ∧ runUpdates h.real s0 frames = .ok s
        ∧ (∃ a b, s.gLights.map Light.GetStrength = [a, 40, 10, 10, 10, 40, 10, b, 10, 10]
            ∧ 0 ≤ a ∧ a ≤ 10 ∧ 0 ≤ b ∧ b ≤ 40)
        ∧ ∀ l ∈ s.gLights, 0 ≤ l.GetStrength := by
  obtain ⟨s0, hinit, hp0, -, -, -, -, hstr0, -⟩ :=
    InitScene_ok h.real textures width height pf pm
  obtain ⟨s, hrun, -, a, b, hab, ha0, ha1, hb0, hb1⟩ := runUpdates_invariant h.real
    (fun s => ∃ a b, s.gLights.map Light.GetStrength = [a, 40, 10, 10, 10, 40, 10, b, 10, 10]
      ∧ 0 ≤ a ∧ a ≤ 10 ∧ 0 ≤ b ∧ b ≤ 40)
    (by
      intro input frameTime s t cmds hsp hP ht
      obtain ⟨a, b, hab, -⟩ := hP
      obtain ⟨t1, c1, h1, -, -, -, -, hstr, -⟩ := UpdateScene_ok h.real input s frameTime hsp
      have e : t1 = t := (ok_scene_unique h1 ht).1
      subst e
      have hlo := Real.neg_one_le_sin ((s.totalTime + frameTime) * 2.0)
      have hhi := Real.sin_le_one ((s.totalTime + frameTime) * 2.0)
      refine ⟨5.0 + (h.real).sin ((s.totalTime + frameTime) * 2.0) * 5.0,
        20.0 + (h.real).sin ((s.totalTime + frameTime) * 2.0) * 20.0, ?_, ?_, ?_, ?_, ?_⟩
      · rw [hstr, hab]
        rfl
      · simp only [Helpers.real]; norm_num; linarith
      · simp only [Helpers.real]; norm_num; linarith
      · simp only [Helpers.real]; norm_num; linarith
      · simp only [Helpers.real]; norm_num; linarith)
    frames s0 hp0 ⟨10, 40, hstr0, by norm_num, by norm_num, by norm_num, by norm_num⟩
  refine ⟨s0, s, hinit, hrun, ⟨a, b, hab, ha0, ha1, hb0, hb1⟩, ?_⟩
  intro l hl
  have hmem : l.GetStrength ∈ s.gLights.map Light.GetStrength := List.mem_map_of_mem _ hl
  rw [hab] at hmem
  simp only [List.mem_cons, List.mem_singleton, List.not_mem_nil, or_false] at hmem
  rcases hmem with e | e | e | e | e | e | e | e | e | e <;> rw [e] <;> norm_num <;> assumption

/-- The draws of one colour pass and the states bound at each, from any device state. -/
theorem colourPass_states {F : Type} [Field F] (s : Scene F) (pf : PerFrameConstants F)
    (pm : PerModelConstants F) (d : DeviceState F) :
    (drawLog d (colourPassCmds s pf pm)).map (fun r => (r.model, r.states))
      = colourPassStates := by
  dsimp only [colourPassCmds, cmdsStart, cmdsGround, cmdsCharacter, cmdsCrate, cmdsTroll,
    cmdsSpecular, cmdsPortal, cmdsMapped, cmdsWiggle, cmdsDecal, cmdsGlass, cmdsLightStates,
    lightDraws, range_NUM_LIGHTS, List.map, List.cons_append, List.nil_append]
  rfl

/-- C16: every call of `RenderSceneFromCamera` on a ready scene draws the full list of
models, in this order; each model created by `InitScene` is drawn exactly once, except the
troll, which is drawn twice (outline, then shaded). -/
theorem RenderSceneFromCamera_draws_all {F : Type} [Field F] (h : Helpers F) (s : Scene F)
    (camera : Camera F) (d : DeviceState F) (hr : s.ready = true) :
    ∃ t cmds, RenderSceneFromCamera h s camera = .ok (t, cmds)
      ∧ (drawLog d cmds).map Draw.model
          = [.gGround, .gCharacter, .gCrate, .gTroll, .gTroll, .gCube 0, .gTeapot, .gCubeMulti,
             .gCube 1, .gPortal, .gBike, .gCube 2, .gCube 3, .gSphere, .gCube 5,
             .gSecondPortal, .gDecal, .gCube 6, .gCube 4,
             .lightModel 0, .lightModel 1, .lightModel 2, .lightModel 3, .lightModel 4,
             .lightModel 5, .lightModel 6, .lightModel 7, .lightModel 8, .lightModel 9]
      ∧ ∀ m ∈ sceneModels,
          ((drawLog d cmds).map Draw.model).count m = if m = .gTroll then 2 else 1 := by
  refine ⟨_, _, RenderSceneFromCamera_ok h s camera hr, ?_⟩
  have e : (drawLog d (colourPassCmds s (cameraConstants h s.gPerFrameConstants camera)
      s.gPerModelConstants)).map Draw.model = colourPassStates.map Prod.fst := by
    rw [← colourPass_states s _ _ d, List.map_map]
    rfl
  rw [e]
  exact ⟨by decide, by decide⟩

/-- C15: in every call of `RenderSceneFromCamera` on a ready scene the decal is drawn once,
with additive blending, the read-only depth state and no culling bound at its draw. -/
theorem RenderSceneFromCamera_decal_states {F : Type} [Field F] (h : Helpers F) (s : Scene F)
    (camera : Camera F) (d : DeviceState F) (hr : s.ready = true) :
    ∃ t cmds, RenderSceneFromCamera h s camera = .ok (t, cmds)
      ∧ (((drawLog d cmds).map (fun r => (r.model, r.states))).filter
            (fun x => x.1 = .gDecal)).map Prod.snd
          = [(some .gAdditiveBlendingState, some .gDepthReadOnlyState,
              some .gCullNoneState)] := by
  refine ⟨_, _, RenderSceneFromCamera_ok h s camera hr, ?_⟩
  rw [colourPass_states]
  decide

/-- C16 at a concrete input: the sample scene drawn from its main camera. -/
theorem RenderSceneFromCamera_draws_all_witness :
    sampleSceneValue.ready = true
      ∧ ∃ t cmds, RenderSceneFromCamera sampleHelpers sampleSceneValue sampleSceneValue.gCamera
        = .ok (t, cmds)
      ∧ ((drawLog DeviceState.fresh cmds).map Draw.model).count .gTroll = 2
      ∧ ((drawLog DeviceState.fresh cmds).map Draw.model).count .gDecal = 1 := by
  obtain ⟨t, cmds, hok, -, hcount⟩ :=
    RenderSceneFromCamera_draws_all sampleHelpers sampleSceneValue sampleSceneValue.gCamera
      DeviceState.fresh (by decide)
  exact ⟨by decide, t, cmds, hok, hcount .gTroll (by decide), hcount .gDecal (by decide)⟩

/-- C15 at a concrete input: the sample scene drawn from its portal camera. -/
theorem RenderSceneFromCamera_decal_states_witness :
    sampleSceneValue.ready = true
      ∧ ∃ t cmds, RenderSceneFromCamera sampleHelpers sampleSceneValue
        sampleSceneValue.gPortalCamera = .ok (t, cmds)
      ∧ (((drawLog DeviceState.fresh cmds).map (fun r => (r.model, r.states))).filter
            (fun x => x.1 = .gDecal)).map Prod.snd
          = [(some .gAdditiveBlendingState, some .gDepthReadOnlyState,
              some .gCullNoneState)] :=
  ⟨by decide, RenderSceneFromCamera_decal_states sampleHelpers sampleSceneValue
    sampleSceneValue.gPortalCamera DeviceState.fresh (by decide)⟩

/-- The globals checked by `LoadShaders` are the globals it assigns, in the same order. -/
theorem shaderChecks_eq : shaderChecks = shaderFiles.map Prod.fst := rfl

/-- After the assignments of `LoadShaders` each global holds what its load returned. -/
theorem shaderLoaded_entry (env : Loaders) :
    ∀ entry ∈ shaderFiles, shaderLoaded env entry.1 = entry.1.load env entry.2 := by
  intro entry hentry
  simp only [shaderFiles, List.mem_cons, List.mem_singleton, List.not_mem_nil, or_false] at hentry
  rcases hentry with h | h | h | h | h | h | h | h | h | h | h | h | h | h | h | h | h | h | h
    | h | h | h | h | h | h | h | h | h | h | h <;> subst h <;> rfl

/-- Every global checked by `LoadShaders` is non-null exactly when every load returned a
non-null pointer. -/
theorem shaderChecks_all (env : Loaders) :
    (∀ handle ∈ shaderChecks, shaderLoaded env handle = true)
      ↔ ∀ entry ∈ shaderFiles, entry.1.load env entry.2 = true := by
  rw [shaderChecks_eq]
  constructor
  · intro h entry hentry
    rw [← shaderLoaded_entry env entry hentry]
    exact h entry.1 (List.mem_map_of_mem Prod.fst hentry)
  · intro h handle hhandle
    obtain ⟨entry, hentry, rfl⟩ := List.mem_map.mp hhandle
    rw [shaderLoaded_entry env entry hentry]
    exact h entry hentry

/-- The result of `LoadShaders` in terms of the globals it checks. -/
theorem LoadShaders_result (env : Loaders) (gLastError : String) :
    (LoadShaders env gLastError).1 = true
      ↔ ∀ handle ∈ shaderChecks, shaderLoaded env handle = true := by
  unfold LoadShaders
  split
  · rename_i h
    simp only [Bool.false_eq_true, false_iff, not_forall]
    obtain ⟨x, hx, hx2⟩ := List.any_eq_true.mp h
    exact ⟨x, hx, by simpa using hx2⟩
  · rename_i h
    simp only [true_iff]
    intro x hx
    by_contra hc
    exact h (List.any_eq_true.mpr ⟨x, hx, by simpa using hc⟩)

/-- C19: `LoadShaders` returns true exactly when every one of its 30 loads returned a
non-null handle; the 30 handles assigned are distinct and are all the shader globals; and
when it returns false `gLastError` is "Error loading shaders". -/
theorem LoadShaders_true_iff (env : Loaders) (gLastError : String) :
    ((LoadShaders env gLastError).1 = true
        ↔ ∀ entry ∈ shaderFiles, entry.1.load env entry.2 = true)
      ∧ ((LoadShaders env gLastError).1 = false
        → (LoadShaders env gLastError).2 = "Error loading shaders")
      ∧ shaderFiles.length = 30
      ∧ (shaderFiles.map Prod.fst).Nodup
      ∧ ∀ handle : ShaderHandle, handle ∈ shaderFiles.map Prod.fst := by
  refine ⟨?_, ?_, rfl, by decide, ?_⟩
  · rw [← shaderChecks_all]
    exact LoadShaders_result env gLastError
  · unfold LoadShaders
    split
    · intro _
      rfl
    · intro h
      exact absurd h (by simp)
  · intro handle
    rw [← shaderChecks_eq]
    cases handle with
    | vertex v => cases v <;> simp [shaderChecks]
    | pixel p => cases p <;> simp [shaderChecks]

/-- A list of steps has no first failure exactly when all its steps succeed. -/
theorem firstFailure_none (env : Loaders) (steps : List Step) :
    firstFailure env steps = none ↔ ∀ step ∈ steps, step.succeeds env = true := by
  induction steps with
  | nil => simp [firstFailure]
  | cons step rest ih =>
    unfold firstFailure
    cases hf : step.failure env with
    | none => simp [ih, Step.succeeds, hf]
    | some text => simp [Step.succeeds, hf]

/-- When no step fails, a `try` block or `||` chain runs all its steps. -/
theorem upToFailure_all (env : Loaders) (steps : List Step)
    (h : ∀ step ∈ steps, step.succeeds env = true) : upToFailure env steps = steps := by
  induction steps with
  | nil => rfl
  | cons step rest ih =>
    have h1 := h step (List.mem_cons_self _ _)
    simp only [upToFailure, h1, if_true]
    rw [ih (fun s hs => h s (List.mem_cons_of_mem _ hs))]

/-- The steps run by a `try` block or `||` chain are among its steps. -/
theorem upToFailure_subset (env : Loaders) (steps : List Step) :
    upToFailure env steps ⊆ steps := by
  induction steps with
  | nil => simp [upToFailure]
  | cons step rest ih =>
    unfold upToFailure
    split
    · exact List.cons_subset_cons _ ih
    · simp

/-- The first failure of a list of steps is the failure of a step that was run. -/
theorem firstFailure_some (env : Loaders) (steps : List Step) (text : String)
    (h : firstFailure env steps = some text) :
    ∃ step ∈ upToFailure env steps, step.failure env = some text := by
  induction steps with
  | nil => simp [firstFailure] at h
  | cons step rest ih =>
    unfold firstFailure at h
    cases hf : step.failure env with
    | none =>
      rw [hf] at h
      obtain ⟨s, hs, hs2⟩ := ih h
      refine ⟨s, ?_, hs2⟩
      simp only [upToFailure, Step.succeeds, hf, Option.isNone_none, if_true]
      exact List.mem_cons_of_mem _ hs
    | some t =>
      rw [hf] at h
      simp only [Option.some.injEq] at h
      subst h
      refine ⟨step, ?_, hf⟩
      simp [upToFailure, Step.succeeds, hf]

/-- The `try` block of the mesh constructors is sound. -/
theorem meshBlock_sound (env : Loaders) : meshBlock.Sound env := by
  refine ⟨upToFailure_subset env _, firstFailure_none env _, ?_, ?_⟩
  · intro h
    exact upToFailure_all env _ ((firstFailure_none env _).mp h)
  · intro message h
    obtain ⟨step, hstep, hf⟩ := firstFailure_some env _ message h
    exact ⟨step, hstep, by simp [Step.succeeds, hf]⟩

/-- The `||` chain of the cube faces is sound. -/
theorem cubeTextureBlock_sound (env : Loaders) : cubeTextureBlock.Sound env := by
  refine ⟨upToFailure_subset env _, ?_, ?_, ?_⟩
  · rw [← firstFailure_none]
    simp [cubeTextureBlock]
  · intro h
    refine upToFailure_all env _ ((firstFailure_none env _).mp ?_)
    simpa [cubeTextureBlock] using h
  · intro message h
    simp only [cubeTextureBlock, Option.map_eq_some'] at h
    obtain ⟨text, htext, -⟩ := h
    obtain ⟨step, hstep, hf⟩ := firstFailure_some env _ text htext
    exact ⟨step, hstep, by simp [Step.succeeds, hf]⟩

/-- The `try` block of the textures is sound. -/
theorem textureBlock_sound (env : Loaders) : textureBlock.Sound env := by
  refine ⟨upToFailure_subset env _, ?_, ?_, ?_⟩
  · rw [← firstFailure_none]
    simp [textureBlock]
  · intro h
    refine upToFailure_all env _ ((firstFailure_none env _).mp ?_)
    simpa [textureBlock] using h
  · intro message h
    simp only [textureBlock, Option.map_eq_some'] at h
    obtain ⟨text, htext, -⟩ := h
    obtain ⟨step, hstep, hf⟩ := firstFailure_some env _ text htext
    exact ⟨step, hstep, by simp [Step.succeeds, hf]⟩

/-- A call checked on its own is sound. -/
theorem guarded_sound (env : Loaders) (step : Step) (message : String) :
    (guarded step message).Sound env := by
  refine ⟨List.Subset.refl _, ?_, fun _ => rfl, ?_⟩
  · cases h : step.succeeds env <;> simp [guarded, h]
  · intro m hm
    refine ⟨step, List.mem_singleton.mpr rfl, ?_⟩
    cases h : step.succeeds env
    · rfl
    · simp [guarded, h] at hm

/-- The creation of the constant buffers is sound. -/
theorem bufferBlock_sound (env : Loaders) : bufferBlock.Sound env := by
  refine ⟨List.Subset.refl _, ?_, fun _ => rfl, ?_⟩
  · cases h1 : env.CreateConstantBuffer .gPerFrameConstantBuffer <;>
      cases h2 : env.CreateConstantBuffer .gPerModelConstantBuffer <;>
      simp [bufferBlock, Step.succeeds, Step.failure, h1, h2]
  · intro m
    cases h1 : env.CreateConstantBuffer .gPerFrameConstantBuffer <;>
      cases h2 : env.CreateConstantBuffer .gPerModelConstantBuffer <;>
      simp [bufferBlock, Step.succeeds, Step.failure, h1, h2]

/-- The call of `LoadShaders` is sound. -/
theorem shaderBlock_sound (env : Loaders) : shaderBlock.Sound env := by
  have key : shaderBlock.failure env = none
      ↔ ∀ step ∈ shaderBlock.steps, step.succeeds env = true := by
    have h1 : shaderBlock.failure env = none ↔ (LoadShaders env "").1 = true := by
      cases h : (LoadShaders env "").1 <;> simp [shaderBlock, h]
    rw [h1, LoadShaders_result, shaderChecks_eq]
    simp only [shaderBlock, List.mem_map, forall_exists_index, and_imp,
      forall_apply_eq_imp_iff₂]
    constructor
    · intro h entry hentry
      have := h entry hentry
      simp [Step.succeeds, Step.failure, this]
    · intro h entry hentry
      have := h entry hentry
      cases hl : shaderLoaded env entry.1
      · simp [Step.succeeds, Step.failure, hl] at this
      · rfl
  refine ⟨List.Subset.refl _, key, fun _ => rfl, ?_⟩
  intro m hm
  by_contra hc
  have hall : ∀ step ∈ shaderBlock.steps, step.succeeds env = true := by
    intro step hstep
    by_contra hs
    exact hc ⟨step, hstep, by simpa using hs⟩
  rw [key.mpr hall] at hm
  exact Option.noConfusion hm

/-- Every part of `InitGeometry` is sound. -/
theorem geometryBlocks_sound (env : Loaders) : ∀ b ∈ geometryBlocks, b.Sound env := by
  intro b hb
  simp only [geometryBlocks, List.mem_cons, List.mem_singleton, List.not_mem_nil,
    or_false] at hb
  rcases hb with h | h | h | h | h | h | h | h | h | h | h | h | h | h | h | h | h | h | h
    | h | h | h | h | h | h <;> subst h
  · exact meshBlock_sound env
  · exact shaderBlock_sound env
  · exact bufferBlock_sound env
  · exact cubeTextureBlock_sound env
  · exact textureBlock_sound env
  all_goals exact guarded_sound env _ _

/-- A text that starts with a non-empty text is not empty. -/
theorem append_ne_empty (a b : String) (ha : a ≠ "") : a ++ b ≠ "" := by
  intro h
  have h2 := congrArg String.length h
  rw [String.length_append] at h2
  have h3 : a.length = 0 := by
    have : ("" : String).length = 0 := rfl
    omega
  exact ha (String.ext (List.length_eq_zero.mp h3))

/-- Every message that a failing part of `InitGeometry` leaves in `gLastError` is non-empty,
provided the exceptions of the mesh constructors carry a non-empty message. -/
theorem geometryBlocks_message (env : Loaders)
    (hmesh : ∀ mesh text, env.newMesh mesh = .error text → text ≠ "") :
    ∀ b ∈ geometryBlocks, ∀ message, b.failure env = some message → message ≠ "" := by
  intro b hb message hm
  simp only [geometryBlocks, List.mem_cons, List.mem_singleton, List.not_mem_nil,
    or_false] at hb
  rcases hb with h | h | h | h | h | h | h | h | h | h | h | h | h | h | h | h | h | h | h
    | h | h | h | h | h | h <;> subst h
  · obtain ⟨step, hstep, hf⟩ := firstFailure_some env _ message hm
    have hsub := upToFailure_subset env _ hstep
    simp only [meshBlock, List.mem_cons, List.mem_singleton, List.not_mem_nil,
      or_false] at hsub
    rcases hsub with h | h | h | h | h | h | h | h | h | h | h | h | h | h <;> subst h <;>
      · simp only [Step.failure] at hf
        split at hf
        · exact Option.noConfusion hf
        · rename_i text htext
          simp only [Option.some.injEq] at hf
          subst hf
          exact hmesh _ _ htext
  · simp only [shaderBlock] at hm
    split at hm
    · exact Option.noConfusion hm
    · simp only [Option.some.injEq] at hm
      subst hm
      decide
  · simp only [bufferBlock] at hm
    split at hm
    · simp only [Option.some.injEq] at hm
      subst hm
      decide
    · exact Option.noConfusion hm
  · simp only [cubeTextureBlock, Option.map_eq_some'] at hm
    obtain ⟨_, -, rfl⟩ := hm
    decide
  · simp only [textureBlock, Option.map_eq_some'] at hm
    obtain ⟨text, -, rfl⟩ := hm
    exact append_ne_empty _ _ (by decide)
  all_goals
    simp only [guarded] at hm
    split at hm
    · exact Option.noConfusion hm
    · simp only [Option.some.injEq] at hm
      subst hm
      decide

/-- The parts of a function run in order: either none fails, all steps have been run and
`gLastError` is untouched, or the first part that fails sets `gLastError` and the steps run
are those of the parts before it and those it ran itself. -/
theorem runBlocks_spec (env : Loaders) (blocks : List Block) (r : GeometryResult)
    (hs : ∀ b ∈ blocks, b.Sound env) :
    ((runBlocks env blocks r).result = true
        ∧ (runBlocks env blocks r).gLastError = r.gLastError
        ∧ (runBlocks env blocks r).executed = r.executed ++ blocks.flatMap Block.steps
        ∧ ∀ b ∈ blocks, b.failure env = none)
      ∨ ((runBlocks env blocks r).result = false
        ∧ ∃ before block after, blocks = before ++ block :: after
          ∧ (∀ b ∈ before, b.failure env = none)
          ∧ block.failure env = some (runBlocks env blocks r).gLastError
          ∧ (runBlocks env blocks r).executed
              = r.executed ++ before.flatMap Block.steps ++ block.executed env) := by
  induction blocks generalizing r with
  | nil =>
    left
    simp [runBlocks]
  | cons b rest ih =>
    cases hf : b.failure env with
    | some message =>
      right
      simp only [runBlocks, hf]
      exact ⟨trivial, [], b, rest, rfl, by simp, hf, by simp⟩
    | none =>
      have hb := hs b (List.mem_cons_self _ _)
      have hex : b.executed env = b.steps := hb.2.2.1 hf
      have hrun : runBlocks env (b :: rest) r
          = runBlocks env rest { r with executed := r.executed ++ b.executed env } := by
        simp only [runBlocks, hf]
      rw [hrun]
      rcases ih { r with executed := r.executed ++ b.executed env }
          (fun c hc => hs c (List.mem_cons_of_mem _ hc)) with h | h
      · left
        obtain ⟨h1, h2, h3, h4⟩ := h
        refine ⟨h1, h2, ?_, ?_⟩
        · rw [h3, hex]
          simp [List.flatMap_cons, List.append_assoc]
        · intro c hc
          rcases List.mem_cons.mp hc with rfl | hc
          · exact hf
          · exact h4 c hc
      · right
        obtain ⟨h1, before, block, after, h2, h3, h4, h5⟩ := h
        refine ⟨h1, b :: before, block, after, by rw [h2]; rfl, ?_, h4, ?_⟩
        · intro c hc
          rcases List.mem_cons.mp hc with rfl | hc
          · exact hf
          · exact h3 c hc
        · rw [h5, hex]
          simp [List.flatMap_cons, List.append_assoc]

/-- No step occurs twice among the parts of `InitGeometry`. -/
theorem geometryBlocks_nodup : (geometryBlocks.flatMap Block.steps).Nodup := by decide

/-- C17, counterexample: when only the creation of the per-frame constant buffer fails,
`InitGeometry` returns false with the message of the constant buffers, all 44 steps before
the failing one succeeded, and the creation of the per-model constant buffer, a later step,
has been run after the failing step. -/
theorem InitGeometry_runs_later_step :
    (InitGeometry noFrameBufferLoaders "").result = false
      ∧ (InitGeometry noFrameBufferLoaders "").gLastError = "Error creating constant buffers"
      ∧ (∀ step ∈ (InitGeometry noFrameBufferLoaders "").executed.take 44,
          step.succeeds noFrameBufferLoaders = true)
      ∧ Step.succeeds noFrameBufferLoaders
          (.createConstantBuffer .gPerFrameConstantBuffer) = false
      ∧ (InitGeometry noFrameBufferLoaders "").executed.drop 44
          = [.createConstantBuffer .gPerFrameConstantBuffer,
             .createConstantBuffer .gPerModelConstantBuffer] := by
  decide

/-- C17, amended: when `InitGeometry` returns false, `gLastError` is the non-empty message of
the first part (guarded block) that failed, provided a mesh exception carries a non-empty
message; all steps of the parts before it succeeded, a step that the failing part ran
failed, the steps run are those of the parts before and those the failing part ran, and no
step of a later part has been run. `InitGeometry` returns true exactly when every step
succeeds, and then `gLastError` is untouched and every step has been run. -/
theorem InitGeometry_failure_blockwise (env : Loaders) (gLastError : String)
    (hmesh : ∀ mesh text, env.newMesh mesh = .error text → text ≠ "") :
    ((InitGeometry env gLastError).result = false →
        (InitGeometry env gLastError).gLastError ≠ ""
        ∧ ∃ before block after,
            geometryBlocks = before ++ block :: after
            ∧ (∀ b ∈ before, ∀ step ∈ b.steps, step.succeeds env = true)
            ∧ block.failure env = some (InitGeometry env gLastError).gLastError
            ∧ (∃ step ∈ block.executed env, step.succeeds env = false)
            ∧ (InitGeometry env gLastError).executed
                = before.flatMap Block.steps ++ block.executed env
            ∧ block.executed env ⊆ block.steps
            ∧ ∀ b ∈ after, ∀ step ∈ b.steps,
                step ∉ (InitGeometry env gLastError).executed)
      ∧ ((InitGeometry env gLastError).result = true
          ↔ ∀ b ∈ geometryBlocks, ∀ step ∈ b.steps, step.succeeds env = true)
      ∧ ((InitGeometry env gLastError).result = true →
          (InitGeometry env gLastError).gLastError = gLastError
          ∧ (InitGeometry env gLastError).executed = geometryBlocks.flatMap Block.steps) := by
  have hsound := geometryBlocks_sound env
  have hspec := runBlocks_spec env geometryBlocks
    { result := false, gLastError := gLastError, executed := [] } hsound
  simp only [List.nil_append] at hspec
  change
    (((InitGeometry env gLastError).result = true
        ∧ (InitGeometry env gLastError).gLastError = gLastError
        ∧ (InitGeometry env gLastError).executed = geometryBlocks.flatMap Block.steps
        ∧ ∀ b ∈ geometryBlocks, b.failure env = none)
      ∨ ((InitGeometry env gLastError).result = false
        ∧ ∃ before block after, geometryBlocks = before ++ block :: after
          ∧ (∀ b ∈ before, b.failure env = none)
          ∧ block.failure env = some (InitGeometry env gLastError).gLastError
          ∧ (InitGeometry env gLastError).executed
              = before.flatMap Block.steps ++ block.executed env)) at hspec
  refine ⟨?_, ?_, ?_⟩
  · intro hfalse
    rcases hspec with h | h
    · rw [h.1] at hfalse
      exact absurd hfalse (by simp)
    · obtain ⟨-, before, block, after, hsplit, hbefore, hfail, hexec⟩ := h
      have hblock : block ∈ geometryBlocks := by
        rw [hsplit]
        simp
      refine ⟨geometryBlocks_message env hmesh block hblock _ hfail, before, block, after,
        hsplit, ?_, hfail, (hsound block hblock).2.2.2 _ hfail, hexec,
        (hsound block hblock).1, ?_⟩
      · intro b hb
        have hbg : b ∈ geometryBlocks := by
          rw [hsplit]
          simp [hb]
        exact (hsound b hbg).2.1.mp (hbefore b hb)
      · intro b hb step hstep hin
        have hnodup := geometryBlocks_nodup
        rw [hsplit] at hnodup
        simp only [List.flatMap_append, List.flatMap_cons] at hnodup
        rw [← List.append_assoc] at hnodup
        have hdisj := (List.nodup_append.mp hnodup).2.2
        have h1 : step ∈ before.flatMap Block.steps ++ block.steps := by
          rw [hexec] at hin
          rcases List.mem_append.mp hin with h | h
          · exact List.mem_append_left _ h
          · exact List.mem_append_right _ ((hsound block hblock).1 h)
        have h2 : step ∈ after.flatMap Block.steps :=
          List.mem_flatMap.mpr ⟨b, hb, hstep⟩
        exact hdisj h1 h2
  · constructor
    · intro htrue
      rcases hspec with h | h
      · intro b hb
        exact (hsound b hb).2.1.mp (h.2.2.2 b hb)
      · rw [h.1] at htrue
        exact absurd htrue (by simp)
    · intro hall
      rcases hspec with h | h
      · exact h.1
      · obtain ⟨-, before, block, after, hsplit, -, hfail, -⟩ := h
        have hblock : block ∈ geometryBlocks := by
          rw [hsplit]
          simp
        have := (hsound block hblock).2.1.mpr (hall block hblock)
        rw [this] at hfail
        exact Option.noConfusion hfail
  · intro htrue
    rcases hspec with h | h
    · exact ⟨h.2.1, h.2.2.1⟩
    · rw [h.1] at htrue
      exact absurd htrue (by simp)

/-- C17 at a concrete input: with loaders for which only the file "tv.dds" fails to load,
`InitGeometry` returns false and leaves a non-empty message. -/
theorem InitGeometry_failure_blockwise_witness :
    (∀ mesh text, noTvLoaders.newMesh mesh = .error text → text ≠ "")
      ∧ (InitGeometry noTvLoaders "").result = false
      ∧ (InitGeometry noTvLoaders "").gLastError ≠ "" :=
  ⟨fun _ _ h => by simp [noTvLoaders, goodLoaders] at h, by decide,
    ((InitGeometry_failure_blockwise noTvLoaders ""
      (fun _ _ h => by simp [noTvLoaders, goodLoaders] at h)).1 (by decide)).1⟩

/-- C18: after a successful `InitGeometry`, `ReleaseResources` (with its call of
`ReleaseShaders`) releases no object twice and only objects that were created, but it leaves
unreleased two of the 30 shaders, the texture and views of the faces of the multi-texture
cube, and the texture and both views of the second portal. -/
theorem ReleaseResources_leaves_unreleased (env : Loaders) (gLastError : String)
    (h : (InitGeometry env gLastError).result = true) :
    (releasedAfter (InitGeometry env gLastError).executed).Nodup
      ∧ (∀ object ∈ releasedAfter (InitGeometry env gLastError).executed,
          object ∈ createdBy (InitGeometry env gLastError).executed)
      ∧ unreleasedAfter (InitGeometry env gLastError).executed
          = [ .shader (.vertex .gBasicTransformVertexShader),
              .shader (.pixel .gDepthOnlyPixelShader),
              .texture (.ofFile "negx.jpg"), .shaderResourceView (.ofFile "negx.jpg"),
              .texture (.ofFile "negy.jpg"), .shaderResourceView (.ofFile "negy.jpg"),
              .texture (.ofFile "negz.jpg"), .shaderResourceView (.ofFile "negz.jpg"),
              .texture (.ofFile "posx.jpg"), .shaderResourceView (.ofFile "posx.jpg"),
              .texture (.ofFile "posy.jpg"), .shaderResourceView (.ofFile "posy.jpg"),
              .texture (.ofFile "posz.jpg"), .shaderResourceView (.ofFile "posz.jpg"),
              .texture .gSecondPortalTexture,
              .renderTargetView .gSecondPortalRenderTarget,
              .shaderResourceView .gSecondPortalTextureSRV ] := by
  have hspec := runBlocks_spec env geometryBlocks
    { result := false, gLastError := gLastError, executed := [] } (geometryBlocks_sound env)
  have hexec : (InitGeometry env gLastError).executed = geometryBlocks.flatMap Block.steps := by
    rcases hspec with h1 | h1
    · simpa using h1.2.2.1
    · have h2 : (InitGeometry env gLastError).result = false := h1.1
      rw [h2] at h
      exact absurd h (by simp)
  rw [hexec]
  decide

/-- C18 at a concrete input: the loaders with which every step succeeds. -/
theorem ReleaseResources_leaves_unreleased_witness :
    (InitGeometry goodLoaders "").result = true
      ∧ GpuObject.texture .gSecondPortalTexture
          ∈ unreleasedAfter (InitGeometry goodLoaders "").executed := by
  refine ⟨by decide, ?_⟩
  rw [(ReleaseResources_leaves_unreleased goodLoaders "" (by decide)).2.2]
  decide

/-- The first texture file that fails to load makes the `try` block of the textures fail with
the message of the `Texture` constructor. -/
theorem firstFailure_newTexture (env : Loaders) (files : List String) (file : String)
    (h : files.find? (fun f => !(env.LoadTexture f).ok) = some file) :
    firstFailure env (files.map .newTexture) = some ("Failed to load texture: " ++ file) := by
  induction files with
  | nil => simp at h
  | cons f rest ih =>
    rw [List.find?_cons] at h
    cases hok : (env.LoadTexture f).ok with
    | false =>
      simp only [hok, Bool.not_false, Option.some.injEq] at h
      subst h
      simp [firstFailure, Step.failure, Texture.new, hok]
    | true =>
      simp only [hok, Bool.not_true] at h
      simp only [List.map_cons, firstFailure, Step.failure, Texture.new, hok, Bool.not_true,
        Bool.false_eq_true, if_false]
      exact ih h

/-- C20: constructing a `Texture` throws exactly when `LoadTexture` fails, and then with the
message "Failed to load texture: " followed by the filename; on success the object holds the
loaded view, the loaded resource has been released and `GetTexture()` is null; and when the
earlier parts of `InitGeometry` succeed and `file` is the first texture file that fails to
load, `InitGeometry` returns false with `gLastError` equal to "Error loading textures: "
followed by the message of the exception. -/
theorem Texture.new_throws_iff (env : Loaders) (filename file gLastError : String)
    (h1 : meshBlock.failure env = none) (h2 : shaderBlock.failure env = none)
    (h3 : bufferBlock.failure env = none) (h4 : cubeTextureBlock.failure env = none)
    (hfile : textureFiles.find? (fun f => !(env.LoadTexture f).ok) = some file) :
    (∀ text, Texture.new env filename = .error text
        ↔ ((env.LoadTexture filename).ok = false
            ∧ text = "Failed to load texture: " ++ filename))
      ∧ ((env.LoadTexture filename).ok = true →
          ∃ t, Texture.new env filename = .ok (t, (env.LoadTexture filename).texture)
            ∧ t.GetTextureSRV = (env.LoadTexture filename).view
            ∧ t.GetTexture = none)
      ∧ (InitGeometry env gLastError).result = false
      ∧ (InitGeometry env gLastError).gLastError
          = "Error loading textures: " ++ ("Failed to load texture: " ++ file) := by
  refine ⟨?_, ?_, ?_⟩
  · intro text
    cases hok : (env.LoadTexture filename).ok with
    | false =>
      simp only [Texture.new, hok, Bool.not_false, if_true, Except.error.injEq, true_and]
      exact eq_comm
    | true => simp [Texture.new, hok]
  · intro hok
    exact ⟨{ filename := filename, mTexture := none,
             mTextureSRV := (env.LoadTexture filename).view },
      by simp [Texture.new, hok], rfl, rfl⟩
  · have h5 : textureBlock.failure env
        = some ("Error loading textures: " ++ ("Failed to load texture: " ++ file)) := by
      simp only [textureBlock, firstFailure_newTexture env textureFiles file hfile,
        Option.map_some']
    simp only [InitGeometry, geometryBlocks, runBlocks, h1, h2, h3, h4, h5, and_self]

/-- C20 at a concrete input: the loaders with which only the file "tv.dds" fails to load. -/
theorem Texture.new_throws_iff_witness :
    textureFiles.find? (fun f => !(noTvLoaders.LoadTexture f).ok) = some "tv.dds"
      ∧ Texture.new noTvLoaders "tv.dds" = .error "Failed to load texture: tv.dds"
      ∧ (InitGeometry noTvLoaders "").gLastError
          = "Error loading textures: Failed to load texture: tv.dds" :=
  ⟨by decide,
    ((Texture.new_throws_iff noTvLoaders "tv.dds" "tv.dds" "" (by decide) (by decide)
      (by decide) (by decide) (by decide)).1 _).mpr ⟨by decide, by decide⟩,
    (Texture.new_throws_iff noTvLoaders "tv.dds" "tv.dds" "" (by decide) (by decide)
      (by decide) (by decide) (by decide)).2.2.2⟩

set_option maxRecDepth 100000 in
/-- The draws of one frame: the records of the draws that the commands of `frameCmds` issue
from the device state `d`. -/
theorem frame_draws {F : Type} [Field F] (h : Helpers F) (s : Scene F)
    (pf : PerFrameConstants F) (view4 view5 view7 : CMatrix4x4 F) (d : DeviceState F) :
    (drawLog d (frameCmds h s pf view4 view5 view7)).map Draw.info
      = frameInfo h s pf view4 view5 view7 d := by
  dsimp only [frameCmds, frameBody, cmdsPortalTarget, cmdsPortalViewport, cmdsSecondPortalTarget,
    cmdsShadowViewport, cmdsShadowTarget, cmdsDepthOnly, cmdsMainTarget, cmdsUnbind, cmdsPresent,
    colourPassCmds, cmdsStart, cmdsGround, cmdsCharacter, cmdsCrate, cmdsTroll,
    cmdsSpecular, cmdsPortal, cmdsMapped, cmdsWiggle, cmdsDecal, cmdsGlass, cmdsLightStates,
    lightDraws, range_NUM_LIGHTS, List.map, List.cons_append, List.nil_append]
  rfl

set_option maxRecDepth 100000 in
/-- The uploads of the per-frame constants of one frame, each with the targets bound at the
upload. -/
theorem frame_uploads {F : Type} [Field F] (h : Helpers F) (s : Scene F)
    (pf : PerFrameConstants F) (view4 view5 view7 : CMatrix4x4 F) (d : DeviceState F) :
    uploadLog d (frameCmds h s pf view4 view5 view7)
      = frameUploads h s pf view4 view5 view7 := by
  dsimp only [frameCmds, frameBody, cmdsPortalTarget, cmdsPortalViewport, cmdsSecondPortalTarget,
    cmdsShadowViewport, cmdsShadowTarget, cmdsDepthOnly, cmdsMainTarget, cmdsUnbind, cmdsPresent,
    colourPassCmds, cmdsStart, cmdsGround, cmdsCharacter, cmdsCrate, cmdsTroll,
    cmdsSpecular, cmdsPortal, cmdsMapped, cmdsWiggle, cmdsDecal, cmdsGlass, cmdsLightStates,
    lightDraws, range_NUM_LIGHTS, List.map, List.cons_append, List.nil_append]
  rfl

/-- The calls of `OMSetRenderTargets` and of `Present` in one colour pass: none. -/
theorem colourPass_plain {F : Type} [Field F] (s : Scene F) (pf : PerFrameConstants F)
    (pm : PerModelConstants F) :
    (colourPassCmds s pf pm).filterMap Cmd.targets = []
      ∧ (colourPassCmds s pf pm).all (fun c => !c.isPresent) = true := by
  dsimp only [colourPassCmds, cmdsStart, cmdsGround, cmdsCharacter, cmdsCrate, cmdsTroll,
    cmdsSpecular, cmdsPortal, cmdsMapped, cmdsWiggle, cmdsDecal, cmdsGlass, cmdsLightStates,
    lightDraws, range_NUM_LIGHTS, List.map, List.cons_append, List.nil_append]
  exact ⟨rfl, rfl⟩

/-- Every record of a pass carries the targets, viewport, constants and clear values of the
pass. -/
theorem passInfo_mem {F : Type} [Field F]
    (rows : List (ModelId × Option BlendState × Option DepthStencilState
      × Option RasterizerState))
    (renderTarget : Option RenderTargetView) (depthStencil : Option DepthStencilView)
    (viewport : Option (Viewport F)) (perFrame : PerFrameConstants F)
    (colourClear : Option (ColourRGBA F)) :
    ∀ i ∈ passInfo rows renderTarget depthStencil viewport perFrame colourClear,
      i.renderTarget = renderTarget ∧ i.depthStencil = depthStencil ∧ i.viewport = viewport
        ∧ i.perFrame = some perFrame ∧ i.depthClear = some 1.0 ∧ i.colourClear = colourClear
        ∧ (i.model, i.states) ∈ rows := by
  intro i hi
  obtain ⟨row, hrow, rfl⟩ := List.mem_map.mp hi
  exact ⟨rfl, rfl, rfl, rfl, rfl, rfl, hrow⟩

set_option maxRecDepth 100000 in
/-- The writes of one frame, whatever the device state it starts from. -/
theorem frame_writes {F : Type} [Field F] (h : Helpers F) (s : Scene F)
    (pf : PerFrameConstants F) (view4 view5 view7 : CMatrix4x4 F) (d : DeviceState F) :
    writeLog d (frameCmds h s pf view4 view5 view7) = earlierWrites ++ mainWrites := by
  dsimp only [frameCmds, frameBody, cmdsPortalTarget, cmdsPortalViewport,
    cmdsSecondPortalTarget, cmdsShadowViewport, cmdsShadowTarget, cmdsDepthOnly,
    cmdsMainTarget, cmdsUnbind, cmdsPresent, colourPassCmds, cmdsStart, cmdsGround,
    cmdsCharacter, cmdsCrate, cmdsTroll, cmdsSpecular, cmdsPortal, cmdsMapped, cmdsWiggle,
    cmdsDecal, cmdsGlass, cmdsLightStates, lightDraws, range_NUM_LIGHTS, List.map,
    List.cons_append, List.nil_append]
  rfl

/-- C1: one call of `RenderScene` on a ready scene, from any device state, issues its draws
pass by pass in this order of write targets: first portal, second portal, shadow map 1,
shadow map 2, shadow map 3, back buffer; the draws into the shadow maps 1, 2 and 3 use the
view matrices of the lights 4, 5 and 7; the commands end with one `Present` and contain no
other; and the draws split into those before the main pass, none of which writes to the back
buffer, and those of the main pass, all of which write to the back buffer. The writes of
the frame, draws and clears alike, are those of `earlierWrites` followed by those of
`mainWrites`: every clear and every draw that writes a portal texture, the portal depth
buffer or a shadow map comes before the clears and the draws of the main pass, which write
the back buffer and the main depth buffer only. -/
theorem RenderScene_pass_order {F : Type} [Field F] (h : Helpers F) (s : Scene F)
    (d : DeviceState F) (hr : s.ready = true) :
    ∃ t cmds view4 view5 view7 init earlier main,
      RenderScene h s = .ok (t, cmds)
      ∧ ((drawLog d cmds).map
            (fun r => (r.device.renderTarget, r.device.depthStencil))).destutter (· ≠ ·)
          = [(some .gPortalRenderTarget, some .gPortalDepthStencilView),
             (some .gSecondPortalRenderTarget, some .gPortalDepthStencilView),
             (none, some .gShadowMap1DepthStencil),
             (none, some .gShadowMap2DepthStencil),
             (none, some .gShadowMap3DepthStencil),
             (some .gBackBufferRenderTarget, some .gDepthStencil)]
      ∧ writeLog d cmds = earlierWrites ++ mainWrites
      ∧ CalculateLightViewMatrix h s 4 = .ok view4
      ∧ CalculateLightViewMatrix h s 5 = .ok view5
      ∧ CalculateLightViewMatrix h s 7 = .ok view7
      ∧ (∀ i ∈ (drawLog d cmds).map Draw.info,
          (i.depthStencil = some .gShadowMap1DepthStencil
              → i.perFrame.map (fun c => c.viewMatrix) = some view4)
          ∧ (i.depthStencil = some .gShadowMap2DepthStencil
              → i.perFrame.map (fun c => c.viewMatrix) = some view5)
          ∧ (i.depthStencil = some .gShadowMap3DepthStencil
              → i.perFrame.map (fun c => c.viewMatrix) = some view7))
      ∧ cmds = init ++ [.Present (if s.lockFPS then 1 else 0)]
      ∧ (∀ c ∈ init, c.isPresent = false)
      ∧ (drawLog d cmds).map Draw.info = earlier ++ main
      ∧ (∀ i ∈ earlier, i.renderTarget ≠ some .gBackBufferRenderTarget)
      ∧ main ≠ []
      ∧ (∀ i ∈ main, i.renderTarget = some .gBackBufferRenderTarget
          ∧ i.depthStencil = some .gDepthStencil)
      ∧ ((writeLog d cmds).filter (fun w => w.1)).map Prod.snd
          = (drawLog d cmds).map (fun r =>
              (r.device.renderTarget.map RenderTargetView.resource).toList
                ++ (r.device.depthStencil.map DepthStencilView.resource).toList)
      ∧ (earlierWrites.filter (fun w => w.1)).length = earlier.length
      ∧ (mainWrites.filter (fun w => w.1)).length = main.length
      ∧ (∀ w ∈ earlierWrites, Resource.backBuffer ∉ w.2 ∧ Resource.mainDepthBuffer ∉ w.2)
      ∧ ∀ w ∈ mainWrites, ∀ r ∈ w.2, r = Resource.backBuffer ∨ r = Resource.mainDepthBuffer := by
  obtain ⟨pf, view4, view5, view7, t, -, h4, h5, h7, hok⟩ := RenderScene_ok h s hr
  have hinfo := frame_draws h s pf view4 view5 view7 d
  refine ⟨t, _, view4, view5, view7, frameBody h s pf view4 view5 view7,
    earlierInfo h s pf view4 view5 view7 d, mainInfo h s pf, hok, ?_,
    frame_writes h s pf view4 view5 view7 d, h4, h5, h7, ?_, rfl, ?_,
    hinfo, ?_, ?_, ?_, ?_, rfl, rfl, by decide, by decide⟩
  · have e : (drawLog d (frameCmds h s pf view4 view5 view7)).map
          (fun r => (r.device.renderTarget, r.device.depthStencil))
        = ((drawLog d (frameCmds h s pf view4 view5 view7)).map Draw.info).map
          (fun i => (i.renderTarget, i.depthStencil)) := by
      rw [List.map_map]
      rfl
    rw [e, hinfo]
    rfl
  · rw [hinfo]
    intro i hi
    simp only [frameInfo, earlierInfo, mainInfo, List.mem_append] at hi
    rcases hi with (((((hi | hi) | hi) | hi) | hi) | hi) | hi <;>
      obtain ⟨-, h2, -, h3, -⟩ := passInfo_mem _ _ _ _ _ _ i hi <;>
      rw [h2, h3] <;>
      refine ⟨?_, ?_, ?_⟩ <;> intro hc <;> first | rfl | exact absurd hc (by decide)
  · intro c hc
    have hall : (frameBody h s pf view4 view5 view7).all (fun c => !c.isPresent) = true := by
      simp only [frameBody, List.all_append, (colourPass_plain s _ _).2, Bool.and_true,
        Bool.true_and]
      rfl
    have := List.all_eq_true.mp hall c hc
    simpa using this
  · intro i hi
    simp only [earlierInfo, List.mem_append] at hi
    rcases hi with ((((hi | hi) | hi) | hi) | hi) | hi <;>
      obtain ⟨h2, -⟩ := passInfo_mem _ _ _ _ _ _ i hi <;>
      rw [h2] <;> decide
  · simp [mainInfo, passInfo, colourPassStates]
  · intro i hi
    obtain ⟨h2, h3, -⟩ := passInfo_mem _ _ _ _ _ _ i hi
    exact ⟨h2, h3⟩
  · have e : (drawLog d (frameCmds h s pf view4 view5 view7)).map (fun r =>
          (r.device.renderTarget.map RenderTargetView.resource).toList
            ++ (r.device.depthStencil.map DepthStencilView.resource).toList)
        = ((drawLog d (frameCmds h s pf view4 view5 view7)).map Draw.info).map (fun i =>
          (i.renderTarget.map RenderTargetView.resource).toList
            ++ (i.depthStencil.map DepthStencilView.resource).toList) := by
      rw [List.map_map]
      rfl
    rw [e, hinfo, frame_writes]
    rfl

/-- C1 at a concrete input: the sample scene rendered on a fresh device. -/
theorem RenderScene_pass_order_witness :
    sampleSceneValue.ready = true
      ∧ ∃ t cmds, RenderScene sampleHelpers sampleSceneValue = .ok (t, cmds)
        ∧ ((drawLog DeviceState.fresh cmds).map
              (fun r => (r.device.renderTarget, r.device.depthStencil))).destutter (· ≠ ·)
            = [(some .gPortalRenderTarget, some .gPortalDepthStencilView),
               (some .gSecondPortalRenderTarget, some .gPortalDepthStencilView),
               (none, some .gShadowMap1DepthStencil),
               (none, some .gShadowMap2DepthStencil),
               (none, some .gShadowMap3DepthStencil),
               (some .gBackBufferRenderTarget, some .gDepthStencil)]
        ∧ writeLog DeviceState.fresh cmds = earlierWrites ++ mainWrites := by
  obtain ⟨t, cmds, v4, v5, v7, init, earlier, main, hok, horder, hwrites, -⟩ :=
    RenderScene_pass_order sampleHelpers sampleSceneValue DeviceState.fresh (by decide)
  exact ⟨by decide, t, cmds, hok, horder, hwrites⟩

/-- C4: in one call of `RenderScene` the per-frame constants are uploaded seven times, once
by each call of `RenderSceneFromCamera` or `RenderDepthBufferFromLight`: twice while the
first portal's target is bound, once for the second portal, once for each shadow map and once
for the back buffer; and the full list of models is drawn twice into the first portal's
target and once into the second portal's. -/
theorem RenderScene_first_portal_twice {F : Type} [Field F] (h : Helpers F) (s : Scene F)
    (d : DeviceState F) (hr : s.ready = true) :
    ∃ t cmds,
      RenderScene h s = .ok (t, cmds)
      ∧ (uploadLog d cmds).map (fun u => (u.1, u.2.1))
          = [(some .gPortalRenderTarget, some .gPortalDepthStencilView),
             (some .gPortalRenderTarget, some .gPortalDepthStencilView),
             (some .gSecondPortalRenderTarget, some .gPortalDepthStencilView),
             (none, some .gShadowMap1DepthStencil),
             (none, some .gShadowMap2DepthStencil),
             (none, some .gShadowMap3DepthStencil),
             (some .gBackBufferRenderTarget, some .gDepthStencil)]
      ∧ (((drawLog d cmds).map Draw.info).filter
            (fun i => decide (i.renderTarget = some .gPortalRenderTarget))).map DrawInfo.model
          = colourPassStates.map Prod.fst ++ colourPassStates.map Prod.fst
      ∧ (((drawLog d cmds).map Draw.info).filter
            (fun i => decide (i.renderTarget = some .gSecondPortalRenderTarget))).map
              DrawInfo.model
          = colourPassStates.map Prod.fst := by
  obtain ⟨pf, view4, view5, view7, t, -, -, -, -, hok⟩ := RenderScene_ok h s hr
  refine ⟨t, _, hok, ?_, ?_, ?_⟩
  · rw [frame_uploads]
    rfl
  · rw [frame_draws]
    rfl
  · rw [frame_draws]
    rfl

/-- C4 at a concrete input: the sample scene rendered on a fresh device. -/
theorem RenderScene_first_portal_twice_witness :
    sampleSceneValue.ready = true
      ∧ ∃ t cmds, RenderScene sampleHelpers sampleSceneValue = .ok (t, cmds)
        ∧ ((uploadLog DeviceState.fresh cmds).map (fun u => u.1)).count
            (some .gPortalRenderTarget) = 2 := by
  obtain ⟨t, cmds, hok, hup, -⟩ :=
    RenderScene_first_portal_twice sampleHelpers sampleSceneValue DeviceState.fresh (by decide)
  refine ⟨by decide, t, cmds, hok, ?_⟩
  have e : (uploadLog DeviceState.fresh cmds).map (fun u => u.1)
      = ((uploadLog DeviceState.fresh cmds).map (fun u => (u.1, u.2.1))).map Prod.fst := by
    rw [List.map_map]
    rfl
  rw [e, hup]
  decide

/-- C7: in one call of `RenderScene` the targets are bound six times; the three bindings of
the shadow passes bind zero colour targets and the depth view of the shadow maps 1, 2 and 3;
the draws without a colour target are the ground, the character and the crate, three times,
into the shadow maps 1, 2 and 3 with the constants of the lights 4, 5 and 7, each issued
after the bound depth view has been cleared to 1.0 and nothing else has been cleared. -/
theorem RenderScene_shadow_targets {F : Type} [Field F] (h : Helpers F) (s : Scene F)
    (d : DeviceState F) (hr : s.ready = true) :
    ∃ t cmds pf view4 view5 view7,
      RenderScene h s = .ok (t, cmds)
      ∧ setLightConstants h s = .ok pf
      ∧ CalculateLightViewMatrix h s 4 = .ok view4
      ∧ CalculateLightViewMatrix h s 5 = .ok view5
      ∧ CalculateLightViewMatrix h s 7 = .ok view7
      ∧ cmds.filterMap Cmd.targets
          = [(1, some .gPortalRenderTarget, some .gPortalDepthStencilView),
             (1, some .gSecondPortalRenderTarget, some .gPortalDepthStencilView),
             (0, none, some .gShadowMap1DepthStencil),
             (0, none, some .gShadowMap2DepthStencil),
             (0, none, some .gShadowMap3DepthStencil),
             (1, some .gBackBufferRenderTarget, some .gDepthStencil)]
      ∧ ((drawLog d cmds).map Draw.info).filter (fun i => decide (i.renderTarget = none))
          = passInfo depthOnlyStates none (some .gShadowMap1DepthStencil)
              (some (viewportOfSize gShadowMapSize gShadowMapSize))
              (shadowConstants h pf view4 4) none
            ++ passInfo depthOnlyStates none (some .gShadowMap2DepthStencil)
              (some (viewportOfSize gShadowMapSize gShadowMapSize))
              (shadowConstants h pf view5 5) none
            ++ passInfo depthOnlyStates none (some .gShadowMap3DepthStencil)
              (some (viewportOfSize gShadowMapSize gShadowMapSize))
              (shadowConstants h pf view7 7) none
      ∧ ∀ i ∈ (drawLog d cmds).map Draw.info, i.renderTarget = none →
          i.depthClear = some 1.0 ∧ i.colourClear = none
            ∧ (i.depthStencil = some .gShadowMap1DepthStencil
              ∨ i.depthStencil = some .gShadowMap2DepthStencil
              ∨ i.depthStencil = some .gShadowMap3DepthStencil) := by
  obtain ⟨pf, view4, view5, view7, t, hpf, h4, h5, h7, hok⟩ := RenderScene_ok h s hr
  refine ⟨t, _, pf, view4, view5, view7, hok, hpf, h4, h5, h7, ?_, ?_, ?_⟩
  · simp only [frameCmds, frameBody, List.filterMap_append, (colourPass_plain s _ _).1,
      List.append_nil]
    rfl
  · rw [frame_draws]
    rfl
  · rw [frame_draws]
    intro i hi hnone
    simp only [frameInfo, earlierInfo, mainInfo, List.mem_append] at hi
    rcases hi with (((((hi | hi) | hi) | hi) | hi) | hi) | hi <;>
      obtain ⟨h2, h3, -, -, h5, h6, -⟩ := passInfo_mem _ _ _ _ _ _ i hi <;>
      first
        | exact absurd (h2.symm.trans hnone) (by decide)
        | exact ⟨h5, h6, by rw [h3]; decide⟩

/-- C7 at a concrete input: the sample scene rendered on a fresh device. -/
theorem RenderScene_shadow_targets_witness :
    sampleSceneValue.ready = true
      ∧ ∃ t cmds, RenderScene sampleHelpers sampleSceneValue = .ok (t, cmds)
        ∧ cmds.filterMap Cmd.targets
          = [(1, some .gPortalRenderTarget, some .gPortalDepthStencilView),
             (1, some .gSecondPortalRenderTarget, some .gPortalDepthStencilView),
             (0, none, some .gShadowMap1DepthStencil),
             (0, none, some .gShadowMap2DepthStencil),
             (0, none, some .gShadowMap3DepthStencil),
             (1, some .gBackBufferRenderTarget, some .gDepthStencil)] := by
  obtain ⟨t, cmds, pf, v4, v5, v7, hok, -, -, -, -, htargets, -⟩ :=
    RenderScene_shadow_targets sampleHelpers sampleSceneValue DeviceState.fresh (by decide)
  exact ⟨by decide, t, cmds, hok, htargets⟩

/-- An entry of the image of a filtered list comes from an element of the list. -/
theorem exists_of_filter_map {α β : Type} (l : List α) (p : α → Bool) (f : α → β)
    (ys : List β) (y : β) (h : (l.filter p).map f = ys) (hy : y ∈ ys) :
    ∃ r ∈ l, f r = y := by
  rw [← h] at hy
  obtain ⟨r, hr, rfl⟩ := List.mem_map.mp hy
  exact ⟨r, (List.mem_filter.mp hr).1, rfl⟩

set_option maxRecDepth 100000 in
/-- The draws of the portal into the first portal's target, of the second portal into the
second portal's target and of the shadow passes for the shadow maps 2 and 3, each with the
views bound to the pixel-shader slots 0, 2, 3 and 4. -/
theorem frame_bound_views {F : Type} [Field F] (h : Helpers F) (s : Scene F) (pf : PerFrameConstants F)
    (view4 view5 view7 : CMatrix4x4 F) (d : DeviceState F) :
    ((drawLog d (frameCmds h s pf view4 view5 view7)).filter (fun r =>
          decide ((r.model = .gPortal ∧ r.device.renderTarget = some .gPortalRenderTarget)
            ∨ (r.model = .gSecondPortal
              ∧ r.device.renderTarget = some .gSecondPortalRenderTarget)
            ∨ r.device.depthStencil = some .gShadowMap2DepthStencil
            ∨ r.device.depthStencil = some .gShadowMap3DepthStencil))).map
        (fun r => (r.model, r.device.renderTarget, r.device.depthStencil,
          r.device.psResources 0, r.device.psResources 2, r.device.psResources 3,
          r.device.psResources 4))
      = [(.gPortal, some .gPortalRenderTarget, some .gPortalDepthStencilView,
            some .gPortalTextureSRV, some .gShadowMap2SRV, some .gShadowMap2SRV,
            some .gShadowMap3SRV),
         (.gPortal, some .gPortalRenderTarget, some .gPortalDepthStencilView,
            some .gPortalTextureSRV, some .gShadowMap2SRV, some .gShadowMap2SRV,
            some .gShadowMap3SRV),
         (.gSecondPortal, some .gSecondPortalRenderTarget, some .gPortalDepthStencilView,
            some .gSecondPortalTextureSRV, some .gShadowMap2SRV, some .gShadowMap2SRV,
            some .gShadowMap3SRV),
         (.gGround, none, some .gShadowMap2DepthStencil, s.srvAt 11, some .gShadowMap2SRV,
            some .gShadowMap2SRV, some .gShadowMap3SRV),
         (.gCharacter, none, some .gShadowMap2DepthStencil, s.srvAt 11, some .gShadowMap2SRV,
            some .gShadowMap2SRV, some .gShadowMap3SRV),
         (.gCrate, none, some .gShadowMap2DepthStencil, s.srvAt 11, some .gShadowMap2SRV,
            some .gShadowMap2SRV, some .gShadowMap3SRV),
         (.gGround, none, some .gShadowMap3DepthStencil, s.srvAt 11, some .gShadowMap2SRV,
            some .gShadowMap2SRV, some .gShadowMap3SRV),
         (.gCharacter, none, some .gShadowMap3DepthStencil, s.srvAt 11, some .gShadowMap2SRV,
            some .gShadowMap2SRV, some .gShadowMap3SRV),
         (.gCrate, none, some .gShadowMap3DepthStencil, s.srvAt 11, some .gShadowMap2SRV,
            some .gShadowMap2SRV, some .gShadowMap3SRV)] := by
  dsimp only [frameCmds, frameBody, cmdsPortalTarget, cmdsPortalViewport,
    cmdsSecondPortalTarget, cmdsShadowViewport, cmdsShadowTarget, cmdsDepthOnly,
    cmdsMainTarget, cmdsUnbind, cmdsPresent, colourPassCmds, cmdsStart, cmdsGround,
    cmdsCharacter, cmdsCrate, cmdsTroll, cmdsSpecular, cmdsPortal, cmdsMapped, cmdsWiggle,
    cmdsDecal, cmdsGlass, cmdsLightStates, lightDraws, range_NUM_LIGHTS, List.map,
    List.cons_append, List.nil_append]
  rfl

/-- C2: in one call of `RenderScene` on a ready scene, from any device state, draws are
issued while a view of the resource bound as their write target is bound to a pixel-shader
slot: the portal is drawn into the first portal's texture with that texture at slot 0, the
second portal into the second portal's texture with that texture at slot 0, and draws of the
shadow passes are issued into shadow map 2 with shadow map 2 still bound at the slots 2 and
3, and into shadow map 3 with shadow map 3 still bound at slot 4. -/
theorem RenderScene_draws_into_bound_texture {F : Type} [Field F] (h : Helpers F) (s : Scene F)
    (d : DeviceState F) (hr : s.ready = true) :
    ∃ t cmds,
      RenderScene h s = .ok (t, cmds)
      ∧ (∃ r ∈ drawLog d cmds, r.model = .gPortal
          ∧ r.device.renderTarget = some .gPortalRenderTarget
          ∧ r.device.psResources 0 = some .gPortalTextureSRV
          ∧ r.device.slotHazard 0 = true)
      ∧ (∃ r ∈ drawLog d cmds, r.model = .gSecondPortal
          ∧ r.device.renderTarget = some .gSecondPortalRenderTarget
          ∧ r.device.psResources 0 = some .gSecondPortalTextureSRV
          ∧ r.device.slotHazard 0 = true)
      ∧ (∃ r ∈ drawLog d cmds, r.device.depthStencil = some .gShadowMap2DepthStencil
          ∧ r.device.psResources 2 = some .gShadowMap2SRV
          ∧ r.device.psResources 3 = some .gShadowMap2SRV
          ∧ r.device.slotHazard 2 = true ∧ r.device.slotHazard 3 = true)
      ∧ (∃ r ∈ drawLog d cmds, r.device.depthStencil = some .gShadowMap3DepthStencil
          ∧ r.device.psResources 4 = some .gShadowMap3SRV
          ∧ r.device.slotHazard 4 = true) := by
  obtain ⟨pf, view4, view5, view7, t, -, -, -, -, hok⟩ := RenderScene_ok h s hr
  have hviews := frame_bound_views h s pf view4 view5 view7 d
  refine ⟨t, _, hok, ?_, ?_, ?_, ?_⟩
  · obtain ⟨r, hr, he⟩ := exists_of_filter_map _ _ _ _ _ hviews (List.mem_cons_self _ _)
    simp only [Prod.mk.injEq] at he
    obtain ⟨h1, h2, hd, h3, -⟩ := he
    refine ⟨r, hr, h1, h2, h3, ?_⟩
    simp only [DeviceState.slotHazard, h2, hd, h3]
    decide
  · obtain ⟨r, hr, he⟩ := exists_of_filter_map _ _ _ _ _ hviews
      (List.mem_cons_of_mem _ (List.mem_cons_of_mem _ (List.mem_cons_self _ _)))
    simp only [Prod.mk.injEq] at he
    obtain ⟨h1, h2, hd, h3, -⟩ := he
    refine ⟨r, hr, h1, h2, h3, ?_⟩
    simp only [DeviceState.slotHazard, h2, hd, h3]
    decide
  · obtain ⟨r, hr, he⟩ := exists_of_filter_map _ _ _ _ _ hviews
      (List.mem_cons_of_mem _ (List.mem_cons_of_mem _ (List.mem_cons_of_mem _
        (List.mem_cons_self _ _))))
    simp only [Prod.mk.injEq] at he
    obtain ⟨-, h1, h2, -, h3, h4, -⟩ := he
    refine ⟨r, hr, h2, h3, h4, ?_, ?_⟩
    · simp only [DeviceState.slotHazard, h1, h2, h3]
      decide
    · simp only [DeviceState.slotHazard, h1, h2, h4]
      decide
  · obtain ⟨r, hr, he⟩ := exists_of_filter_map _ _ _ _ _ hviews
      (List.mem_cons_of_mem _ (List.mem_cons_of_mem _ (List.mem_cons_of_mem _
        (List.mem_cons_of_mem _ (List.mem_cons_of_mem _ (List.mem_cons_of_mem _
          (List.mem_cons_self _ _)))))))
    simp only [Prod.mk.injEq] at he
    obtain ⟨-, h1, h2, -, -, -, h5⟩ := he
    refine ⟨r, hr, h2, h5, ?_⟩
    simp only [DeviceState.slotHazard, h1, h2, h5]
    decide

/-- C2 at a concrete input: the sample scene rendered on a fresh device. -/
theorem RenderScene_draws_into_bound_texture_witness :
    sampleSceneValue.ready = true
      ∧ ∃ t cmds, RenderScene sampleHelpers sampleSceneValue = .ok (t, cmds)
        ∧ ∃ r ∈ drawLog DeviceState.fresh cmds, r.model = .gPortal
          ∧ r.device.renderTarget = some .gPortalRenderTarget
          ∧ r.device.psResources 0 = some .gPortalTextureSRV := by
  obtain ⟨t, cmds, hok, ⟨r, hr, h1, h2, h3, -⟩, -⟩ :=
    RenderScene_draws_into_bound_texture sampleHelpers sampleSceneValue DeviceState.fresh
      (by decide)
  exact ⟨by decide, t, cmds, hok, r, hr, h1, h2, h3⟩

set_option maxRecDepth 100000 in
/-- C3: when `RenderScene` returns, shadow map 3 is still bound to pixel-shader slot 4, the
slot to which the ground binds it: the unbinding after the main pass sets the slots 1, 2 and
3 to null, and every binding of slot 4 in the frame binds shadow map 3. -/
theorem RenderScene_leaves_shadow_map_bound {F : Type} [Field F] (h : Helpers F) (s : Scene F)
    (d : DeviceState F) (hr : s.ready = true) :
    ∃ t cmds,
      RenderScene h s = .ok (t, cmds)
      ∧ (d.run cmds).psResources 4 = some .gShadowMap3SRV
      ∧ (d.run cmds).psResources 1 = none
      ∧ (d.run cmds).psResources 2 = none
      ∧ (d.run cmds).psResources 3 = none
      ∧ (cmds.filterMap Cmd.textureBinding).filter (fun b => decide (b.1 = 4))
          = [(4, some .gShadowMap3SRV), (4, some .gShadowMap3SRV),
             (4, some .gShadowMap3SRV), (4, some .gShadowMap3SRV)] := by
  obtain ⟨pf, view4, view5, view7, t, -, -, -, -, hok⟩ := RenderScene_ok h s hr
  refine ⟨t, _, hok, ?_⟩
  dsimp only [frameCmds, frameBody, cmdsPortalTarget, cmdsPortalViewport,
    cmdsSecondPortalTarget, cmdsShadowViewport, cmdsShadowTarget, cmdsDepthOnly,
    cmdsMainTarget, cmdsUnbind, cmdsPresent, colourPassCmds, cmdsStart, cmdsGround,
    cmdsCharacter, cmdsCrate, cmdsTroll, cmdsSpecular, cmdsPortal, cmdsMapped, cmdsWiggle,
    cmdsDecal, cmdsGlass, cmdsLightStates, lightDraws, range_NUM_LIGHTS, List.map,
    List.cons_append, List.nil_append]
  exact ⟨rfl, rfl, rfl, rfl, rfl⟩

/-- C3 at a concrete input: the sample scene rendered on a fresh device. -/
theorem RenderScene_leaves_shadow_map_bound_witness :
    sampleSceneValue.ready = true
      ∧ ∃ t cmds, RenderScene sampleHelpers sampleSceneValue = .ok (t, cmds)
        ∧ (DeviceState.fresh.run cmds).psResources 4 = some .gShadowMap3SRV := by
  obtain ⟨t, cmds, hok, h4, -⟩ :=
    RenderScene_leaves_shadow_map_bound sampleHelpers sampleSceneValue DeviceState.fresh
      (by decide)
  exact ⟨by decide, t, cmds, hok, h4⟩

/-- The common settings of `RenderScene` on a ready scene: the camera position written is
that of the main camera. -/
theorem setLightConstants_camera {F : Type} [Field F] (h : Helpers F) (s : Scene F) (hr : s.ready = true) :
    ∃ pf, setLightConstants h s = .ok pf ∧ pf.cameraPosition = s.gCamera.Position := by
  rw [← normalForm_eq s hr]
  exact ⟨_, rfl, rfl⟩

/-- C6: in one call of `RenderScene` every upload of the per-frame constants, those of the
passes rendered from the portal camera included, carries the position of the main camera
`gCamera` as `cameraPosition`. -/
theorem RenderScene_uploads_main_camera_position {F : Type} [Field F] (h : Helpers F) (s : Scene F)
    (d : DeviceState F) (hr : s.ready = true) :
    ∃ t cmds,
      RenderScene h s = .ok (t, cmds)
      ∧ (uploadLog d cmds).map (fun u => (u.1, u.2.1, u.2.2.cameraPosition))
          = [(some .gPortalRenderTarget, some .gPortalDepthStencilView, s.gCamera.Position),
             (some .gPortalRenderTarget, some .gPortalDepthStencilView, s.gCamera.Position),
             (some .gSecondPortalRenderTarget, some .gPortalDepthStencilView,
                s.gCamera.Position),
             (none, some .gShadowMap1DepthStencil, s.gCamera.Position),
             (none, some .gShadowMap2DepthStencil, s.gCamera.Position),
             (none, some .gShadowMap3DepthStencil, s.gCamera.Position),
             (some .gBackBufferRenderTarget, some .gDepthStencil, s.gCamera.Position)] := by
  obtain ⟨pf, view4, view5, view7, t, hpf, -, -, -, hok⟩ := RenderScene_ok h s hr
  obtain ⟨pf2, hpf2, hcam⟩ := setLightConstants_camera h s hr
  rw [hpf] at hpf2
  have e : pf = pf2 := by
    injection hpf2
  subst e
  refine ⟨t, _, hok, ?_⟩
  rw [frame_uploads, ← hcam]
  rfl

/-- C6 at a concrete input: in the sample scene the portal camera is not at the position of
the main camera, and the first upload, made for the portal, carries the position of the main
camera. -/
theorem RenderScene_uploads_main_camera_position_witness :
    sampleSceneValue.ready = true
      ∧ sampleSceneValue.gPortalCamera.Position = ⟨45, 45, 85⟩
      ∧ sampleSceneValue.gCamera.Position = ⟨40, 50, -300⟩
      ∧ ∃ t cmds, RenderScene sampleHelpers sampleSceneValue = .ok (t, cmds)
        ∧ ((uploadLog DeviceState.fresh cmds).map
              (fun u => (u.1, u.2.2.cameraPosition))).head?
            = some (some .gPortalRenderTarget, ⟨40, 50, -300⟩) := by
  obtain ⟨t, cmds, hok, hup⟩ :=
    RenderScene_uploads_main_camera_position sampleHelpers sampleSceneValue DeviceState.fresh
      (by decide)
  refine ⟨by decide, by decide, by decide, t, cmds, hok, ?_⟩
  have e : (uploadLog DeviceState.fresh cmds).map (fun u => (u.1, u.2.2.cameraPosition))
      = ((uploadLog DeviceState.fresh cmds).map
          (fun u => (u.1, u.2.1, u.2.2.cameraPosition))).map (fun x => (x.1, x.2.2)) := by
    rw [List.map_map]
    rfl
  rw [e, hup]
  decide

/-- C8: on a ready scene `RenderDepthBufferFromLight`, for each light, draws the ground, the
character and the crate, each once and nothing else, all with the vertex shader
`gBasicTransformVertexShader`, the pixel shader `gDepthOnlyPixelShader` and the no-blending
state bound, and binds no texture: at each draw the pixel-shader slots are those of the
device state it starts from. -/
theorem RenderDepthBufferFromLight_draws {F : Type} [Field F] (h : Helpers F) (s : Scene F)
    (lightIndex : Nat) (d : DeviceState F) (hr : s.ready = true)
    (hi : lightIndex < NUM_LIGHTS) :
    ∃ t cmds,
      RenderDepthBufferFromLight h s lightIndex = .ok (t, cmds)
      ∧ (drawLog d cmds).map (fun r => (r.model, r.device.vertexShader, r.device.pixelShader,
            r.device.blendState))
          = [(.gGround, some .gBasicTransformVertexShader, some .gDepthOnlyPixelShader,
                some .gNoBlendingState),
             (.gCharacter, some .gBasicTransformVertexShader, some .gDepthOnlyPixelShader,
                some .gNoBlendingState),
             (.gCrate, some .gBasicTransformVertexShader, some .gDepthOnlyPixelShader,
                some .gNoBlendingState)]
      ∧ cmds.filterMap Cmd.textureBinding = []
      ∧ ∀ slot, (drawLog d cmds).map (fun r => r.device.psResources slot)
          = [d.psResources slot, d.psResources slot, d.psResources slot] := by
  obtain ⟨view, hview⟩ := CalculateLightViewMatrix_ok h s hr lightIndex hi
  refine ⟨_, _, RenderDepthBufferFromLight_ok h s lightIndex view hview, ?_, ?_, ?_⟩
  · rfl
  · rfl
  · intro slot
    rfl

/-- C8 at a concrete input: the depth pass of light 4 of the sample scene on a fresh
device. -/
theorem RenderDepthBufferFromLight_draws_witness :
    sampleSceneValue.ready = true ∧ 4 < NUM_LIGHTS
      ∧ ∃ t cmds, RenderDepthBufferFromLight sampleHelpers sampleSceneValue 4 = .ok (t, cmds)
        ∧ (drawLog DeviceState.fresh cmds).map Draw.model = [.gGround, .gCharacter, .gCrate] := by
  obtain ⟨t, cmds, hok, hdraws, -⟩ :=
    RenderDepthBufferFromLight_draws sampleHelpers sampleSceneValue 4 DeviceState.fresh
      (by decide) (by decide)
  refine ⟨by decide, by decide, t, cmds, hok, ?_⟩
  have e : (drawLog DeviceState.fresh cmds).map Draw.model
      = ((drawLog DeviceState.fresh cmds).map (fun r => (r.model, r.device.vertexShader,
          r.device.pixelShader, r.device.blendState))).map Prod.fst := by
    rw [List.map_map]
    rfl
  rw [e, hdraws]
  rfl

/-- The light blocks written by the common settings of `RenderScene` on a ready scene. -/
theorem setLightConstants_blocks {F : Type} [Field F] (h : Helpers F) (s : Scene F)
    (hr : s.ready = true) :
    ∃ pf, setLightConstants h s = .ok pf
      ∧ ∀ i, i < NUM_LIGHTS →
        ∃ l m view,
          elemAt s.gLights i = .ok l ∧ l.GetModel = some m
          ∧ CalculateLightViewMatrix h s i = .ok view
          ∧ pf.lightColour (i + 1) = some (l.GetColor.scale l.GetStrength)
          ∧ pf.lightPosition (i + 1) = some m.Position
          ∧ pf.spot (i + 1)
              = if i = 4 ∨ i = 5 ∨ i = 7 then
                  some ⟨h.Normalise (GetZAxis (m.WorldMatrix h)),
                    h.cos (h.ToRadians (gSpotlightConeAngle / 2)), view,
                    CalculateLightProjectionMatrix h i⟩
                else none := by
  rw [← normalForm_eq s hr]
  refine ⟨_, rfl, ?_⟩
  intro i hi
  have h10 : i = 0 ∨ i = 1 ∨ i = 2 ∨ i = 3 ∨ i = 4 ∨ i = 5 ∨ i = 6 ∨ i = 7 ∨ i = 8 ∨ i = 9 := by
    simp only [NUM_LIGHTS] at hi
    omega
  rcases h10 with h | h | h | h | h | h | h | h | h | h <;> subst h <;>
    exact ⟨_, _, _, rfl, rfl, rfl, rfl, rfl, rfl⟩

/-- The constants uploaded by `RenderSceneFromCamera` keep the light blocks. -/
theorem cameraConstants_blocks {F : Type} (h : Helpers F) (pf : PerFrameConstants F)
    (camera : Camera F) (k : Nat) :
    (cameraConstants h pf camera).lightColour k = pf.lightColour k
      ∧ (cameraConstants h pf camera).lightPosition k = pf.lightPosition k
      ∧ (cameraConstants h pf camera).spot k = pf.spot k :=
  ⟨rfl, rfl, rfl⟩

/-- The constants uploaded by `RenderDepthBufferFromLight` keep the light blocks. -/
theorem shadowConstants_blocks {F : Type} [Field F] (h : Helpers F) (pf : PerFrameConstants F)
    (view : CMatrix4x4 F) (i k : Nat) :
    (shadowConstants h pf view i).lightColour k = pf.lightColour k
      ∧ (shadowConstants h pf view i).lightPosition k = pf.lightPosition k
      ∧ (shadowConstants h pf view i).spot k = pf.spot k :=
  ⟨rfl, rfl, rfl⟩

/-- C10: the per-frame constants built by `RenderScene` on a ready scene contain, for every
light index `i` from 0 to 9, in block `i + 1` the colour `GetColor() * GetStrength()` of
`gLights[i]` and the position of its proxy; the blocks of the lights 4, 5 and 7, and no
others, contain the spotlight fields: the normalised Z axis of the proxy's world matrix, the
cosine of half the cone angle, and the view and projection matrix of the same light; every
upload of the frame carries these blocks. -/
theorem RenderScene_light_blocks {F : Type} [Field F] (h : Helpers F) (s : Scene F)
    (d : DeviceState F) (hr : s.ready = true) :
    ∃ t cmds pf,
      RenderScene h s = .ok (t, cmds)
      ∧ setLightConstants h s = .ok pf
      ∧ (∀ i, i < NUM_LIGHTS →
          ∃ l m view,
            elemAt s.gLights i = .ok l ∧ l.GetModel = some m
            ∧ CalculateLightViewMatrix h s i = .ok view
            ∧ pf.lightColour (i + 1) = some (l.GetColor.scale l.GetStrength)
            ∧ pf.lightPosition (i + 1) = some m.Position
            ∧ pf.spot (i + 1)
                = if i = 4 ∨ i = 5 ∨ i = 7 then
                    some ⟨h.Normalise (GetZAxis (m.WorldMatrix h)),
                      h.cos (h.ToRadians (gSpotlightConeAngle / 2)), view,
                      CalculateLightProjectionMatrix h i⟩
                  else none)
      ∧ (uploadLog d cmds).length = 7
      ∧ ∀ u ∈ uploadLog d cmds, ∀ k,
          u.2.2.lightColour k = pf.lightColour k
            ∧ u.2.2.lightPosition k = pf.lightPosition k
            ∧ u.2.2.spot k = pf.spot k := by
  obtain ⟨pf, view4, view5, view7, t, hpf, -, -, -, hok⟩ := RenderScene_ok h s hr
  obtain ⟨pf2, hpf2, hblocks⟩ := setLightConstants_blocks h s hr
  rw [hpf] at hpf2
  have e : pf = pf2 := by
    injection hpf2
  subst e
  refine ⟨t, _, pf, hok, hpf, hblocks, ?_, ?_⟩
  · rw [frame_uploads]
    rfl
  · rw [frame_uploads]
    intro u hu k
    simp only [frameUploads, List.mem_cons, List.mem_singleton, List.not_mem_nil,
      or_false] at hu
    rcases hu with hu | hu | hu | hu | hu | hu | hu <;> subst hu
    · exact cameraConstants_blocks h pf _ k
    · exact cameraConstants_blocks h pf _ k
    · exact cameraConstants_blocks h pf _ k
    · exact shadowConstants_blocks h pf _ _ k
    · exact shadowConstants_blocks h pf _ _ k
    · exact shadowConstants_blocks h pf _ _ k
    · exact cameraConstants_blocks h pf _ k

/-- C10 at a concrete input: block 8 of the constants of the sample scene holds the colour
of light 7 scaled by its strength. -/
theorem RenderScene_light_blocks_witness :
    sampleSceneValue.ready = true
      ∧ ∃ pf l, setLightConstants sampleHelpers sampleSceneValue = .ok pf
        ∧ elemAt sampleSceneValue.gLights 7 = .ok l
        ∧ pf.lightColour 8 = some (l.GetColor.scale l.GetStrength) := by
  obtain ⟨t, cmds, pf, -, hpf, hblocks, -⟩ :=
    RenderScene_light_blocks sampleHelpers sampleSceneValue DeviceState.fresh (by decide)
  obtain ⟨l, m, view, hl, -, -, hc, -⟩ := hblocks 7 (by decide)
  exact ⟨by decide, pf, l, hpf, hl, hc⟩

/-- On a populated scene every light from 0 to 9 exists and has a proxy. -/
theorem populated_lightModel {F : Type} [Field F] (s : Scene F) (hp : s.populated = true)
    (i : Nat) (hi : i < NUM_LIGHTS) :
    ∃ l m, elemAt s.gLights i = .ok l ∧ l.mModel = some m ∧ s.lightModel i = .ok m := by
  rw [← populatedForm_eq s hp]
  have h10 : i = 0 ∨ i = 1 ∨ i = 2 ∨ i = 3 ∨ i = 4 ∨ i = 5 ∨ i = 6 ∨ i = 7 ∨ i = 8 ∨ i = 9 := by
    simp only [NUM_LIGHTS] at hi
    omega
  rcases h10 with h | h | h | h | h | h | h | h | h | h <;> subst h <;>
    exact ⟨_, _, rfl, rfl, rfl⟩

/-- The entries of the matrix that `InverseAffine` computes. -/
theorem InverseAffine_entries {F : Type} [Field F] (m : CMatrix4x4 F) :
    InverseAffine m = Matrix.of ![
      ![1 / det3 m * (m 1 1 * m 2 2 - m 1 2 * m 2 1), 1 / det3 m * (m 2 1 * m 0 2 - m 2 2 * m 0 1),
        1 / det3 m * (m 0 1 * m 1 2 - m 0 2 * m 1 1), 0],
      ![1 / det3 m * (m 1 2 * m 2 0 - m 1 0 * m 2 2), 1 / det3 m * (m 2 2 * m 0 0 - m 2 0 * m 0 2),
        1 / det3 m * (m 0 2 * m 1 0 - m 0 0 * m 1 2), 0],
      ![1 / det3 m * (m 1 0 * m 2 1 - m 1 1 * m 2 0), 1 / det3 m * (m 2 0 * m 0 1 - m 2 1 * m 0 0),
        1 / det3 m * (m 0 0 * m 1 1 - m 0 1 * m 1 0), 0],
      ![-(m 3 0) * (1 / det3 m * (m 1 1 * m 2 2 - m 1 2 * m 2 1))
          - m 3 1 * (1 / det3 m * (m 1 2 * m 2 0 - m 1 0 * m 2 2))
          - m 3 2 * (1 / det3 m * (m 1 0 * m 2 1 - m 1 1 * m 2 0)),
        -(m 3 0) * (1 / det3 m * (m 2 1 * m 0 2 - m 2 2 * m 0 1))
          - m 3 1 * (1 / det3 m * (m 2 2 * m 0 0 - m 2 0 * m 0 2))
          - m 3 2 * (1 / det3 m * (m 2 0 * m 0 1 - m 2 1 * m 0 0)),
        -(m 3 0) * (1 / det3 m * (m 0 1 * m 1 2 - m 0 2 * m 1 1))
          - m 3 1 * (1 / det3 m * (m 0 2 * m 1 0 - m 0 0 * m 1 2))
          - m 3 2 * (1 / det3 m * (m 0 0 * m 1 1 - m 0 1 * m 1 0)), 1]] := rfl

set_option maxHeartbeats 1000000 in
/-- What `InverseAffine` computes is a left inverse of an affine matrix whose upper-left 3x3
block has a non-zero determinant. -/
theorem InverseAffine_mul {F : Type} [Field F] (m : CMatrix4x4 F) (haff : IsAffine m)
    (hdet : det3 m ≠ 0) : InverseAffine m * m = 1 := by
  obtain ⟨h0, h1, h2, h3⟩ := haff
  have hID : 1 / det3 m * (m 0 0 * (m 1 1 * m 2 2 - m 1 2 * m 2 1)
      + m 0 1 * (m 1 2 * m 2 0 - m 1 0 * m 2 2)
      + m 0 2 * (m 1 0 * m 2 1 - m 1 1 * m 2 0)) = 1 := one_div_mul_cancel hdet
  ext i j
  fin_cases i <;> fin_cases j <;>
    simp only [Matrix.mul_apply, Fin.sum_univ_four, InverseAffine_entries, Matrix.of_apply,
      Matrix.cons_val_zero, Matrix.cons_val_one, Matrix.head_cons, Matrix.cons_val_two,
      Matrix.tail_cons, Matrix.cons_val_three, Fin.zero_eta, Fin.mk_one, Fin.reduceFinMk,
      Fin.isValue, Matrix.one_apply_eq, Matrix.one_apply_ne, ne_eq, Fin.reduceEq,
      not_false_eq_true, h0, h1, h2, h3, mul_zero, add_zero, zero_mul, mul_one] <;>
    first
      | ring1
      | linear_combination hID
      | linear_combination (-(m 3 0)) * hID
      | linear_combination (-(m 3 1)) * hID
      | linear_combination (-(m 3 2)) * hID


/-- The world matrix of a model with scale 0 has determinant 0. -/
theorem WorldMatrix_det_zero {F : Type} [Field F] (h : Helpers F) (m : Model F)
    (hs : m.mScale = 0) : (m.WorldMatrix h).det = 0 := by
  have hz : (MatrixScaling (0 : F)).det = 0 := by
    apply Matrix.det_eq_zero_of_row_eq_zero 0
    intro j
    fin_cases j <;> rfl
  simp only [Model.WorldMatrix, hs, Matrix.det_mul, hz, zero_mul]

/-- C9: the view matrix of the shadow-casting light 7 is not the inverse of its proxy's world
matrix in every reachable state. After `InitScene` and one `UpdateScene` with frame time
`3π/4` (exact real arithmetic) the strength of light 7 is `20 + 20 * sin (3π/2) = 0`, the
scale of its proxy is `pow(0, 0.7) = 0`, and the matrix that `CalculateLightViewMatrix`
computes for light 7 is not an inverse of the proxy's world matrix, on either side; no matrix
is, as the world matrix is singular. -/
theorem light7_view_not_inverse :
    ∃ s0 s cmds view m,
      InitScene realHelpers loadedTextures 1280 960 PerFrameConstants.zero
          PerModelConstants.zero = .ok s0
      ∧ UpdateScene realHelpers noKeys s0 (3 * Real.pi / 4) = .ok (s, cmds)
      ∧ (s.gLights.map Light.GetStrength)[7]? = some 0
      ∧ s.lightModel 7 = .ok m
      ∧ m.mScale = 0
      ∧ CalculateLightViewMatrix realHelpers s 7 = .ok view
      ∧ view * m.WorldMatrix realHelpers ≠ 1
      ∧ Reachable realHelpers s
      ∧ m.WorldMatrix realHelpers * view ≠ 1
      ∧ ∀ v : CMatrix4x4 ℝ, v * m.WorldMatrix realHelpers ≠ 1 := by
  obtain ⟨s0, hinit, hp0, -, hT0, -, -, hstr0, -⟩ :=
    InitScene_ok realHelpers loadedTextures 1280 960 PerFrameConstants.zero
      PerModelConstants.zero
  obtain ⟨s, cmds, hs, hsp, -, -, -, hstr, -⟩ :=
    UpdateScene_ok realHelpers noKeys s0 (3 * Real.pi / 4) hp0
  obtain ⟨s', cmds', hs', -, -, -, -, -, -, -, -, -, -, -, -, -, -, hscale, -⟩ :=
    UpdateScene_models realHelpers noKeys s0 (3 * Real.pi / 4) hp0
  have e : s' = s := (ok_scene_unique hs' hs).1
  subst e
  obtain ⟨l, m, hl, hm, hlm⟩ := populated_lightModel s' hsp 7 (by decide)
  have hsin : Real.sin ((s0.totalTime + 3 * Real.pi / 4) * 2.0) = -1 := by
    rw [hT0]
    have e : ((0 : ℝ) + 3 * Real.pi / 4) * 2.0 = Real.pi / 2 + Real.pi := by
      norm_num
      ring
    rw [e, Real.sin_add_pi, Real.sin_pi_div_two]
  have hl7 : s'.gLights[7]? = some l := by
    have := elemAt_eq_getElem? s'.gLights 7
    rw [hl] at this
    cases h7 : s'.gLights[7]? with
    | none => rw [h7] at this; cases this
    | some x =>
      rw [h7] at this
      injection this with this
      rw [this]
  have hlen : 7 < s'.gLights.length := by
    by_contra hc
    rw [List.getElem?_eq_none (by omega)] at hl7
    cases hl7
  have hscale7 : m.mScale = 0 := by
    have h1 := congrArg (fun x => x[7]?) hscale
    simp only [List.getElem?_map, hl7, Option.map_some', hm] at h1
    have hlen2 : 7 < ((s0.gLights.map (fun l => l.mModel.map Model.mScale)).set 0
        (some (realHelpers.pow (5.0 + realHelpers.sin ((s0.totalTime + 3 * Real.pi / 4) * 2.0)
          * 5.0) 0.7))).length := by
      have h2 := congrArg List.length hscale
      simp only [List.length_map, List.length_set] at h2 ⊢
      omega
    rw [List.getElem?_set_self hlen2] at h1
    simp only [Option.some.injEq] at h1
    rw [h1]
    simp only [realHelpers, Helpers.real]
    rw [hsin]
    norm_num
  have hnone : ∀ v : CMatrix4x4 ℝ, v * m.WorldMatrix realHelpers ≠ 1 := by
    intro v hone
    have hdet := congrArg Matrix.det hone
    rw [Matrix.det_mul, WorldMatrix_det_zero realHelpers m hscale7, mul_zero,
      Matrix.det_one] at hdet
    exact zero_ne_one hdet
  refine ⟨s0, s', cmds, InverseAffine (m.WorldMatrix realHelpers), m, hinit, hs, ?_, hlm,
    hscale7, ?_, hnone _, ?_, ?_, hnone⟩
  · rw [hstr]
    have hlen3 : 7 < ((s0.gLights.map Light.GetStrength).set 0
        (5.0 + realHelpers.sin ((s0.totalTime + 3 * Real.pi / 4) * 2.0) * 5.0)).length := by
      have h2 := congrArg List.length hstr
      simp only [List.length_map, List.length_set] at h2 ⊢
      omega
    rw [List.getElem?_set_self hlen3]
    simp only [realHelpers, Helpers.real]
    rw [hsin]
    norm_num
  · unfold CalculateLightViewMatrix
    rw [hlm]
    rfl
  · refine ⟨_, _, _, _, _, s0, [(noKeys, 3 * Real.pi / 4)], hinit, ?_⟩
    unfold runUpdates
    rw [List.foldlM_cons, hs]
    rfl
  · intro hone
    exact hnone _ (Matrix.mul_eq_one_comm.mp hone)

/-- Whenever the world matrix of the proxy of a light is affine and its
upper-left 3x3 block has a non-zero determinant, the view matrix computed by
`CalculateLightViewMatrix` is the exact inverse of that world matrix (on both sides), and the
proxy's own origin, the position row of the world matrix, maps to the view-space origin. -/
theorem CalculateLightViewMatrix_inverse {F : Type} [Field F] (h : Helpers F) (s : Scene F)
    (i : Nat) (m : Model F) (hm : s.lightModel i = .ok m)
    (haff : IsAffine (m.WorldMatrix h)) (hdet : det3 (m.WorldMatrix h) ≠ 0) :
    ∃ view, CalculateLightViewMatrix h s i = .ok view
      ∧ view * m.WorldMatrix h = 1
      ∧ m.WorldMatrix h * view = 1
      ∧ Matrix.vecMul (fun j => m.WorldMatrix h 3 j) view = ![0, 0, 0, 1] := by
  have hleft := InverseAffine_mul (m.WorldMatrix h) haff hdet
  have hright : m.WorldMatrix h * InverseAffine (m.WorldMatrix h) = 1 :=
    Matrix.mul_eq_one_comm.mp hleft
  refine ⟨InverseAffine (m.WorldMatrix h), ?_, hleft, hright, ?_⟩
  · unfold CalculateLightViewMatrix
    rw [hm]
    rfl
  · have hrow : Matrix.vecMul (fun j => m.WorldMatrix h 3 j) (InverseAffine (m.WorldMatrix h))
        = fun j => (m.WorldMatrix h * InverseAffine (m.WorldMatrix h)) 3 j := by
      ext j
      simp only [Matrix.vecMul, Matrix.dotProduct, Matrix.mul_apply]
    rw [hrow, hright]
    ext j
    fin_cases j <;> rfl

/-- The inverse view matrix at a concrete input: a light whose proxy is a new model, at the
origin with scale 1, and the plain helpers. -/
theorem CalculateLightViewMatrix_inverse_witness :
    lampScene.lightModel 0 = .ok (Model.new .gLightMesh)
      ∧ IsAffine ((Model.new .gLightMesh : Model ℚ).WorldMatrix sampleHelpers)
      ∧ det3 ((Model.new .gLightMesh : Model ℚ).WorldMatrix sampleHelpers) ≠ 0
      ∧ ∃ view, CalculateLightViewMatrix sampleHelpers lampScene 0 = .ok view
        ∧ view * (Model.new .gLightMesh : Model ℚ).WorldMatrix sampleHelpers = 1 := by
  have hm : lampScene.lightModel 0 = .ok (Model.new .gLightMesh) := rfl
  have hw : (Model.new .gLightMesh : Model ℚ).WorldMatrix sampleHelpers = 1 := by
    ext i j
    fin_cases i <;> fin_cases j <;>
      simp [Model.WorldMatrix, Model.new, sampleHelpers, plainHelpers, MatrixScaling,
        MatrixTranslation, Matrix.mul_apply, Fin.sum_univ_four, Matrix.one_apply,
        Matrix.vecHead, Matrix.vecTail]
  have haff : IsAffine ((Model.new .gLightMesh : Model ℚ).WorldMatrix sampleHelpers) := by
    rw [hw]
    simp [IsAffine]
  have hdet : det3 ((Model.new .gLightMesh : Model ℚ).WorldMatrix sampleHelpers) ≠ 0 := by
    rw [hw]
    simp [det3]
  obtain ⟨view, hview, hinv, -⟩ :=
    CalculateLightViewMatrix_inverse sampleHelpers lampScene 0 _ hm haff hdet
  exact ⟨hm, haff, hdet, view, hview, hinv⟩

/-- C25: for every size from 0 to 2^31 - 16 the byte width that `CreateConstantBuffer`
requests is `16 * ((size + 15) / 16)` without overflow, and it is the least multiple of 16
that is at least the size: a multiple of 16, at least the size, less than the size plus 16,
and the size itself when that is a multiple of 16. -/
theorem ByteWidth_rounds_up (size : Int) (h0 : 0 ≤ size) (h1 : size ≤ 2 ^ 31 - 16) :
    ByteWidth size = 16 * ((size + 15) / 16)
      ∧ (16 : Int) ∣ ByteWidth size
      ∧ size ≤ ByteWidth size
      ∧ ByteWidth size < size + 16
      ∧ ((16 : Int) ∣ size → ByteWidth size = size)
      ∧ ∀ k : Int, (16 : Int) ∣ k → size ≤ k → ByteWidth size ≤ k := by
  have h2 : size ≤ 2147483632 := by norm_num at h1; exact h1
  have e1 : wrapInt (size + 15) = size + 15 := by
    unfold wrapInt
    omega
  have e2 : Int.tdiv (size + 15) 16 = (size + 15) / 16 :=
    Int.tdiv_eq_ediv (by omega) (by decide)
  have e3 : wrapInt ((size + 15) / 16) = (size + 15) / 16 := by
    unfold wrapInt
    omega
  have e4 : wrapInt (16 * ((size + 15) / 16)) = 16 * ((size + 15) / 16) := by
    unfold wrapInt
    omega
  have e : ByteWidth size = 16 * ((size + 15) / 16) := by
    unfold ByteWidth
    rw [e1, e2, e3, e4]
    omega
  refine ⟨e, ?_, ?_, ?_, ?_, ?_⟩
  · rw [e]
    exact Dvd.intro _ rfl
  · rw [e]
    omega
  · rw [e]
    omega
  · intro hd
    rw [e]
    omega
  · intro k hk hsk
    rw [e]
    omega

/-- C25 at a concrete input: a size of 17 bytes gives a byte width of 32. -/
theorem ByteWidth_rounds_up_witness :
    (0 : Int) ≤ 17 ∧ (17 : Int) ≤ 2 ^ 31 - 16 ∧ ByteWidth 17 = 32 := by
  refine ⟨by decide, by decide, ?_⟩
  rw [(ByteWidth_rounds_up 17 (by decide) (by decide)).1]
  decide

/-- The loop yields as many parameters as the layout has elements. -/
theorem codeParameters_length :
    ∀ (l : List InputElementDesc) (ps : List String),
      codeParameters l = some ps → ps.length = l.length := by
  intro l
  induction l with
  | nil =>
    intro ps h
    simp only [codeParameters, Option.some.injEq] at h
    subst h
    rfl
  | cons e rest ih =>
    intro ps h
    unfold codeParameters at h
    cases hf : formatType e.Format with
    | none => simp [hf] at h
    | some type =>
      cases hr : codeParameters rest with
      | none => simp [hf, hr] at h
      | some qs =>
        simp only [hf, hr, Option.some.injEq] at h
        subst h
        simp [ih qs hr]

/-- The loop yields no parameters exactly when some element has a format outside the list of
supported formats. -/
theorem codeParameters_none_iff (l : List InputElementDesc) :
    codeParameters l = none ↔ ∃ e ∈ l, formatType e.Format = none := by
  induction l with
  | nil => simp [codeParameters]
  | cons e rest ih =>
    unfold codeParameters
    cases hf : formatType e.Format with
    | none => simp [hf]
    | some type =>
      cases hr : codeParameters rest with
      | none =>
        have := ih.mp hr
        simp only [List.mem_cons, exists_eq_or_imp, hf, false_or, true_iff]
        simpa using this
      | some qs =>
        have hno : ¬ ∃ e ∈ rest, formatType e.Format = none := fun hc => by
          rw [ih.mpr hc] at hr
          exact Option.noConfusion hr
        simp only [List.mem_cons, exists_eq_or_imp, hf, false_or, false_iff]
        simpa using hno

/-- The loop of `CreateSignatureForVertexLayout` from element `elt` on: it appends the
parameters of the remaining elements joined by the separator, or returns none when one of them
has a format it does not know. -/
theorem signatureLoop_spec (vertexLayout : List InputElementDesc) (numElements : Nat)
    (hn : numElements ≤ vertexLayout.length) :
    ∀ (remaining elt : Nat) (shaderSource : String), elt + remaining = numElements →
      signatureLoop vertexLayout numElements remaining elt shaderSource
        = .ok ((codeParameters ((vertexLayout.drop elt).take remaining)).map
            (fun ps => shaderSource ++ joinParameters ps)) := by
  intro remaining
  induction remaining with
  | zero =>
    intro elt src _
    simp [signatureLoop, codeParameters, joinParameters]
  | succ remaining ih =>
    intro elt src hsum
    have hlt : elt < vertexLayout.length := by omega
    have hdrop : vertexLayout.drop elt = vertexLayout[elt] :: vertexLayout.drop (elt + 1) :=
      List.drop_eq_getElem_cons hlt
    have helem : elemAt vertexLayout elt = .ok vertexLayout[elt] := by
      rw [elemAt_eq_getElem?, List.getElem?_eq_getElem hlt]
    rw [hdrop, List.take_succ_cons]
    unfold signatureLoop codeParameters
    rw [helem]
    dsimp only
    cases hf : formatType vertexLayout[elt].Format with
    | none => rfl
    | some type =>
      dsimp only
      rw [ih (elt + 1) _ (by omega)]
      cases hr : codeParameters ((vertexLayout.drop (elt + 1)).take remaining) with
      | none => rfl
      | some ps =>
        have hlen := codeParameters_length _ ps hr
        simp only [Option.map_some', Except.ok.injEq, Option.some.injEq]
        cases ps with
        | nil =>
          have hrem : remaining = 0 := by
            simp only [List.length_nil, List.length_take, List.length_drop] at hlen
            omega
          have hlast : ¬ ((elt : Int) ≠ (numElements : Int) - 1) := by omega
          simp only [hlast, if_false, joinParameters, String.append_assoc, String.append_empty]
        | cons q qs =>
          have hrem : remaining ≠ 0 := by
            intro h0
            subst h0
            simp at hlen
          have hnot : (elt : Int) ≠ (numElements : Int) - 1 := by omega
          simp only [hnot, ne_eq, not_false_eq_true, if_true, joinParameters,
            String.append_assoc]

/-- What `CreateSignatureForVertexLayout` does in terms of the parameters of the first
`numElements` elements. -/
theorem CreateSignatureForVertexLayout_eq {Blob : Type} (D3DCompile : String → Option Blob)
    (vertexLayout : List InputElementDesc) (numElements : Nat)
    (hn : numElements ≤ vertexLayout.length) :
    CreateSignatureForVertexLayout D3DCompile vertexLayout numElements
      = .ok (match codeParameters (vertexLayout.take numElements) with
          | none => (none, [])
          | some ps =>
              (D3DCompile ("float4 main(" ++ joinParameters ps ++ ") : SV_Position {return 0;}"),
                ["float4 main(" ++ joinParameters ps ++ ") : SV_Position {return 0;}"])) := by
  unfold CreateSignatureForVertexLayout
  rw [signatureLoop_spec vertexLayout numElements hn numElements 0 _ (by omega), List.drop_zero]
  cases codeParameters (vertexLayout.take numElements) <;> rfl

/-- A format has no HLSL type exactly when it is outside the list of supported formats. -/
theorem formatType_none_iff (format : DxgiFormat) :
    formatType format = none
      ↔ format ∉ [DxgiFormat.R32G32B32A32_FLOAT, .R32G32B32_FLOAT, .R32G32_FLOAT,
          .R32_FLOAT] := by
  cases format <;> simp [formatType]

/-- C21: `CreateSignatureForVertexLayout` returns `nullptr` and hands nothing to `D3DCompile`
whenever one of the first `numElements` layout elements has a format other than the four
supported ones; when all of them have supported formats it hands exactly one source to
`D3DCompile` and returns what `D3DCompile` returns. -/
theorem CreateSignatureForVertexLayout_unsupported {Blob : Type}
    (D3DCompile : String → Option Blob) (vertexLayout : List InputElementDesc)
    (numElements : Nat) (hn : numElements ≤ vertexLayout.length) :
    ((∃ e ∈ vertexLayout.take numElements,
          e.Format ∉ [DxgiFormat.R32G32B32A32_FLOAT, .R32G32B32_FLOAT, .R32G32_FLOAT,
            .R32_FLOAT]) →
        CreateSignatureForVertexLayout D3DCompile vertexLayout numElements = .ok (none, []))
      ∧ ((∀ e ∈ vertexLayout.take numElements,
          e.Format ∈ [DxgiFormat.R32G32B32A32_FLOAT, .R32G32B32_FLOAT, .R32G32_FLOAT,
            .R32_FLOAT]) →
        ∃ shaderSource,
          CreateSignatureForVertexLayout D3DCompile vertexLayout numElements
            = .ok (D3DCompile shaderSource, [shaderSource])) := by
  rw [CreateSignatureForVertexLayout_eq D3DCompile vertexLayout numElements hn]
  constructor
  · intro hbad
    have hnone : codeParameters (vertexLayout.take numElements) = none := by
      rw [codeParameters_none_iff]
      obtain ⟨e, he, hf⟩ := hbad
      exact ⟨e, he, (formatType_none_iff _).mpr hf⟩
    rw [hnone]
  · intro hgood
    cases hc : codeParameters (vertexLayout.take numElements) with
    | none =>
      obtain ⟨e, he, hf⟩ := (codeParameters_none_iff _).mp hc
      exact absurd (hgood e he) ((formatType_none_iff _).mp hf)
    | some ps => exact ⟨_, rfl⟩

/-- C21 at a concrete input: a layout whose second element has an unsupported format. -/
theorem CreateSignatureForVertexLayout_unsupported_witness :
    2 ≤ unsupportedLayout.length
      ∧ CreateSignatureForVertexLayout (fun source => some source) unsupportedLayout 2
          = .ok (none, []) :=
  ⟨by decide,
    (CreateSignatureForVertexLayout_unsupported (fun source => some source) unsupportedLayout 2
      (by decide)).1 ⟨⟨"COLOR", 0, .other 28⟩, by decide, by decide⟩⟩

/-- For a semantic index below 10 the character appended by the code is the decimal
representation of the index. -/
theorem indexedName_digit (e : InputElementDesc) (h : e.SemanticIndex < 10) :
    indexedName e = e.SemanticName ++ toString e.SemanticIndex := by
  have hd : ∀ i : Nat, i < 10 →
      String.singleton (Char.ofNat ((48 + i % 256) % 256)) = toString i := by
    intro i hi
    interval_cases i <;> rfl
  unfold indexedName
  rw [← hd e.SemanticIndex h]
  apply String.ext
  simp [String.singleton]

/-- When all semantic indices are below 10 the loop appends the parameters that the
specification gives. -/
theorem codeParameters_eq_spec (l : List InputElementDesc)
    (h : ∀ e ∈ l, e.SemanticIndex < 10) : codeParameters l = specParameters l := by
  induction l with
  | nil => rfl
  | cons e rest ih =>
    unfold codeParameters specParameters
    rw [ih (fun x hx => h x (List.mem_cons_of_mem _ hx)),
      indexedName_digit e (h e (List.mem_cons_self _ _))]
    rfl

/-- C30: for an element with semantic name "TEXCOORD" and semantic index 10 the code appends
the single character ':' (code '0' + 10) to the name, where the decimal representation is
"10": the source handed to `D3DCompile` declares the parameter `TEXCOORD:` and not
`TEXCOORD10`. -/
theorem CreateSignatureForVertexLayout_index_ten :
    CreateSignatureForVertexLayout (fun source => some source) indexTenLayout 1
        = .ok (some "float4 main(float2 TEXCOORD: : TEXCOORD:) : SV_Position {return 0;}",
            ["float4 main(float2 TEXCOORD: : TEXCOORD:) : SV_Position {return 0;}"])
      ∧ specParameters indexTenLayout = some ["float2 TEXCOORD10 : TEXCOORD10"] := by
  constructor
  · rw [CreateSignatureForVertexLayout_eq _ _ _ (by decide)]
    exact congrArg Except.ok (by decide)
  · decide

/-- When the first `numElements` layout elements have supported formats and semantic indices
below 10, the source handed to `D3DCompile` is "float4 main(", the
parameters of the specification joined by " , ", and ") : SV_Position {return 0;}"; for
`numElements = 0` the parameter list is empty. -/
theorem CreateSignatureForVertexLayout_source {Blob : Type}
    (D3DCompile : String → Option Blob) (vertexLayout : List InputElementDesc)
    (numElements : Nat) (parameters : List String) (hn : numElements ≤ vertexLayout.length)
    (hindex : ∀ e ∈ vertexLayout.take numElements, e.SemanticIndex < 10)
    (hparameters : specParameters (vertexLayout.take numElements) = some parameters) :
    CreateSignatureForVertexLayout D3DCompile vertexLayout numElements
        = .ok (D3DCompile ("float4 main(" ++ joinParameters parameters
                ++ ") : SV_Position {return 0;}"),
            ["float4 main(" ++ joinParameters parameters ++ ") : SV_Position {return 0;}"])
      ∧ (numElements = 0 → parameters = [] ∧ joinParameters parameters = "") := by
  constructor
  · rw [CreateSignatureForVertexLayout_eq D3DCompile vertexLayout numElements hn,
      codeParameters_eq_spec _ hindex, hparameters]
  · intro h0
    subst h0
    simp only [List.take_zero, specParameters, Option.some.injEq] at hparameters
    subst hparameters
    exact ⟨rfl, rfl⟩

/-- The source for a layout of three elements with semantic indices below 10. -/
theorem CreateSignatureForVertexLayout_source_witness :
    3 ≤ sampleLayout.length
      ∧ (∀ e ∈ sampleLayout.take 3, e.SemanticIndex < 10)
      ∧ specParameters (sampleLayout.take 3)
          = some ["float3 POSITION0 : POSITION0", "float3 NORMAL0 : NORMAL0",
              "float2 TEXCOORD1 : TEXCOORD1"]
      ∧ CreateSignatureForVertexLayout (fun source => some source) sampleLayout 3
          = .ok (some ("float4 main(" ++ joinParameters ["float3 POSITION0 : POSITION0",
                "float3 NORMAL0 : NORMAL0", "float2 TEXCOORD1 : TEXCOORD1"]
                ++ ") : SV_Position {return 0;}"),
              ["float4 main(" ++ joinParameters ["float3 POSITION0 : POSITION0",
                "float3 NORMAL0 : NORMAL0", "float2 TEXCOORD1 : TEXCOORD1"]
                ++ ") : SV_Position {return 0;}"]) :=
  ⟨by decide, by decide, by decide,
    (CreateSignatureForVertexLayout_source (fun source => some source) sampleLayout 3 _
      (by decide) (by decide) (by decide)).1⟩

/-- C22: every draw of `RenderScene` on a ready scene, from any device state, is issued with
the states of its technique: the draws of the four colour passes with the states of
`colourPassStates` (the opaque models with no blending, the depth buffer in use and back-face
culling, the troll outline with front-face culling, the decal, cube 6 and the light proxies
with additive blending, read-only depth and no culling, cube 4 with multiplicative blending,
read-only depth and no culling), and the draws of the three shadow passes with no blending,
the depth buffer in use and back-face culling. -/
theorem RenderScene_draw_states {F : Type} [Field F] (h : Helpers F) (s : Scene F)
    (d : DeviceState F) (hr : s.ready = true) :
    ∃ t cmds,
      RenderScene h s = .ok (t, cmds)
      ∧ (drawLog d cmds).map (fun r => (r.model, r.states))
          = colourPassStates ++ colourPassStates ++ colourPassStates
            ++ depthOnlyStates ++ depthOnlyStates ++ depthOnlyStates ++ colourPassStates
      ∧ (∀ m ∈ [ModelId.gGround, .gCharacter, .gCrate, .gCube 0, .gCube 1, .gCube 2, .gCube 3,
            .gCube 5, .gTeapot, .gCubeMulti, .gPortal, .gSecondPortal, .gBike, .gSphere],
          ∀ x ∈ colourPassStates, x.1 = m →
            x.2 = (some .gNoBlendingState, some .gUseDepthBufferState, some .gCullBackState))
      ∧ colourPassStates.filter (fun x => decide (x.1 = .gTroll))
          = [(.gTroll, some .gNoBlendingState, some .gUseDepthBufferState,
                some .gCullFrontState),
             (.gTroll, some .gNoBlendingState, some .gUseDepthBufferState,
                some .gCullBackState)]
      ∧ (∀ x ∈ colourPassStates,
          (x.1 = .gDecal ∨ x.1 = .gCube 6 ∨ ∃ i, x.1 = .lightModel i) →
            x.2 = (some .gAdditiveBlendingState, some .gDepthReadOnlyState,
              some .gCullNoneState))
      ∧ (∀ x ∈ colourPassStates, x.1 = .gCube 4 →
            x.2 = (some .gMultiplicativeBlendState, some .gDepthReadOnlyState,
              some .gCullNoneState))
      ∧ ∀ x ∈ depthOnlyStates,
          x.2 = (some .gNoBlendingState, some .gUseDepthBufferState, some .gCullBackState) := by
  obtain ⟨pf, view4, view5, view7, t, -, -, -, -, hok⟩ := RenderScene_ok h s hr
  refine ⟨t, _, hok, ?_, by decide, by decide, ?_, by decide, by decide⟩
  · have e : (drawLog d (frameCmds h s pf view4 view5 view7)).map (fun r => (r.model, r.states))
        = ((drawLog d (frameCmds h s pf view4 view5 view7)).map Draw.info).map
          (fun i => (i.model, i.states)) := by
      rw [List.map_map]
      rfl
    rw [e, frame_draws]
    rfl
  · intro x hx hm
    have hall : ∀ y ∈ colourPassStates,
        (decide (y.1 = .gDecal) || decide (y.1 = .gCube 6)
            || (match y.1 with | .lightModel _ => true | _ => false)) = true →
          y.2 = (some .gAdditiveBlendingState, some .gDepthReadOnlyState,
            some .gCullNoneState) := by decide
    apply hall x hx
    rcases hm with hm | hm | ⟨i, hm⟩ <;> simp [hm]

/-- C22 at a concrete input: the sample scene rendered on a fresh device issues 125 draws. -/
theorem RenderScene_draw_states_witness :
    sampleSceneValue.ready = true
      ∧ ∃ t cmds, RenderScene sampleHelpers sampleSceneValue = .ok (t, cmds)
        ∧ ((drawLog DeviceState.fresh cmds).map (fun r => (r.model, r.states))).length
            = 125 := by
  obtain ⟨t, cmds, hok, hstates, -⟩ :=
    RenderScene_draw_states sampleHelpers sampleSceneValue DeviceState.fresh (by decide)
  refine ⟨by decide, t, cmds, hok, ?_⟩
  rw [hstates]
  rfl

set_option maxRecDepth 100000 in
/-- The viewport that one frame leaves bound is that of the main window. -/
theorem frame_final_viewport {F : Type} [Field F] (h : Helpers F) (s : Scene F)
    (pf : PerFrameConstants F) (view4 view5 view7 : CMatrix4x4 F) (d : DeviceState F) :
    (d.run (frameCmds h s pf view4 view5 view7)).viewport
      = some (viewportOfSize s.gViewportWidth s.gViewportHeight) := by
  dsimp only [frameCmds, frameBody, cmdsPortalTarget, cmdsPortalViewport,
    cmdsSecondPortalTarget, cmdsShadowViewport, cmdsShadowTarget, cmdsDepthOnly,
    cmdsMainTarget, cmdsUnbind, cmdsPresent, colourPassCmds, cmdsStart, cmdsGround,
    cmdsCharacter, cmdsCrate, cmdsTroll, cmdsSpecular, cmdsPortal, cmdsMapped, cmdsWiggle,
    cmdsDecal, cmdsGlass, cmdsLightStates, lightDraws, range_NUM_LIGHTS, List.map,
    List.cons_append, List.nil_append]
  rfl

/-- C23: `RenderScene` leaves the viewport of the main window bound, and the first 29 draws
of a frame, those of the first call of `RenderSceneFromCamera` into the first portal's
target, are issued with the viewport that the device state had at the start of the frame, so
from the second frame on with the viewport of the main window and not with the portal's
dimensions; the other draws are issued with the dimensions of their target: the portal size
for the second pass into the first portal and for the second portal, the shadow map size for
the shadow passes, the window size for the main pass. -/
theorem RenderScene_first_pass_viewport {F : Type} [Field F] (h : Helpers F) (s : Scene F)
    (d : DeviceState F) (hr : s.ready = true) :
    ∃ t cmds,
      RenderScene h s = .ok (t, cmds)
      ∧ (d.run cmds).viewport = some (viewportOfSize s.gViewportWidth s.gViewportHeight)
      ∧ (((drawLog d cmds).map Draw.info).take 29).map (fun i => (i.renderTarget, i.viewport))
          = List.replicate 29 (some .gPortalRenderTarget, d.viewport)
      ∧ (((drawLog d cmds).map Draw.info).drop 29).map
            (fun i => (i.renderTarget, i.depthStencil, i.viewport))
          = List.replicate 29 (some .gPortalRenderTarget, some .gPortalDepthStencilView,
                some (viewportOfSize gPortalWidth gPortalHeight))
            ++ List.replicate 29 (some .gSecondPortalRenderTarget,
                some .gPortalDepthStencilView,
                some (viewportOfSize gPortalWidth gPortalHeight))
            ++ List.replicate 3 (none, some .gShadowMap1DepthStencil,
                some (viewportOfSize gShadowMapSize gShadowMapSize))
            ++ List.replicate 3 (none, some .gShadowMap2DepthStencil,
                some (viewportOfSize gShadowMapSize gShadowMapSize))
            ++ List.replicate 3 (none, some .gShadowMap3DepthStencil,
                some (viewportOfSize gShadowMapSize gShadowMapSize))
            ++ List.replicate 29 (some .gBackBufferRenderTarget, some .gDepthStencil,
                some (viewportOfSize s.gViewportWidth s.gViewportHeight)) := by
  obtain ⟨pf, view4, view5, view7, t, -, -, -, -, hok⟩ := RenderScene_ok h s hr
  refine ⟨t, _, hok, frame_final_viewport h s pf view4 view5 view7 d, ?_, ?_⟩
  · rw [frame_draws]
    rfl
  · rw [frame_draws]
    rfl

/-- C23 at a concrete input: the sample scene, with a window of 1280 by 960, rendered on a
device that a previous frame has left; the first draw into the portal's target is issued with
the viewport of the window. -/
theorem RenderScene_first_pass_viewport_witness :
    sampleSceneValue.ready = true
      ∧ ∃ t cmds, RenderScene sampleHelpers sampleSceneValue = .ok (t, cmds)
        ∧ ((((drawLog afterFrame cmds).map Draw.info).take 29).map
              (fun i => (i.renderTarget, i.viewport))).head?
            = some (some .gPortalRenderTarget, some (viewportOfSize 1280 960)) := by
  obtain ⟨t, cmds, hok, -, hfirst, -⟩ :=
    RenderScene_first_pass_viewport sampleHelpers sampleSceneValue afterFrame (by decide)
  refine ⟨by decide, t, cmds, hok, ?_⟩
  rw [hfirst]
  rfl

/-- C26: within one call of `RenderScene` on a ready scene the view and projection matrices
uploaded for the shadow passes of the lights 4, 5 and 7 (the uploads 3, 4 and 5 of the frame,
into the shadow maps 1, 2 and 3) are the matrices stored for the same lights, as `light5`,
`light6` and `light8`, in the constants uploaded for the main pass (upload 6); they are the
view matrices of `CalculateLightViewMatrix` and the projection matrices of
`CalculateLightProjectionMatrix`. -/
theorem RenderScene_shadow_matrices_agree {F : Type} [Field F] (h : Helpers F) (s : Scene F)
    (d : DeviceState F) (hr : s.ready = true) :
    ∃ t cmds u1 u2 u3 um,
      RenderScene h s = .ok (t, cmds)
      ∧ (uploadLog d cmds)[3]? = some (none, some .gShadowMap1DepthStencil, u1)
      ∧ (uploadLog d cmds)[4]? = some (none, some .gShadowMap2DepthStencil, u2)
      ∧ (uploadLog d cmds)[5]? = some (none, some .gShadowMap3DepthStencil, u3)
      ∧ (uploadLog d cmds)[6]?
          = some (some .gBackBufferRenderTarget, some .gDepthStencil, um)
      ∧ um.light5ViewMatrix = u1.viewMatrix
      ∧ um.light5ProjectionMatrix = u1.projectionMatrix
      ∧ um.light6ViewMatrix = u2.viewMatrix
      ∧ um.light6ProjectionMatrix = u2.projectionMatrix
      ∧ um.light8ViewMatrix = u3.viewMatrix
      ∧ um.light8ProjectionMatrix = u3.projectionMatrix
      ∧ CalculateLightViewMatrix h s 4 = .ok u1.viewMatrix
      ∧ CalculateLightViewMatrix h s 5 = .ok u2.viewMatrix
      ∧ CalculateLightViewMatrix h s 7 = .ok u3.viewMatrix
      ∧ u1.projectionMatrix = CalculateLightProjectionMatrix h 4
      ∧ u2.projectionMatrix = CalculateLightProjectionMatrix h 5
      ∧ u3.projectionMatrix = CalculateLightProjectionMatrix h 7 := by
  obtain ⟨pf, view4, view5, view7, t, hpf, h4, h5, h7, hok⟩ := RenderScene_ok h s hr
  obtain ⟨pf2, hpf2, hblocks⟩ := setLightConstants_blocks h s hr
  rw [hpf] at hpf2
  have e : pf = pf2 := by
    injection hpf2
  subst e
  obtain ⟨_l4, _m4, v4, _, _, hv4, _, _, hs4⟩ := hblocks 4 (by decide)
  obtain ⟨_l5, _m5, v5, _, _, hv5, _, _, hs5⟩ := hblocks 5 (by decide)
  obtain ⟨_l7, _m7, v7, _, _, hv7, _, _, hs7⟩ := hblocks 7 (by decide)
  rw [h4] at hv4
  rw [h5] at hv5
  rw [h7] at hv7
  have e4 : view4 = v4 := by injection hv4
  have e5 : view5 = v5 := by injection hv5
  have e7 : view7 = v7 := by injection hv7
  subst e4 e5 e7
  simp only [PerFrameConstants.spot, Nat.reduceAdd, true_or, or_true, if_true,
    Option.some.injEq, SpotFields.mk.injEq] at hs4 hs5 hs7
  refine ⟨t, _, shadowConstants h pf view4 4, shadowConstants h pf view5 5,
    shadowConstants h pf view7 7, cameraConstants h pf s.gCamera, hok, ?_, ?_, ?_, ?_,
    hs4.2.2.1, hs4.2.2.2, hs5.2.2.1, hs5.2.2.2, hs7.2.2.1, hs7.2.2.2, h4, h5, h7, rfl, rfl,
    rfl⟩ <;>
  · rw [frame_uploads]
    rfl

/-- C26 at a concrete input: the sample scene rendered on a fresh device. -/
theorem RenderScene_shadow_matrices_agree_witness :
    sampleSceneValue.ready = true
      ∧ ∃ t cmds u1 um, RenderScene sampleHelpers sampleSceneValue = .ok (t, cmds)
        ∧ (uploadLog DeviceState.fresh cmds)[3]?
            = some (none, some .gShadowMap1DepthStencil, u1)
        ∧ (uploadLog DeviceState.fresh cmds)[6]?
            = some (some .gBackBufferRenderTarget, some .gDepthStencil, um)
        ∧ um.light5ViewMatrix = u1.viewMatrix := by
  obtain ⟨t, cmds, u1, u2, u3, um, hok, h3, -, -, h6, hv, -⟩ :=
    RenderScene_shadow_matrices_agree sampleHelpers sampleSceneValue DeviceState.fresh
      (by decide)
  exact ⟨by decide, t, cmds, u1, um, hok, h3, h6, hv⟩

/-- After `InitScene` every light stores the position of its constructor, the origin, and the
proxies are where the set-up statements put them. -/
theorem InitScene_positions {F : Type} [Field F] (h : Helpers F) (textures : List Texture)
    (width height : Int) (pf : PerFrameConstants F) (pm : PerModelConstants F) :
    ∃ s, InitScene h textures width height pf pm = .ok s
      ∧ s.gLights.map Light.GetPosition = List.replicate 10 ⟨0, 0, 0⟩
      ∧ s.gLights.map (fun l => l.GetModel.map Model.Position)
          = [some ⟨0, 0, 0⟩, some ⟨-90, 40, -90⟩, some ⟨0, 0, 0⟩, some ⟨0, 0, 0⟩,
              some ⟨0, 0, 0⟩, some ⟨-20, 30, -60⟩, some ⟨0, 0, 0⟩, some ⟨0, 0, 0⟩,
              some ⟨0, 0, 0⟩, some ⟨0, 0, 0⟩] := by
  simp only [InitScene, range_NUM_LIGHTS, range_NUM_CUBES, replicate_NUM_LIGHTS, List.foldlM,
    List.foldl, setupLight, onLight, onLightModel, onCube, elemAt, deref, bind, Except.bind,
    pure, Except.pure, List.set, Light.SetModel, Light.GetModel, Light.new, Option.map,
    Light.SetColor, Light.SetStrength]
  exact ⟨_, rfl, rfl, rfl⟩

/-- One `UpdateScene` on a populated scene leaves the proxies of the lights 1 and 5 where they
are. -/
theorem UpdateScene_still_proxies {F : Type} [LinearOrderedField F] (h : Helpers F)
    (input : Input) (s : Scene F) (frameTime : F) (hs : s.populated = true) :
    ∃ t cmds, UpdateScene h input s frameTime = .ok (t, cmds)
      ∧ (t.gLights.map (fun l => l.GetModel.map Model.Position))[1]?
          = (s.gLights.map (fun l => l.GetModel.map Model.Position))[1]?
      ∧ (t.gLights.map (fun l => l.GetModel.map Model.Position))[5]?
          = (s.gLights.map (fun l => l.GetModel.map Model.Position))[5]? := by
  rw [← populatedForm_eq s hs]
  simp only [UpdateScene, Scene.populatedForm, range_NUM_LIGHTS, range_NUM_CUBES, List.map,
    List.cons_append, List.nil_append, onLight, onLightModel, onCube, elemAt, deref, bind,
    Except.bind, pure, Except.pure, List.set, Light.GetModel, Light.SetColor, Light.SetStrength]
  exact ⟨_, _, rfl, rfl, rfl⟩

/-- The Z axis of the world matrix of a model with scale 0 is the zero vector. -/
theorem WorldMatrix_zAxis_zero {F : Type} [Field F] (h : Helpers F) (m : Model F)
    (hs : m.mScale = 0) : GetZAxis (m.WorldMatrix h) = ⟨0, 0, 0⟩ := by
  have hrow : ∀ j, MatrixScaling (0 : F) 2 j = 0 := by
    intro j
    fin_cases j <;> rfl
  simp only [GetZAxis, Model.WorldMatrix, hs, Matrix.mul_apply, Fin.sum_univ_four, hrow,
    zero_mul, add_zero]

/-- After `InitScene` and one `UpdateScene` with frame time `3π/4` (exact real arithmetic) the
strength of light 7 is 0 and so is the scale of its proxy. -/
theorem light7_scale_zero :
    ∃ s0 s cmds l m,
      InitScene realHelpers loadedTextures 1280 960 PerFrameConstants.zero
          PerModelConstants.zero = .ok s0
      ∧ UpdateScene realHelpers noKeys s0 (3 * Real.pi / 4) = .ok (s, cmds)
      ∧ elemAt s.gLights 7 = .ok l
      ∧ l.GetModel = some m
      ∧ m.mScale = 0 := by
  obtain ⟨s0, hinit, hp0, -, hT0, -, -, hstr0, -⟩ :=
    InitScene_ok realHelpers loadedTextures 1280 960 PerFrameConstants.zero
      PerModelConstants.zero
  obtain ⟨s, cmds, hs, hsp, -⟩ :=
    UpdateScene_ok realHelpers noKeys s0 (3 * Real.pi / 4) hp0
  obtain ⟨s', cmds', hs', -, -, -, -, -, -, -, -, -, -, -, -, -, -, hscale, -⟩ :=
    UpdateScene_models realHelpers noKeys s0 (3 * Real.pi / 4) hp0
  have e : s' = s := (ok_scene_unique hs' hs).1
  subst e
  obtain ⟨l, m, hl, hm, hlm⟩ := populated_lightModel s' hsp 7 (by decide)
  have hsin : Real.sin ((s0.totalTime + 3 * Real.pi / 4) * 2.0) = -1 := by
    rw [hT0]
    have e : ((0 : ℝ) + 3 * Real.pi / 4) * 2.0 = Real.pi / 2 + Real.pi := by
      norm_num
      ring
    rw [e, Real.sin_add_pi, Real.sin_pi_div_two]
  have hl7 : s'.gLights[7]? = some l := by
    have := elemAt_eq_getElem? s'.gLights 7
    rw [hl] at this
    cases h7 : s'.gLights[7]? with
    | none => rw [h7] at this; cases this
    | some x =>
      rw [h7] at this
      injection this with this
      rw [this]
  have hscale7 : m.mScale = 0 := by
    have h1 := congrArg (fun x => x[7]?) hscale
    simp only [List.getElem?_map, hl7, Option.map_some', hm] at h1
    have hlen2 : 7 < ((s0.gLights.map (fun l => l.mModel.map Model.mScale)).set 0
        (some (realHelpers.pow (5.0 + realHelpers.sin ((s0.totalTime + 3 * Real.pi / 4) * 2.0)
          * 5.0) 0.7))).length := by
      have h2 := congrArg List.length hscale
      have hlen : 7 < s'.gLights.length := by
        by_contra hc
        rw [List.getElem?_eq_none (by omega)] at hl7
        cases hl7
      simp only [List.length_map, List.length_set] at h2 ⊢
      omega
    rw [List.getElem?_set_self hlen2] at h1
    simp only [Option.some.injEq] at h1
    rw [h1]
    simp only [realHelpers, Helpers.real]
    rw [hsin]
    norm_num
  exact ⟨s0, s', cmds, l, m, hinit, hs, hl, hm, hscale7⟩

/-- C27: the scale of the proxy of the shadow-casting light 7 is not strictly positive in
every reachable state. After `InitScene` and one `UpdateScene` with frame time `3π/4` (exact
real arithmetic) the strength of light 7 is `20 + 20 * sin (3π/2) = 0`, the scale of its
proxy is `pow(0, 0.7) = 0`, the proxy's world matrix has determinant 0 and is not invertible,
and its Z axis, which `RenderScene` normalises for the facing vector, is the zero vector. -/
theorem light7_proxy_degenerate :
    ∃ s0 s cmds l m,
      InitScene realHelpers loadedTextures 1280 960 PerFrameConstants.zero
          PerModelConstants.zero = .ok s0
      ∧ UpdateScene realHelpers noKeys s0 (3 * Real.pi / 4) = .ok (s, cmds)
      ∧ Reachable realHelpers s
      ∧ elemAt s.gLights 7 = .ok l
      ∧ l.GetModel = some m
      ∧ m.mScale = 0
      ∧ ¬ (0 < m.mScale)
      ∧ (m.WorldMatrix realHelpers).det = 0
      ∧ ¬ IsUnit (m.WorldMatrix realHelpers)
      ∧ GetZAxis (m.WorldMatrix realHelpers) = ⟨0, 0, 0⟩ := by
  obtain ⟨s0, s, cmds, l, m, hinit, hs, hl, hm, hscale⟩ := light7_scale_zero
  have hdet := WorldMatrix_det_zero realHelpers m hscale
  refine ⟨s0, s, cmds, l, m, hinit, hs, ?_, hl, hm, hscale, ?_, hdet, ?_,
    WorldMatrix_zAxis_zero realHelpers m hscale⟩
  · refine ⟨_, _, _, _, _, s0, [(noKeys, 3 * Real.pi / 4)], hinit, ?_⟩
    unfold runUpdates
    rw [List.foldlM_cons, hs]
    rfl
  · rw [hscale]
    exact lt_irrefl 0
  · rw [Matrix.isUnit_iff_isUnit_det, hdet]
    exact not_isUnit_zero

/-- C24: the three components of `colorVariation` that `UpdateScene` writes to the per-frame
constants are `0.5 + (sin (1.2 t) + 1) / 2`, `0.5 + (cos (1.5 t) + 1) / 2` and
`0.5 + (sin (0.7 t) + 1) / 2` for the accumulated total time `t` (exact real arithmetic): they
lie within `[0.5, 1.5]`, and not within `[0, 1]`: the first `UpdateScene` after `InitScene`
with frame time 0 writes the second component `0.5 + (cos 0 + 1) / 2 = 1.5`. -/
theorem UpdateScene_colorVariation_range (h : Helpers ℝ) (textures : List Texture)
    (width height : Int) (pf : PerFrameConstants ℝ) (pm : PerModelConstants ℝ)
    (frames : List (Input × ℝ)) (input : Input) (frameTime : ℝ) :
    ∃ s0 s t cmds,
      InitScene h.real textures width height pf pm = .ok s0
        ∧ runUpdates h.real s0 frames = .ok s
        ∧ UpdateScene h.real input s frameTime = .ok (t, cmds)
        ∧ cmds = [Cmd.UpdateConstantBuffer t.gPerFrameConstants]
        ∧ (∀ i, 1 / 2 ≤ t.gPerFrameConstants.colorVariation i
            ∧ t.gPerFrameConstants.colorVariation i ≤ 3 / 2)
        ∧ ∃ t0 c0, UpdateScene h.real input s0 0 = .ok (t0, c0)
            ∧ c0 = [Cmd.UpdateConstantBuffer t0.gPerFrameConstants]
            ∧ t0.gPerFrameConstants.colorVariation 1 = 3 / 2
            ∧ ¬ (t0.gPerFrameConstants.colorVariation 1 ≤ 1) := by
  obtain ⟨s0, hinit, hp0, -, hT0, -⟩ := InitScene_ok h.real textures width height pf pm
  obtain ⟨s, hrun, hsp, -⟩ := runUpdates_totalTime h.real frames s0 hp0
  obtain ⟨t, cmds, ht, -, -, -, -, -, -, -, -, -, hcv, hcmds⟩ :=
    UpdateScene_ok h.real input s frameTime hsp
  obtain ⟨t0, c0, ht0, -, -, -, -, -, -, -, -, -, hcv0, hcmds0⟩ :=
    UpdateScene_ok h.real input s0 0 hp0
  have h1 : t0.gPerFrameConstants.colorVariation 1 = 3 / 2 := by
    rw [hcv0, hT0]
    simp only [Helpers.real, Matrix.cons_val_one, Matrix.head_cons]
    norm_num
  refine ⟨s0, s, t, cmds, hinit, hrun, ht, hcmds, ?_, t0, c0, ht0, hcmds0, h1, ?_⟩
  · intro i
    rw [hcv]
    have hs1 := Real.neg_one_le_sin ((s.totalTime + frameTime) * 1.2)
    have hs2 := Real.sin_le_one ((s.totalTime + frameTime) * 1.2)
    have hc1 := Real.neg_one_le_cos ((s.totalTime + frameTime) * 1.5)
    have hc2 := Real.cos_le_one ((s.totalTime + frameTime) * 1.5)
    have hs3 := Real.neg_one_le_sin ((s.totalTime + frameTime) * 0.7)
    have hs4 := Real.sin_le_one ((s.totalTime + frameTime) * 0.7)
    fin_cases i <;> simp only [Helpers.real, Fin.zero_eta, Fin.mk_one, Fin.reduceFinMk,
      Matrix.cons_val_zero, Matrix.cons_val_one, Matrix.cons_val_two, Matrix.head_cons,
      Matrix.tail_cons] <;> norm_num <;> constructor <;> linarith
  · rw [h1]
    norm_num

/-- The position stored in a light and the position of its proxy are out of step in every
state reached by `InitScene` followed by any sequence of `UpdateScene` calls: every light keeps the position of its constructor, the origin, as `InitScene` and
`UpdateScene` move the proxies with `GetModel()->SetPosition` and never call
`Light::SetPosition`, while the proxy of light 1 is at `(-90, 40, -90)` and that of light 5 at
`(-20, 30, -60)`. -/
theorem light_position_out_of_sync {F : Type} [LinearOrderedField F] (h : Helpers F)
    (textures : List Texture) (width height : Int) (pf : PerFrameConstants F)
    (pm : PerModelConstants F) (frames : List (Input × F)) :
    ∃ s0 s,
      InitScene h textures width height pf pm = .ok s0
        ∧ runUpdates h s0 frames = .ok s
        ∧ s.gLights.map Light.GetPosition = List.replicate 10 ⟨0, 0, 0⟩
        ∧ (s.gLights.map (fun l => l.GetModel.map Model.Position))[1]?
            = some (some ⟨-90, 40, -90⟩)
        ∧ (s.gLights.map (fun l => l.GetModel.map Model.Position))[5]?
            = some (some ⟨-20, 30, -60⟩)
        ∧ ∃ l m, s.gLights[1]? = some l ∧ l.GetModel = some m
            ∧ l.GetPosition ≠ m.Position := by
  obtain ⟨s0, hinit, hp0, -⟩ := InitScene_ok h textures width height pf pm
  obtain ⟨s0', hinit', hpos0, hprox0⟩ := InitScene_positions h textures width height pf pm
  have e : s0' = s0 := Except.ok.inj (hinit'.symm.trans hinit)
  subst e
  obtain ⟨s, hrun, -, hpos, hp1, hp5⟩ := runUpdates_invariant h
    (fun s => s.gLights.map Light.GetPosition = List.replicate 10 ⟨0, 0, 0⟩
      ∧ (s.gLights.map (fun l => l.GetModel.map Model.Position))[1]?
          = some (some ⟨-90, 40, -90⟩)
      ∧ (s.gLights.map (fun l => l.GetModel.map Model.Position))[5]?
          = some (some ⟨-20, 30, -60⟩))
    (by
      intro input frameTime s t cmds hsp hP ht
      obtain ⟨t1, c1, h1, -, -, -, -, -, -, hpos, -⟩ := UpdateScene_ok h input s frameTime hsp
      obtain ⟨t2, c2, h2, hq1, hq5⟩ := UpdateScene_still_proxies h input s frameTime hsp
      have e1 : t1 = t := (ok_scene_unique h1 ht).1
      have e2 : t2 = t := (ok_scene_unique h2 ht).1
      subst e1
      subst e2
      exact ⟨hpos.trans hP.1, hq1.trans hP.2.1, hq5.trans hP.2.2⟩)
    frames s0' hp0 ⟨hpos0, by rw [hprox0]; rfl, by rw [hprox0]; rfl⟩
  refine ⟨s0', s, hinit, hrun, hpos, hp1, hp5, ?_⟩
  have hl := congrArg (fun x => x[1]?) hpos
  simp only [List.getElem?_map] at hl hp1
  cases h1 : s.gLights[1]? with
  | none => rw [h1] at hp1; cases hp1
  | some l =>
    rw [h1] at hp1 hl
    simp only [Option.map_some', Option.some.injEq] at hp1
    have hl0 : l.GetPosition = ⟨0, 0, 0⟩ := by
      have : some l.GetPosition = some (⟨0, 0, 0⟩ : CVector3 F) := hl
      injection this
    cases hm : l.GetModel with
    | none => rw [hm] at hp1; cases hp1
    | some m =>
      rw [hm] at hp1
      simp only [Option.map_some', Option.some.injEq] at hp1
      refine ⟨l, m, rfl, hm, ?_⟩
      rw [hl0, hp1]
      intro hc
      injection hc with hx hy hz
      norm_num at hy

/-- C28, counterexample: in the sample scene, directly after `InitScene` and also after one
`UpdateScene` with a frame time of one second, `GetPosition()` of light 1 is the origin while
its proxy is at `(-90, 40, -90)`: the two positions differ. -/
theorem light1_position_differs :
    (∃ s0 s,
      InitScene sampleHelpers loadedTextures 1280 960 PerFrameConstants.zero
          PerModelConstants.zero = .ok s0
        ∧ runUpdates sampleHelpers s0 [] = .ok s
        ∧ s.gLights.map Light.GetPosition = List.replicate 10 ⟨0, 0, 0⟩
        ∧ (s.gLights.map (fun l => l.GetModel.map Model.Position))[1]?
            = some (some ⟨-90, 40, -90⟩)
        ∧ (s.gLights.map (fun l => l.GetModel.map Model.Position))[5]?
            = some (some ⟨-20, 30, -60⟩)
        ∧ ∃ l m, s.gLights[1]? = some l ∧ l.GetModel = some m
            ∧ l.GetPosition ≠ m.Position)
    ∧ ∃ s0 s,
      InitScene sampleHelpers loadedTextures 1280 960 PerFrameConstants.zero
          PerModelConstants.zero = .ok s0
        ∧ runUpdates sampleHelpers s0 [(noKeys, 1)] = .ok s
        ∧ s.gLights.map Light.GetPosition = List.replicate 10 ⟨0, 0, 0⟩
        ∧ (s.gLights.map (fun l => l.GetModel.map Model.Position))[1]?
            = some (some ⟨-90, 40, -90⟩)
        ∧ (s.gLights.map (fun l => l.GetModel.map Model.Position))[5]?
            = some (some ⟨-20, 30, -60⟩)
        ∧ ∃ l m, s.gLights[1]? = some l ∧ l.GetModel = some m
            ∧ l.GetPosition ≠ m.Position :=
  ⟨light_position_out_of_sync sampleHelpers loadedTextures 1280 960 PerFrameConstants.zero
      PerModelConstants.zero [],
    light_position_out_of_sync sampleHelpers loadedTextures 1280 960 PerFrameConstants.zero
      PerModelConstants.zero [(noKeys, 1)]⟩

/-- On a populated scene the common settings of `RenderScene` are computed, and the position
written for each light is the position of its proxy. -/
theorem setLightConstants_positions {F : Type} [Field F] (h : Helpers F) (s : Scene F)
    (hp : s.populated = true) :
    ∃ pf, setLightConstants h s = .ok pf
      ∧ ∀ i, i < NUM_LIGHTS →
        ∃ l m, elemAt s.gLights i = .ok l ∧ l.GetModel = some m
          ∧ pf.lightPosition (i + 1) = some m.Position := by
  rw [← populatedForm_eq s hp]
  refine ⟨_, rfl, ?_⟩
  intro i hi
  have h10 : i = 0 ∨ i = 1 ∨ i = 2 ∨ i = 3 ∨ i = 4 ∨ i = 5 ∨ i = 6 ∨ i = 7 ∨ i = 8 ∨ i = 9 := by
    simp only [NUM_LIGHTS] at hi
    omega
  rcases h10 with h | h | h | h | h | h | h | h | h | h <;> subst h <;>
    exact ⟨_, _, rfl, rfl, rfl⟩

/-- C28, amended: after `InitScene` and any sequence of `UpdateScene` calls, `GetPosition()`
of every light is the origin, the default of the constructor of `Light`; the position of a
light is kept in its proxy only, and it is the proxy's position that `RenderScene` writes to
the per-frame constants as the position of the light. Directly after `InitScene` the proxies
of the lights other than 1 and 5 are at the origin as well; those of the lights 1 and 5 are
at `(-90, 40, -90)` and `(-20, 30, -60)` in every reachable state. -/
theorem light_position_kept_in_proxy {F : Type} [LinearOrderedField F] (h : Helpers F)
    (textures : List Texture) (width height : Int) (pf : PerFrameConstants F)
    (pm : PerModelConstants F) (frames : List (Input × F)) :
    ∃ s0 s constants,
      InitScene h textures width height pf pm = .ok s0
        ∧ runUpdates h s0 frames = .ok s
        ∧ s.gLights.map Light.GetPosition = List.replicate 10 ⟨0, 0, 0⟩
        ∧ s0.gLights.map (fun l => l.GetModel.map Model.Position)
            = [some ⟨0, 0, 0⟩, some ⟨-90, 40, -90⟩, some ⟨0, 0, 0⟩, some ⟨0, 0, 0⟩,
                some ⟨0, 0, 0⟩, some ⟨-20, 30, -60⟩, some ⟨0, 0, 0⟩, some ⟨0, 0, 0⟩,
                some ⟨0, 0, 0⟩, some ⟨0, 0, 0⟩]
        ∧ (s.gLights.map (fun l => l.GetModel.map Model.Position))[1]?
            = some (some ⟨-90, 40, -90⟩)
        ∧ (s.gLights.map (fun l => l.GetModel.map Model.Position))[5]?
            = some (some ⟨-20, 30, -60⟩)
        ∧ setLightConstants h s = .ok constants
        ∧ ∀ i, i < NUM_LIGHTS →
          ∃ l m, elemAt s.gLights i = .ok l ∧ l.GetModel = some m
            ∧ l.GetPosition = ⟨0, 0, 0⟩
            ∧ constants.lightPosition (i + 1) = some m.Position := by
  obtain ⟨s0, hinit, hp0, -⟩ := InitScene_ok h textures width height pf pm
  obtain ⟨s0', hinit', hpos0, hprox0⟩ := InitScene_positions h textures width height pf pm
  have e : s0' = s0 := Except.ok.inj (hinit'.symm.trans hinit)
  subst e
  obtain ⟨s, hrun, hsp, hpos, hp1, hp5⟩ := runUpdates_invariant h
    (fun s => s.gLights.map Light.GetPosition = List.replicate 10 ⟨0, 0, 0⟩
      ∧ (s.gLights.map (fun l => l.GetModel.map Model.Position))[1]?
          = some (some ⟨-90, 40, -90⟩)
      ∧ (s.gLights.map (fun l => l.GetModel.map Model.Position))[5]?
          = some (some ⟨-20, 30, -60⟩))
    (by
      intro input frameTime s t cmds hsp hP ht
      obtain ⟨t1, c1, h1, -, -, -, -, -, -, hpos, -⟩ := UpdateScene_ok h input s frameTime hsp
      obtain ⟨t2, c2, h2, hq1, hq5⟩ := UpdateScene_still_proxies h input s frameTime hsp
      have e1 : t1 = t := (ok_scene_unique h1 ht).1
      have e2 : t2 = t := (ok_scene_unique h2 ht).1
      subst e1
      subst e2
      exact ⟨hpos.trans hP.1, hq1.trans hP.2.1, hq5.trans hP.2.2⟩)
    frames s0' hp0 ⟨hpos0, by rw [hprox0]; rfl, by rw [hprox0]; rfl⟩
  obtain ⟨constants, hc, hall⟩ := setLightConstants_positions h s hsp
  refine ⟨s0', s, constants, hinit, hrun, hpos, hprox0, hp1, hp5, hc, ?_⟩
  intro i hi
  obtain ⟨l, m, hl, hm, hlp⟩ := hall i hi
  refine ⟨l, m, hl, hm, ?_, hlp⟩
  have hget : s.gLights[i]? = some l := by
    have := elemAt_eq_getElem? s.gLights i
    rw [hl] at this
    cases hi' : s.gLights[i]? with
    | none => rw [hi'] at this; cases this
    | some x =>
      rw [hi'] at this
      exact congrArg some (Except.ok.inj this).symm
  have h2 := congrArg (fun x => x[i]?) hpos
  simp only [List.getElem?_map, hget, Option.map_some'] at h2
  have hi10 : i < 10 := hi
  rw [List.getElem?_replicate] at h2
  simp only [hi10, if_true, Option.some.injEq] at h2
  exact h2

/-- The vector `textures` gets one entry for each constructor call that succeeds. -/
theorem texturesOf_newTexture (env : Loaders) (files : List String)
    (hall : ∀ file ∈ files, (Step.newTexture file).succeeds env = true) :
    (texturesOf env (files.map .newTexture)).length = files.length := by
  induction files with
  | nil => rfl
  | cons file rest ih =>
    have hfile := hall file (List.mem_cons_self _ _)
    have hrest := ih (fun f hf => hall f (List.mem_cons_of_mem _ hf))
    unfold texturesOf at hrest ⊢
    simp only [Step.succeeds, Step.failure] at hfile
    simp only [List.map_cons, List.filterMap_cons]
    cases hnew : Texture.new env file with
    | error text =>
      rw [hnew] at hfile
      cases hfile
    | ok pair =>
      obtain ⟨t, r⟩ := pair
      simp only [List.length_cons, hrest]

/-- Only the steps of the block that fills the vector `textures` add to it. -/
theorem texturesOf_geometry (env : Loaders) :
    texturesOf env (geometryBlocks.flatMap Block.steps)
      = texturesOf env (textureFiles.map .newTexture) := by
  rfl

/-- A successful `InitGeometry` leaves 18 textures in the vector `textures`. -/
theorem InitGeometry_textures (env : Loaders) (gLastError : String)
    (hgeo : (InitGeometry env gLastError).result = true) :
    (texturesOf env (InitGeometry env gLastError).executed).length = 18 := by
  rcases runBlocks_spec env geometryBlocks
      { result := false, gLastError := gLastError, executed := [] }
      (geometryBlocks_sound env) with ⟨-, -, hexec, hnone⟩ | ⟨hfalse, -⟩
  · have hsound := geometryBlocks_sound env textureBlock (by
      unfold geometryBlocks
      repeat (first | exact List.mem_cons_self _ _ | apply List.mem_cons_of_mem))
    have hfail := hnone textureBlock (by
      unfold geometryBlocks
      repeat (first | exact List.mem_cons_self _ _ | apply List.mem_cons_of_mem))
    have hall := hsound.2.1.mp hfail
    unfold InitGeometry
    rw [hexec, List.nil_append, texturesOf_geometry,
      texturesOf_newTexture env textureFiles (fun file hf =>
        hall _ (List.mem_map_of_mem _ hf))]
    rfl
  · unfold InitGeometry at hgeo
    rw [hfalse] at hgeo
    cases hgeo

/-- On a populated scene the cubes 0 to 6 exist. -/
theorem populated_cube {F : Type} [Field F] (s : Scene F) (hp : s.populated = true)
    (i : Nat) (hi : i < NUM_CUBES) :
    ∃ m, elemAt s.gCube i = .ok (some m) ∧ s.cube i = .ok m := by
  rw [← populatedForm_eq s hp]
  have h7 : i = 0 ∨ i = 1 ∨ i = 2 ∨ i = 3 ∨ i = 4 ∨ i = 5 ∨ i = 6 := by
    simp only [NUM_CUBES] at hi
    omega
  rcases h7 with h | h | h | h | h | h | h <;> subst h <;> exact ⟨_, rfl, rfl⟩

/-- C29: after a successful `InitGeometry` the vector `textures` has 18 entries, `InitScene`
with these textures succeeds, and in the scene it leaves, also after any sequence of
`UpdateScene` calls, every array access and pointer dereference of `RenderScene` and of
`RenderSceneFromCamera` succeeds (they return without a fault): the textures 0 to 17 exist,
the lights 0 to `NUM_LIGHTS - 1` exist and have a proxy, the cubes 0 to `NUM_CUBES - 1` exist
and are non-null. -/
theorem RenderScene_accesses_in_bounds {F : Type} [LinearOrderedField F] (h : Helpers F)
    (env : Loaders) (gLastError : String) (width height : Int) (pf : PerFrameConstants F)
    (pm : PerModelConstants F) (frames : List (Input × F))
    (hgeo : (InitGeometry env gLastError).result = true) :
    (texturesOf env (InitGeometry env gLastError).executed).length = 18
      ∧ ∃ s0 s,
        InitScene h (texturesOf env (InitGeometry env gLastError).executed) width height pf pm
            = .ok s0
        ∧ runUpdates h s0 frames = .ok s
        ∧ s.textures.length = 18
        ∧ s.gLights.length = NUM_LIGHTS
        ∧ (∀ i, i < 18 → ∃ t, elemAt s.textures i = .ok t ∧ s.textureSRV i = .ok t.GetTextureSRV)
        ∧ (∀ i, i < NUM_LIGHTS →
            ∃ l m, elemAt s.gLights i = .ok l ∧ l.GetModel = some m ∧ s.lightModel i = .ok m)
        ∧ (∀ i, i < NUM_CUBES → ∃ m, elemAt s.gCube i = .ok (some m) ∧ s.cube i = .ok m)
        ∧ (∃ t cmds, RenderScene h s = .ok (t, cmds))
        ∧ ∀ camera, ∃ t cmds, RenderSceneFromCamera h s camera = .ok (t, cmds) := by
  have hlen := InitGeometry_textures env gLastError hgeo
  obtain ⟨s0, hinit, hp0, htex0, -⟩ :=
    InitScene_ok h (texturesOf env (InitGeometry env gLastError).executed) width height pf pm
  obtain ⟨s0', hinit', hpos0, -⟩ :=
    InitScene_positions h (texturesOf env (InitGeometry env gLastError).executed) width height
      pf pm
  have e : s0' = s0 := Except.ok.inj (hinit'.symm.trans hinit)
  subst e
  obtain ⟨s, hrun, hsp, htex, hpos⟩ := runUpdates_invariant h
    (fun s => s.textures = texturesOf env (InitGeometry env gLastError).executed
      ∧ s.gLights.map Light.GetPosition = List.replicate 10 ⟨0, 0, 0⟩)
    (by
      intro input frameTime s t cmds hsp hP ht
      obtain ⟨t1, c1, h1, -, htex, -, -, -, -, hpos, -⟩ := UpdateScene_ok h input s frameTime hsp
      have e1 : t1 = t := (ok_scene_unique h1 ht).1
      subst e1
      exact ⟨htex.trans hP.1, hpos.trans hP.2⟩)
    frames s0' hp0 ⟨htex0, hpos0⟩
  have hslen : s.textures.length = 18 := by rw [htex, hlen]
  have hready : s.ready = true := by
    unfold Scene.ready
    rw [hslen, hsp]
    rfl
  refine ⟨hlen, s0', s, hinit, hrun, hslen, ?_, ?_, ?_, populated_cube s hsp, ?_, ?_⟩
  · have := congrArg List.length hpos
    simpa [NUM_LIGHTS] using this
  · intro i hi
    have hget : s.textures[i]? = some (s.textures.get ⟨i, by omega⟩) :=
      List.getElem?_eq_getElem _
    refine ⟨s.textures.get ⟨i, by omega⟩, ?_, ?_⟩
    · rw [elemAt_eq_getElem?, hget]
    · unfold Scene.textureSRV
      rw [elemAt_eq_getElem?, hget]
      rfl
  · intro i hi
    exact populated_lightModel s hsp i hi
  · obtain ⟨_, _, _, _, t, -, -, -, -, hok⟩ := RenderScene_ok h s hready
    exact ⟨t, _, hok⟩
  · intro camera
    exact ⟨_, _, RenderSceneFromCamera_ok h s camera hready⟩

/-- C29 at a concrete input: the loaders with which every step of `InitGeometry` succeeds, the
plain helpers over the rationals, a window of 1280 by 960 and no `UpdateScene` call. -/
theorem RenderScene_accesses_in_bounds_witness :
    (InitGeometry goodLoaders "").result = true
      ∧ (texturesOf goodLoaders (InitGeometry goodLoaders "").executed).length = 18
      ∧ ∃ s0 s,
        InitScene sampleHelpers (texturesOf goodLoaders (InitGeometry goodLoaders "").executed)
            1280 960 PerFrameConstants.zero PerModelConstants.zero = .ok s0
        ∧ runUpdates sampleHelpers s0 [] = .ok s
        ∧ s.textures.length = 18
        ∧ ∃ t cmds, RenderScene sampleHelpers s = .ok (t, cmds) := by
  obtain ⟨hlen, s0, s, hinit, hrun, hslen, -, -, -, -, hrender, -⟩ :=
    RenderScene_accesses_in_bounds sampleHelpers goodLoaders "" 1280 960 PerFrameConstants.zero
      PerModelConstants.zero [] (by decide)
  exact ⟨by decide, hlen, s0, s, hinit, hrun, hslen, hrender⟩

end Shading
